import Mathlib

/-!
Value abstraction layer of the script bridge (bridge/jsa/src/abstraction/js_type.cc)

A shallow embedding of the tagged value type, its ownership handle and the typed
views, together with theorems about them.

Engine operations (the virtual methods of `JSContext` and `PointerValue::invalidate`)
are parameters: a record of state-transforming functions that may raise.  Every call
that the source makes into the engine is recorded in a trace, so that statements such
as "no engine operation is invoked" can be expressed.
-/

namespace jsa

/-! ## Numbers -/

/-- A C++ `double`, kept as its IEEE-754 binary64 bit pattern. -/
structure Double where
  bits : Fin 18446744073709551616
deriving DecidableEq

/-- Biased exponent field (11 bits). -/
def Double.exponent (d : Double) : Nat := (d.bits.val / 4503599627370496) % 2048

/-- Fraction field (52 bits). -/
def Double.fraction (d : Double) : Nat := d.bits.val % 4503599627370496

/-- Not-a-number: exponent all ones and a non-zero fraction. -/
def Double.isNaN (d : Double) : Bool := d.exponent == 2047 && d.fraction != 0

/-- Positive or negative zero: every bit but the sign bit is clear. -/
def Double.isZero (d : Double) : Bool := d.bits.val % 9223372036854775808 == 0

/-- The built-in `==` of C++ on two doubles (IEEE-754 comparison): a NaN equals
nothing, the two zeros are equal, every other number equals only itself. -/
def Double.eq (a b : Double) : Bool :=
  !a.isNaN && !b.isNaN && (a.bits == b.bits || (a.isZero && b.isZero))

/-! ## Kinds, handles and the tagged value -/

/-- Modelled from the spec: the `ValueKind` enumeration of js_type.h (the header is
not among the sources).  The order is the one the spec lists and the one the
comparisons `kind_ >= PointerKind` and `kind_ >= ObjectKind` of js_type.cc rely on. -/
inductive ValueKind where
  | UndefinedKind
  | NullKind
  | BooleanKind
  | NumberKind
  | SymbolKind
  | StringKind
  | ObjectKind
deriving DecidableEq

/-- Numeric value of an enumerator. -/
def ValueKind.toNat : ValueKind → Nat
  | .UndefinedKind => 0
  | .NullKind => 1
  | .BooleanKind => 2
  | .NumberKind => 3
  | .SymbolKind => 4
  | .StringKind => 5
  | .ObjectKind => 6

/-- Modelled from the spec: `PointerKind`, the threshold from which on a kind carries
an ownership handle (Symbol, String, Object). -/
def PointerKind : ValueKind := .SymbolKind

/-- `a >= b` on enumerators. -/
def ValueKind.ge (a b : ValueKind) : Bool := decide (b.toNat ≤ a.toNat)

/-- An engine-allocated handle (`JSContext::PointerValue *`), known by its identity. -/
abbrev PointerValue := Nat

/-- The ownership handle `Pointer`: one raw handle, `none` for `nullptr`. -/
structure Pointer where
  ptr_ : Option PointerValue
deriving DecidableEq

/-- `Object` is a `Pointer` (subclass without further fields). -/
abbrev Object := Pointer
/-- `Symbol` is a `Pointer`. -/
abbrev Symbol := Pointer
/-- The script `String` view is a `Pointer`. -/
abbrev JSString := Pointer
/-- `Array` is an `Object`. -/
abbrev JSArray := Pointer
/-- `Function` is an `Object`. -/
abbrev JSFunction := Pointer

/-- The union `data_` of a `Value`: which member was written last. `uninit` is the
state the delegated constructor `Value(ValueKind)` leaves it in. -/
inductive Data where
  | uninit
  | boolean (b : Bool)
  | number (d : Double)
  | pointer (p : Pointer)
deriving DecidableEq

/-- Reading member `boolean` (meaningful only when it is the active member). -/
def Data.readBoolean : Data → Bool
  | .boolean b => b
  | _ => false

/-- Reading member `number` (meaningful only when it is the active member). -/
def Data.readNumber : Data → Double
  | .number d => d
  | _ => ⟨0⟩

/-- Reading member `pointer` (meaningful only when it is the active member). -/
def Data.readPointer : Data → Pointer
  | .pointer p => p
  | _ => ⟨none⟩

/-- The tagged value: `kind_` and the union `data_`. -/
structure Value where
  kind_ : ValueKind
  data_ : Data
deriving DecidableEq

/-- The active member of the union agrees with the kind: a boolean for Boolean, a
number for Number, a handle for Symbol, String and Object.  Undefined and Null
have no payload, so nothing is asked of the storage. -/
def Value.wellFormed (v : Value) : Bool :=
  match v.kind_, v.data_ with
  | .UndefinedKind, _ => true
  | .NullKind, _ => true
  | .BooleanKind, .boolean _ => true
  | .NumberKind, .number _ => true
  | .SymbolKind, .pointer _ => true
  | .StringKind, .pointer _ => true
  | .ObjectKind, .pointer _ => true
  | _, _ => false

/-- The handle a value holds: the raw handle of its `pointer` member when its kind
is a reference kind, nothing otherwise. -/
def Value.handle (v : Value) : Option PointerValue :=
  if v.kind_.ge PointerKind then v.data_.readPointer.ptr_ else none

/-- Modelled from the spec: `Value::isUndefined` (js_type.h), a test of the kind. -/
def Value.isUndefined (v : Value) : Bool := v.kind_ == .UndefinedKind
/-- Modelled from the spec: `Value::isNull` (js_type.h). -/
def Value.isNull (v : Value) : Bool := v.kind_ == .NullKind
/-- Modelled from the spec: `Value::isBool` (js_type.h). -/
def Value.isBool (v : Value) : Bool := v.kind_ == .BooleanKind
/-- Modelled from the spec: `Value::isNumber` (js_type.h). -/
def Value.isNumber (v : Value) : Bool := v.kind_ == .NumberKind
/-- Modelled from the spec: `Value::isString` (js_type.h). -/
def Value.isString (v : Value) : Bool := v.kind_ == .StringKind
/-- Modelled from the spec: `Value::isSymbol` (js_type.h). -/
def Value.isSymbol (v : Value) : Bool := v.kind_ == .SymbolKind
/-- Modelled from the spec: `Value::isObject` (js_type.h). -/
def Value.isObject (v : Value) : Bool := v.kind_ == .ObjectKind
/-- Modelled from the spec: `Value::getBool` (js_type.h), the stored boolean. -/
def Value.getBool (v : Value) : Bool := v.data_.readBoolean
/-- Modelled from the spec: `Value::getNumber` (js_type.h), the stored number. -/
def Value.getNumber (v : Value) : Double := v.data_.readNumber

/-! ## Failures -/

/-- Modelled from the spec: the two exception classes thrown by js_type.cc, `JSError`
and `JSANativeException` (js_error.h is not among the sources), each kept as the
message it is constructed with. -/
inductive JSException where
  | JSError (msg : String)
  | JSANativeException (msg : String)
deriving DecidableEq

/-! ## The engine contract -/

/-- One call into the engine, with its arguments. -/
inductive EngineCall where
  | cloneSymbol (p : Option PointerValue)
  | cloneString (p : Option PointerValue)
  | cloneObject (p : Option PointerValue)
  | strictEqualsSymbol (a b : Symbol)
  | strictEqualsString (a b : JSString)
  | strictEqualsObject (a b : Object)
  | isArray (o : Object)
  | isFunction (o : Object)
  | getProperty (o : Object) (name : String)
  | global
  | call (f : JSFunction) (args : List Value)
  | createStringFromUtf8 (bytes : List (Fin 256))
  | createArray (length : Nat)
  | setValueAtIndex (a : JSArray) (i : Nat) (v : Value)
  | invalidate (p : PointerValue)
deriving DecidableEq

/-- Outcome of an engine operation on engine state `σ`: a result or a raised
failure, and the next engine state. -/
abbrev EngineOp (σ α : Type) := σ → Except JSException α × σ

/-- Modelled from the spec: the engine contract `JSContext` (js_context.h is not
among the sources), one field for each operation that js_type.cc invokes on
`runtime` or on a handle. -/
structure JSContext (σ : Type) where
  cloneSymbol : Option PointerValue → EngineOp σ (Option PointerValue)
  cloneString : Option PointerValue → EngineOp σ (Option PointerValue)
  cloneObject : Option PointerValue → EngineOp σ (Option PointerValue)
  strictEqualsSymbol : Symbol → Symbol → EngineOp σ Bool
  strictEqualsString : JSString → JSString → EngineOp σ Bool
  strictEqualsObject : Object → Object → EngineOp σ Bool
  isArray : Object → EngineOp σ Bool
  isFunction : Object → EngineOp σ Bool
  getProperty : Object → String → EngineOp σ Value
  global : EngineOp σ Object
  call : JSFunction → List Value → EngineOp σ Value
  createStringFromUtf8 : List (Fin 256) → EngineOp σ JSString
  createArray : Nat → EngineOp σ JSArray
  setValueAtIndex : JSArray → Nat → Value → EngineOp σ Unit
  invalidate : PointerValue → σ → σ

/-- The engine state together with the calls made into the engine so far. -/
structure World (σ : Type) where
  engine : σ
  trace : List EngineCall

/-- A computation of the layer: from a world to a result or a thrown exception, and
the world afterwards. -/
def JSA (σ α : Type) : Type := World σ → Except JSException α × World σ

/-- Sequencing; a thrown exception skips the rest. -/
def JSA.bind {σ α β : Type} (m : JSA σ α) (f : α → JSA σ β) : JSA σ β :=
  fun w =>
    match m w with
    | (.ok a, w1) => f a w1
    | (.error e, w1) => (.error e, w1)

instance {σ : Type} : Monad (JSA σ) where
  pure a := fun w => (.ok a, w)
  bind := JSA.bind

/-- A C++ `throw`. -/
def JSA.throw {σ α : Type} (e : JSException) : JSA σ α := fun w => (.error e, w)

/-- Scope exit: `cleanup` (a destructor) runs after `m`, whether `m` returned or
threw, and the outcome of `m` is kept. -/
def JSA.finally {σ α : Type} (m : JSA σ α) (cleanup : JSA σ Unit) : JSA σ α :=
  fun w =>
    match m w with
    | (r, w1) => (r, (cleanup w1).2)

/-- A cleanup that runs only when `m` throws (a local destroyed during unwinding). -/
def JSA.onThrow {σ α : Type} (m : JSA σ α) (cleanup : JSA σ Unit) : JSA σ α :=
  fun w =>
    match m w with
    | (.ok a, w1) => (.ok a, w1)
    | (.error e, w1) => (.error e, (cleanup w1).2)

/-- Invoking an engine operation: it runs on the engine state and is recorded. -/
def JSA.invoke {σ α : Type} (c : EngineCall) (op : EngineOp σ α) : JSA σ α :=
  fun w => ((op w.engine).1, ⟨(op w.engine).2, w.trace ++ [c]⟩)

/-- The call `ptr->invalidate()`. -/
def JSA.invalidate {σ : Type} (rt : JSContext σ) (p : PointerValue) : JSA σ Unit :=
  fun w => (.ok (), ⟨rt.invalidate p w.engine, w.trace ++ [.invalidate p]⟩)

/-! ## Members declared in js_type.h -/

/-- Modelled from the spec: the destructor of `Pointer` (js_type.h): a held handle
is invalidated, a null handle needs nothing. -/
def Pointer.dtor {σ : Type} (rt : JSContext σ) (p : Pointer) : JSA σ Unit :=
  match p.ptr_ with
  | some h => JSA.invalidate rt h
  | none => pure ()

/-- Modelled from the spec: the move constructor of `Pointer` (js_type.h): the new
handle takes the reference and the source is nulled. The pair is (new, source). -/
def Pointer.moveCtor (other : Pointer) : Pointer × Pointer :=
  (⟨other.ptr_⟩, ⟨none⟩)

/-- Modelled from the spec: `Value::getObject` on a borrowed value (js_type.h):
a new handle is cloned by the engine. -/
def Value.getObject {σ : Type} (rt : JSContext σ) (self : Value) : JSA σ Object := do
  let h ← JSA.invoke (.cloneObject self.data_.readPointer.ptr_)
    (rt.cloneObject self.data_.readPointer.ptr_)
  pure ⟨h⟩

/-- Modelled from the spec: `Value::getSymbol` on a borrowed value (js_type.h). -/
def Value.getSymbol {σ : Type} (rt : JSContext σ) (self : Value) : JSA σ Symbol := do
  let h ← JSA.invoke (.cloneSymbol self.data_.readPointer.ptr_)
    (rt.cloneSymbol self.data_.readPointer.ptr_)
  pure ⟨h⟩

/-- Modelled from the spec: `Value::getString` on a borrowed value (js_type.h). -/
def Value.getString {σ : Type} (rt : JSContext σ) (self : Value) : JSA σ JSString := do
  let h ← JSA.invoke (.cloneString self.data_.readPointer.ptr_)
    (rt.cloneString self.data_.readPointer.ptr_)
  pure ⟨h⟩

/-- Modelled from the spec: the consuming `getSymbol` and `getString` of js_type.h:
the handle goes into the result and the value keeps a null handle, as in the
consuming `asObject`. The pair is (result, value afterwards). -/
def Value.takePointer (self : Value) : Pointer × Value :=
  (⟨self.data_.readPointer.ptr_⟩, ⟨self.kind_, .pointer ⟨none⟩⟩)

/-- Modelled from the spec: `Value(JSContext&, const Object&)` (js_type.h): an Object
value with a handle cloned by the engine. -/
def Value.fromObject {σ : Type} (rt : JSContext σ) (o : Object) : JSA σ Value := do
  let h ← JSA.invoke (.cloneObject o.ptr_) (rt.cloneObject o.ptr_)
  pure ⟨.ObjectKind, .pointer ⟨h⟩⟩

/-- Modelled from the spec: `Object::isFunction` (js_type.h), the engine predicate. -/
def Object.isFunction {σ : Type} (rt : JSContext σ) (self : Object) : JSA σ Bool :=
  JSA.invoke (.isFunction self) (rt.isFunction self)

/-- Modelled from the spec: `Object::isArray` (js_type.h), the engine predicate. -/
def Object.isArray {σ : Type} (rt : JSContext σ) (self : Object) : JSA σ Bool :=
  JSA.invoke (.isArray self) (rt.isArray self)

/-- Modelled from the spec: `Object::getProperty` by name (js_type.h), the property
read of the engine. -/
def Object.getProperty {σ : Type} (rt : JSContext σ) (self : Object) (name : String) :
    JSA σ Value :=
  JSA.invoke (.getProperty self name) (rt.getProperty self name)

/-- Modelled from the spec: the borrowing `Object::getArray` and `Object::getFunction`
(js_type.h): a new handle is cloned by the engine. -/
def Object.cloneView {σ : Type} (rt : JSContext σ) (self : Object) : JSA σ Pointer := do
  let h ← JSA.invoke (.cloneObject self.ptr_) (rt.cloneObject self.ptr_)
  pure ⟨h⟩

/-- Modelled from the spec: the consuming `Object::getArray` and `Object::getFunction`
(js_type.h): the handle goes into the result, the object keeps a null handle.
The pair is (result, object afterwards). -/
def Object.takeView (self : Object) : Pointer × Object :=
  (⟨self.ptr_⟩, ⟨none⟩)

/-! ## js_type.cc -/

/-- `Value::~Value`. -/
def Value.dtor {σ : Type} (rt : JSContext σ) (self : Value) : JSA σ Unit :=
  if self.kind_.ge PointerKind then
    Pointer.dtor rt self.data_.readPointer
  else
    pure ()

/-- `kindToString(const Value &v, JSContext *rt = nullptr)`; `none` is `nullptr`.  The
last branch is the one the source asserts to be an Object; the temporary
`v.getObject(*rt)` is destroyed once `isFunction` has answered. -/
def kindToString {σ : Type} (v : Value) (rt : Option (JSContext σ)) : JSA σ String :=
  if v.isUndefined then
    pure "undefined"
  else if v.isNull then
    pure "null"
  else if v.isBool then
    pure (if v.getBool then "true" else "false")
  else if v.isNumber then
    pure "a number"
  else if v.isString then
    pure "a string"
  else if v.isSymbol then
    pure "a symbol"
  else
    match rt with
    | none => pure "an object"
    | some rt => do
      let tmp ← Value.getObject rt v
      JSA.finally
        (do
          let f ← Object.isFunction rt tmp
          pure (if f then "a function" else "an object"))
        (Pointer.dtor rt tmp)

/-- `Value::Value(Value &&other)`. The pair is (new value, `other` afterwards). -/
def Value.moveCtor (other : Value) : Value × Value :=
  let this : Value := ⟨other.kind_, .uninit⟩
  let r : Value × Value :=
    if this.kind_ = .BooleanKind then
      (⟨this.kind_, .boolean other.data_.readBoolean⟩, other)
    else if this.kind_ = .NumberKind then
      (⟨this.kind_, .number other.data_.readNumber⟩, other)
    else if this.kind_.ge PointerKind then
      (⟨this.kind_, .pointer (Pointer.moveCtor other.data_.readPointer).1⟩,
        ⟨other.kind_, .pointer (Pointer.moveCtor other.data_.readPointer).2⟩)
    else
      (this, other)
  (r.1, ⟨.UndefinedKind, r.2.data_⟩)

/-- `Value::Value(JSContext &runtime, const Value &other) : Value(other.kind_)`.  The
delegated constructor `Value(ValueKind)` writes `kind_` and does not touch the union:
`storage` is the raw handle that a read of the never written member `data_.pointer`
yields.  Once the delegated constructor has returned the object counts as constructed,
so when a clone raises in the body, before anything was placed in `data_.pointer`, the
unwinding runs `~Value` on the object as it is then: `kind_` a reference kind and
`data_.pointer` still the storage. -/
def Value.copyCtor {σ : Type} (rt : JSContext σ) (other : Value)
    (storage : Option PointerValue) : JSA σ Value :=
  let this : Value := ⟨other.kind_, .uninit⟩
  if this.kind_ = .BooleanKind then
    pure ⟨this.kind_, .boolean other.data_.readBoolean⟩
  else if this.kind_ = .NumberKind then
    pure ⟨this.kind_, .number other.data_.readNumber⟩
  else if this.kind_ = .SymbolKind then
    JSA.onThrow
      (do
        let h ← JSA.invoke (.cloneSymbol other.data_.readPointer.ptr_)
          (rt.cloneSymbol other.data_.readPointer.ptr_)
        pure ⟨this.kind_, .pointer ⟨h⟩⟩)
      (Value.dtor rt ⟨this.kind_, .pointer ⟨storage⟩⟩)
  else if this.kind_ = .StringKind then
    JSA.onThrow
      (do
        let h ← JSA.invoke (.cloneString other.data_.readPointer.ptr_)
          (rt.cloneString other.data_.readPointer.ptr_)
        pure ⟨this.kind_, .pointer ⟨h⟩⟩)
      (Value.dtor rt ⟨this.kind_, .pointer ⟨storage⟩⟩)
  else if this.kind_.ge .ObjectKind then
    JSA.onThrow
      (do
        let h ← JSA.invoke (.cloneObject other.data_.readPointer.ptr_)
          (rt.cloneObject other.data_.readPointer.ptr_)
        pure ⟨this.kind_, .pointer ⟨h⟩⟩)
      (Value.dtor rt ⟨this.kind_, .pointer ⟨storage⟩⟩)
  else
    pure this

/-- `Value::strictEquals`. -/
def Value.strictEquals {σ : Type} (rt : JSContext σ) (a b : Value) : JSA σ Bool :=
  if a.kind_ ≠ b.kind_ then
    pure false
  else
    match a.kind_ with
    | .UndefinedKind => pure true
    | .NullKind => pure true
    | .BooleanKind => pure (a.data_.readBoolean == b.data_.readBoolean)
    | .NumberKind => pure (Double.eq a.data_.readNumber b.data_.readNumber)
    | .SymbolKind =>
      JSA.invoke (.strictEqualsSymbol a.data_.readPointer b.data_.readPointer)
        (rt.strictEqualsSymbol a.data_.readPointer b.data_.readPointer)
    | .StringKind =>
      JSA.invoke (.strictEqualsString a.data_.readPointer b.data_.readPointer)
        (rt.strictEqualsString a.data_.readPointer b.data_.readPointer)
    | .ObjectKind =>
      JSA.invoke (.strictEqualsObject a.data_.readPointer b.data_.readPointer)
        (rt.strictEqualsObject a.data_.readPointer b.data_.readPointer)

/-- `Value::asNumber`. -/
def Value.asNumber {σ : Type} (self : Value) : JSA σ Double :=
  if !self.isNumber then do
    let s ← kindToString self (none : Option (JSContext σ))
    JSA.throw (.JSANativeException ("Value is " ++ s ++ ", expected a number"))
  else
    pure self.getNumber

/-- `Value::asObject(JSContext &rt) const &`. -/
def Value.asObject {σ : Type} (rt : JSContext σ) (self : Value) : JSA σ Object :=
  if !self.isObject then do
    let s ← kindToString self (some rt)
    JSA.throw (.JSError ("Value is " ++ s ++ ", expected an Object"))
  else
    Value.getObject rt self

/-- `Value::asSymbol(JSContext &rt) const &`. -/
def Value.asSymbol {σ : Type} (rt : JSContext σ) (self : Value) : JSA σ Symbol :=
  if !self.isSymbol then do
    let s ← kindToString self (some rt)
    JSA.throw (.JSError ("Value is " ++ s ++ ", expected a Symbol"))
  else
    Value.getSymbol rt self

/-- `Value::asSymbol(JSContext &rt) &&`. The pair is (result, value afterwards). -/
def Value.asSymbolMove {σ : Type} (rt : JSContext σ) (self : Value) :
    JSA σ (Symbol × Value) :=
  if !self.isSymbol then do
    let s ← kindToString self (some rt)
    JSA.throw (.JSError ("Value is " ++ s ++ ", expected a Symbol"))
  else
    pure self.takePointer

/-- `Value::asString(JSContext &rt) const &`. -/
def Value.asString {σ : Type} (rt : JSContext σ) (self : Value) : JSA σ JSString :=
  if !self.isString then do
    let s ← kindToString self (some rt)
    JSA.throw (.JSError ("Value is " ++ s ++ ", expected a String"))
  else
    Value.getString rt self

/-- `Value::asString(JSContext &rt) &&`. The pair is (result, value afterwards). -/
def Value.asStringMove {σ : Type} (rt : JSContext σ) (self : Value) :
    JSA σ (JSString × Value) :=
  if !self.isString then do
    let s ← kindToString self (some rt)
    JSA.throw (.JSError ("Value is " ++ s ++ ", expected a String"))
  else
    pure self.takePointer

/-- `Object::getPropertyAsObject`. The local `v` is destroyed when the function is
left, by return or by throw. -/
def Object.getPropertyAsObject {σ : Type} (rt : JSContext σ) (self : Object)
    (name : String) : JSA σ Object := do
  let v ← Object.getProperty rt self name
  JSA.finally
    (if !v.isObject then do
      let s ← kindToString v (some rt)
      JSA.throw (.JSError ("getPropertyAsObject: property '" ++ name ++ "' is " ++ s ++
        ", expected an Object"))
    else
      Value.getObject rt v)
    (Value.dtor rt v)

/-- `Object::asArray(JSContext &runtime) const &`. The temporary `Value(runtime, *this)`
is destroyed when the throw expression is left. -/
def Object.asArray {σ : Type} (rt : JSContext σ) (self : Object) : JSA σ JSArray := do
  let isArr ← Object.isArray rt self
  if !isArr then do
    let tmp ← Value.fromObject rt self
    JSA.finally
      (do
        let s ← kindToString tmp (some rt)
        JSA.throw (.JSError ("Object is " ++ s ++ ", expected an array")))
      (Value.dtor rt tmp)
  else
    Object.cloneView rt self

/-- `Object::asArray(JSContext &runtime) &&`. The pair is (result, object
afterwards). -/
def Object.asArrayMove {σ : Type} (rt : JSContext σ) (self : Object) :
    JSA σ (JSArray × Object) := do
  let isArr ← Object.isArray rt self
  if !isArr then do
    let tmp ← Value.fromObject rt self
    JSA.finally
      (do
        let s ← kindToString tmp (some rt)
        JSA.throw (.JSError ("Object is " ++ s ++ ", expected an array")))
      (Value.dtor rt tmp)
  else
    pure self.takeView

/-- `Object::asFunction(JSContext &runtime) const &`. -/
def Object.asFunction {σ : Type} (rt : JSContext σ) (self : Object) : JSA σ JSFunction := do
  let isFn ← Object.isFunction rt self
  if !isFn then do
    let tmp ← Value.fromObject rt self
    JSA.finally
      (do
        let s ← kindToString tmp (some rt)
        JSA.throw (.JSError ("Object is " ++ s ++ ", expected a function")))
      (Value.dtor rt tmp)
  else
    Object.cloneView rt self

/-- `Object::asFunction(JSContext &runtime) &&`. The pair is (result, object
afterwards). -/
def Object.asFunctionMove {σ : Type} (rt : JSContext σ) (self : Object) :
    JSA σ (JSFunction × Object) := do
  let isFn ← Object.isFunction rt self
  if !isFn then do
    let tmp ← Value.fromObject rt self
    JSA.finally
      (do
        let s ← kindToString tmp (some rt)
        JSA.throw (.JSError ("Object is " ++ s ++ ", expected a function")))
      (Value.dtor rt tmp)
  else
    pure self.takeView

/-- `Pointer::operator=(Pointer &&other)` for two different `Pointer` objects. The
pair is (`*this` afterwards, `other` afterwards). -/
def Pointer.moveAssign {σ : Type} (rt : JSContext σ) (self other : Pointer) :
    JSA σ (Pointer × Pointer) := do
  match self.ptr_ with
  | some h => JSA.invalidate rt h
  | none => pure ()
  pure (⟨other.ptr_⟩, ⟨none⟩)

/-- `Value::asObject(JSContext &rt) &&`. The pair is (result, value afterwards): the
raw handle is taken out of the value and nulled, `kind_` is not written. -/
def Value.asObjectMove {σ : Type} (rt : JSContext σ) (self : Value) :
    JSA σ (Object × Value) :=
  if !self.isObject then do
    let s ← kindToString self (some rt)
    JSA.throw (.JSError ("Value is " ++ s ++ ", expected an Object"))
  else
    pure (⟨self.data_.readPointer.ptr_⟩, ⟨self.kind_, .pointer ⟨none⟩⟩)

/-- Modelled from the spec: the consuming construction `Value(Object &&)` of js_type.h:
the value takes the handle and the object is left null. The pair is (value, object
afterwards). -/
def Value.fromObjectMove (o : Object) : Value × Object :=
  (⟨.ObjectKind, .pointer ⟨o.ptr_⟩⟩, ⟨none⟩)

/-- The last three statements of `Object::getPropertyAsFunction`: the raw handle is
read out of `obj`, `obj.ptr_` is set to null, and a `Function` is made on the handle.
The pair is (result, `obj` afterwards). -/
def Object.intoFunction (obj : Object) : JSFunction × Object :=
  (⟨obj.ptr_⟩, ⟨none⟩)

/-- `Object::getPropertyAsFunction`. The local `obj` is destroyed when the function
is left: still holding its handle when `isFunction` raises, null after it was moved
into the temporary `Value` for the message (that temporary is destroyed first), null
after its handle went into the returned `Function`. -/
def Object.getPropertyAsFunction {σ : Type} (rt : JSContext σ) (self : Object)
    (name : String) : JSA σ JSFunction := do
  let obj ← Object.getPropertyAsObject rt self name
  let isFn ← JSA.onThrow (Object.isFunction rt obj) (Pointer.dtor rt obj)
  if !isFn then
    JSA.finally
      (JSA.finally
        (do
          let s ← kindToString (Value.fromObjectMove obj).1 (some rt)
          JSA.throw (.JSError ("getPropertyAsFunction: property '" ++ name ++ "' is " ++ s ++
            ", expected a Function")))
        (Value.dtor rt (Value.fromObjectMove obj).1))
      (Pointer.dtor rt (Value.fromObjectMove obj).2)
  else
    JSA.finally (pure (Object.intoFunction obj).1) (Pointer.dtor rt (Object.intoFunction obj).2)

/-- Modelled from the spec: `Function::call` with an argument list (js_type.h): the
invocation of the engine on the function handle and the arguments. -/
def Function.call {σ : Type} (rt : JSContext σ) (self : JSFunction) (args : List Value) :
    JSA σ Value :=
  JSA.invoke (.call self args) (rt.call self args)

/-- `Value::toString`. The temporary `runtime.global()` is destroyed once
`getPropertyAsFunction` has returned or thrown; the value returned by the call is an
expiring temporary, so its string is taken out by the consuming `getString`; the
local `toString` is destroyed last. -/
def Value.toString {σ : Type} (rt : JSContext σ) (self : Value) : JSA σ JSString := do
  let g ← JSA.invoke .global rt.global
  let toString ← JSA.finally (Object.getPropertyAsFunction rt g "String") (Pointer.dtor rt g)
  JSA.finally
    (do
      let r ← Function.call rt toString [self]
      JSA.finally (pure r.takePointer.1) (Value.dtor rt r.takePointer.2))
    (Pointer.dtor rt toString)

/-- Modelled from the spec: the constructor `Array(JSContext &, size_t)` of js_type.h:
the engine allocates an array of the given length. -/
def Array.create {σ : Type} (rt : JSContext σ) (length : Nat) : JSA σ JSArray :=
  JSA.invoke (.createArray length) (rt.createArray length)

/-- Modelled from the spec: `Array::setValueAtIndex` (js_type.h), the indexed
assignment of the engine. -/
def Array.setValueAtIndex {σ : Type} (rt : JSContext σ) (self : JSArray) (i : Nat)
    (value : Value) : JSA σ Unit :=
  JSA.invoke (.setValueAtIndex self i value) (rt.setValueAtIndex self i value)

/-- The `for` loop of `Array::createWithElements`, from position `index` on. -/
def Array.createWithElements.loop {σ : Type} (rt : JSContext σ) (result : JSArray) :
    Nat → List Value → JSA σ Unit
  | _, [] => pure ()
  | index, element :: rest => do
    Array.setValueAtIndex rt result index element
    Array.createWithElements.loop rt result (index + 1) rest

/-- `Array::createWithElements`. When a call throws, the local `result` is destroyed
during unwinding. -/
def Array.createWithElements {σ : Type} (rt : JSContext σ) (elements : List Value) :
    JSA σ JSArray := do
  let result ← Array.create rt elements.length
  JSA.onThrow (Array.createWithElements.loop rt result 0 elements) (Pointer.dtor rt result)
  pure result

/-- Modelled from the spec: `String::createFromUtf8` (js_type.h): the engine makes a
string from the bytes. -/
def JSString.createFromUtf8 {σ : Type} (rt : JSContext σ) (bytes : List (Fin 256)) :
    JSA σ JSString :=
  JSA.invoke (.createStringFromUtf8 bytes) (rt.createStringFromUtf8 bytes)

/-- The initialiser of the local `parseJson` of `Value::createFromJsonUtf8`:
`runtime.global().getPropertyAsObject(runtime, "JSON").getPropertyAsFunction(runtime,
"parse")`.  The two temporaries, the global object and the `JSON` object, are
destroyed in reverse order of construction once the expression has returned or
thrown. -/
def Value.createFromJsonUtf8.parseJson {σ : Type} (rt : JSContext σ) : JSA σ JSFunction := do
  let g ← JSA.invoke .global rt.global
  JSA.finally
    (do
      let j ← Object.getPropertyAsObject rt g "JSON"
      JSA.finally (Object.getPropertyAsFunction rt j "parse") (Pointer.dtor rt j))
    (Pointer.dtor rt g)

/-- `Value::createFromJsonUtf8`. The string made from the bytes is the sole argument
of the call; that temporary is destroyed after the call and the local `parseJson`
last. -/
def Value.createFromJsonUtf8 {σ : Type} (rt : JSContext σ) (json : List (Fin 256)) :
    JSA σ Value := do
  let parseJson ← Value.createFromJsonUtf8.parseJson rt
  JSA.finally
    (do
      let arg ← JSString.createFromUtf8 rt json
      JSA.finally (Function.call rt parseJson [⟨.StringKind, .pointer arg⟩])
        (Value.dtor rt ⟨.StringKind, .pointer arg⟩))
    (Pointer.dtor rt parseJson)

/-! ## A small engine to evaluate the layer on -/

/-- The script value behind a handle of `sampleEngine`: handles that agree modulo
1000 refer to the same script value. -/
def sampleIdentity (p : Pointer) : Option Nat := p.ptr_.map (fun h => h % 1000)

/-- A stateless engine. A clone of handle `h` is handle `h + 1000`; strict equality
compares the script values behind the handles; script values 1, 4, 7, ... are arrays
and 2, 5, 8, ... are functions; property `foo` of any object is the object behind
handle 7, property `bar` the function behind handle 8, property `n` the number with
bit pattern `0x4045000000000000` (42.0), any other property is undefined. -/
def sampleEngine : JSContext Unit where
  cloneSymbol p := fun s => (.ok (p.map (fun h => h + 1000)), s)
  cloneString p := fun s => (.ok (p.map (fun h => h + 1000)), s)
  cloneObject p := fun s => (.ok (p.map (fun h => h + 1000)), s)
  strictEqualsSymbol a b := fun s => (.ok (sampleIdentity a == sampleIdentity b), s)
  strictEqualsString a b := fun s => (.ok (sampleIdentity a == sampleIdentity b), s)
  strictEqualsObject a b := fun s => (.ok (sampleIdentity a == sampleIdentity b), s)
  isArray o := fun s => (.ok (sampleIdentity o |>.any (fun i => i % 3 == 1)), s)
  isFunction o := fun s => (.ok (sampleIdentity o |>.any (fun i => i % 3 == 2)), s)
  getProperty _ name := fun s =>
    (.ok (if name = "foo" then ⟨.ObjectKind, .pointer ⟨some 7⟩⟩
      else if name = "bar" then ⟨.ObjectKind, .pointer ⟨some 8⟩⟩
      else if name = "n" then ⟨.NumberKind, .number ⟨0x4045000000000000⟩⟩
      else ⟨.UndefinedKind, .uninit⟩), s)
  global := fun s => (.ok ⟨some 0⟩, s)
  call _ _ := fun s => (.ok ⟨.UndefinedKind, .uninit⟩, s)
  createStringFromUtf8 _ := fun s => (.ok ⟨some 900⟩, s)
  createArray _ := fun s => (.ok ⟨some 901⟩, s)
  setValueAtIndex _ _ _ := fun s => (.ok (), s)
  invalidate _ := fun s => s

/-- The number 42.0 (sign 0, exponent 1028, fraction 0x5000000000000). -/
def fortyTwo : Double := ⟨0x4045000000000000⟩

/-- The world before anything was called. -/
def sampleWorld : World Unit := ⟨(), []⟩

/-- The sample engine with clone operations that raise: `cloneSymbol`, `cloneString`
and `cloneObject` raise "clone failed" on every handle; the other operations are those
of `sampleEngine`. -/
def raisingEngine : JSContext Unit :=
  { sampleEngine with
    cloneSymbol := fun _ s => (.error (.JSError "clone failed"), s)
    cloneString := fun _ s => (.error (.JSError "clone failed"), s)
    cloneObject := fun _ s => (.error (.JSError "clone failed"), s) }

/-- The sample engine with boolean properties: property `on` of any object is the
Boolean true, every other property the Boolean false. -/
def flagEngine : JSContext Unit :=
  { sampleEngine with
    getProperty := fun _ name s =>
      (.ok (if name = "on" then ⟨.BooleanKind, .boolean true⟩
        else ⟨.BooleanKind, .boolean false⟩), s) }

/-- The text that stands for a value in a type-mismatch message when nothing is asked
of the engine: the description of the kind for Undefined, Null, Number, Symbol, String
and Object, and the stored boolean for a Boolean. -/
def diagnosticText (v : Value) : String :=
  match v.kind_ with
  | .UndefinedKind => "undefined"
  | .NullKind => "null"
  | .BooleanKind => if v.data_.readBoolean then "true" else "false"
  | .NumberKind => "a number"
  | .SymbolKind => "a symbol"
  | .StringKind => "a string"
  | .ObjectKind => "an object"

/-- The contract's strict-equality primitives for Symbol, String and Object give the
same answer when their two arguments are exchanged. -/
def JSContext.StrictEqualsSymmetric {σ : Type} (rt : JSContext σ) : Prop :=
  (∀ (a b : Symbol) (s : σ), (rt.strictEqualsSymbol a b s).1 = (rt.strictEqualsSymbol b a s).1) ∧
  (∀ (a b : JSString) (s : σ), (rt.strictEqualsString a b s).1 = (rt.strictEqualsString b a s).1) ∧
  (∀ (a b : Object) (s : σ), (rt.strictEqualsObject a b s).1 = (rt.strictEqualsObject b a s).1)

/-- The copy of `v` made in world `w` is an independent equal of `v`: the copy
constructor, whatever the storage of the new value held before, returns a value `c`
of the same kind whose handle differs from the one of `v`, `Value::strictEquals`
answers true on `c` and `v` right after the copy, and destroying `c` (in any later
world) makes exactly one engine call, the invalidation of the handle of `c`. -/
def Value.IndependentCopy {σ : Type} (rt : JSContext σ) (v : Value) (w : World σ) : Prop :=
  ∃ (c : Value) (w1 : World σ) (hc : PointerValue),
    (∀ storage : Option PointerValue, Value.copyCtor rt v storage w = (.ok c, w1)) ∧
    c.kind_ = v.kind_ ∧
    c.handle = some hc ∧
    c.handle ≠ v.handle ∧
    (Value.strictEquals rt c v w1).1 = .ok true ∧
    ∀ w2 : World σ, Value.dtor rt c w2
      = (.ok (), ⟨rt.invalidate hc w2.engine, w2.trace ++ [.invalidate hc]⟩)

/-- An engine operation that returns (does not raise) in every engine state. -/
def EngineOp.Returns {σ α : Type} (op : EngineOp σ α) : Prop :=
  ∀ s : σ, ∃ (a : α) (s1 : σ), op s = (.ok a, s1)

/-- The engine state after the destructor of a `Pointer` on raw handle `p`. -/
def JSContext.release {σ : Type} (rt : JSContext σ) (p : Option PointerValue) (s : σ) : σ :=
  match p with
  | some h => rt.invalidate h s
  | none => s

/-- The engine calls made by the destructor of a `Pointer` on raw handle `p`. -/
def releaseCalls (p : Option PointerValue) : List EngineCall :=
  match p with
  | some h => [.invalidate h]
  | none => []

/-- The call is an invocation of a script function. -/
def EngineCall.isCall : EngineCall → Bool
  | .call _ _ => true
  | _ => false

/-- The call is one of the three clone operations. -/
def EngineCall.isClone : EngineCall → Bool
  | .cloneSymbol _ => true
  | .cloneString _ => true
  | .cloneObject _ => true
  | _ => false

/-- The computation only appends to the trace, and never an invocation of a script
function. -/
def JSA.NoCall {σ α : Type} (m : JSA σ α) : Prop :=
  ∀ w : World σ, ∃ added : List EngineCall,
    (m w).2.trace = w.trace ++ added ∧ ∀ c ∈ added, c.isCall = false

/-- The indexed assignments `(index, v0), (index + 1, v1), ...` on array `a`. -/
def Array.assignments (a : JSArray) : Nat → List Value → List EngineCall
  | _, [] => []
  | index, v :: rest => .setValueAtIndex a index v :: Array.assignments a (index + 1) rest

/-- The contract's indexed operations behave as an array store, `content s a` being
the elements of array `a` in engine state `s`: `createArray n` returns an array of
`n` elements, and an assignment inside the bounds returns and replaces that one
element. -/
structure JSContext.ArrayStore {σ : Type} (rt : JSContext σ)
    (content : σ → JSArray → Option (List Value)) : Prop where
  create : ∀ (n : Nat) (s : σ), ∃ (a : JSArray) (s1 : σ) (l : List Value),
    rt.createArray n s = (.ok a, s1) ∧ content s1 a = some l ∧ l.length = n
  set : ∀ (a : JSArray) (i : Nat) (v : Value) (s : σ) (l : List Value),
    content s a = some l → i < l.length →
    ∃ s1 : σ, rt.setValueAtIndex a i v s = (.ok (), s1) ∧ content s1 a = some (l.set i v)

/-- The elements of array `a` in a state of `storeEngine`. -/
def storeContent (s : List (List Value)) (a : JSArray) : Option (List Value) :=
  match a.ptr_ with
  | some h => s[h]?
  | none => none

/-- An engine that keeps arrays: its state is the list of the arrays created so far,
the handle of an array is its position in that list.  A new array is filled with
Undefined; an assignment outside an array raises.  The other operations are as in
`sampleEngine`. -/
def storeEngine : JSContext (List (List Value)) where
  cloneSymbol p := fun s => (.ok p, s)
  cloneString p := fun s => (.ok p, s)
  cloneObject p := fun s => (.ok p, s)
  strictEqualsSymbol a b := fun s => (.ok (a.ptr_ == b.ptr_), s)
  strictEqualsString a b := fun s => (.ok (a.ptr_ == b.ptr_), s)
  strictEqualsObject a b := fun s => (.ok (a.ptr_ == b.ptr_), s)
  isArray o := fun s => (.ok (storeContent s o).isSome, s)
  isFunction _ := fun s => (.ok false, s)
  getProperty _ _ := fun s => (.ok ⟨.UndefinedKind, .uninit⟩, s)
  global := fun s => (.ok ⟨none⟩, s)
  call _ _ := fun s => (.ok ⟨.UndefinedKind, .uninit⟩, s)
  createStringFromUtf8 _ := fun s => (.ok ⟨none⟩, s)
  createArray n := fun s =>
    (.ok ⟨some s.length⟩, s ++ [List.replicate n ⟨.UndefinedKind, .uninit⟩])
  setValueAtIndex a i v := fun s =>
    match storeContent s a, a.ptr_ with
    | some l, some h =>
      if i < l.length then (.ok (), s.set h (l.set i v))
      else (.error (.JSError "index out of range"), s)
    | _, _ => (.error (.JSError "not an array"), s)
  invalidate _ := fun s => s

end jsa

/-! ## The document (bridge/core/dom/document.cc) -/

namespace webf

/-- Modelled from the spec: the node types that document.cc names (`Node::NodeType`
is declared in node.h, which is not among the sources).  `other` stands for any
enumerator that document.cc does not name. -/
inductive NodeType where
  | kElementNode
  | kAttributeNode
  | kTextNode
  | kCommentNode
  | kDocumentNode
  | kDocumentTypeNode
  | kDocumentFragmentNode
  | other (code : Nat)
deriving DecidableEq

/-- A child node as `Document::ChildTypeAllowed` looks at it: its `nodeType()`. -/
structure Node where
  nodeType : NodeType
deriving DecidableEq

/-- A document as `Document::ChildTypeAllowed` looks at it: its children in order,
`NodeTraversal::ChildrenOf(*this)`. -/
structure Document where
  children : List Node

/-- The `for` loop of `Document::ChildTypeAllowed` over the children not yet visited:
false at the first child of the given type, true when all are visited. -/
def Document.ChildTypeAllowed.loop (type : NodeType) : List Node → Bool
  | [] => true
  | c :: rest => if c.nodeType = type then false else Document.ChildTypeAllowed.loop type rest

/-- `Document::ChildTypeAllowed`. -/
def Document.ChildTypeAllowed (self : Document) (type : NodeType) : Bool :=
  match type with
  | .kAttributeNode => false
  | .kDocumentFragmentNode => false
  | .kDocumentNode => false
  | .kTextNode => false
  | .kCommentNode => true
  | .kDocumentTypeNode => Document.ChildTypeAllowed.loop type self.children
  | .kElementNode => Document.ChildTypeAllowed.loop type self.children
  | .other _ => false

/-- The number of nodes of the given type in a list of children. -/
def countOfType (type : NodeType) (l : List Node) : Nat :=
  (l.filter (fun c => decide (c.nodeType = type))).length

/-- The document has at most one Element child and at most one DocumentType child. -/
def Document.AtMostOneEach (self : Document) : Prop :=
  countOfType .kElementNode self.children ≤ 1 ∧
  countOfType .kDocumentTypeNode self.children ≤ 1

/-- Modelled from the spec: the documents that arise when every insertion is guarded
by `ChildTypeAllowed` (the insertions themselves are in container_node.cc, which is
not among the sources): the empty document, a document with a node inserted at any
position after `ChildTypeAllowed` answered true for its type, and a document with
any child removed. -/
inductive Document.Guarded : Document → Prop where
  | empty : Document.Guarded ⟨[]⟩
  | insert (pre post : List Node) (n : Node) :
      Document.Guarded ⟨pre ++ post⟩ →
      Document.ChildTypeAllowed ⟨pre ++ post⟩ n.nodeType = true →
      Document.Guarded ⟨pre ++ n :: post⟩
  | remove (pre post : List Node) (n : Node) :
      Document.Guarded ⟨pre ++ n :: post⟩ → Document.Guarded ⟨pre ++ post⟩

/-- Modelled from the spec: `IsASCIIAlpha` of foundation/ascii_types.h (not among the
sources): the character is an ASCII letter, `A` to `Z` or `a` to `z`. -/
def IsASCIIAlpha (c : Nat) : Bool := (65 ≤ c && c ≤ 90) || (97 ≤ c && c ≤ 122)

/-- Modelled from the spec: `IsASCIIAlphanumeric` of foundation/ascii_types.h (not
among the sources): the character is an ASCII digit, `0` to `9`, or an ASCII letter. -/
def IsASCIIAlphanumeric (c : Nat) : Bool := (48 ≤ c && c ≤ 57) || IsASCIIAlpha c

/-- The `for` loop of `IsValidNameASCII`, at index `i` with `remaining` iterations to
go; the characters `:`, `_`, `-`, `.` are 58, 95, 45, 46. -/
def IsValidNameASCII.loop (characters : Nat → Nat) : Nat → Nat → Bool
  | _, 0 => true
  | i, remaining + 1 =>
    if !(IsASCIIAlphanumeric (characters i) || characters i == 58 || characters i == 95
        || characters i == 45 || characters i == 46) then
      false
    else
      IsValidNameASCII.loop characters (i + 1) remaining

/-- `IsValidNameASCII(const CharType *characters, unsigned length)`; `characters i` is
the character `characters[i]`.  The loop runs for the indices 1 to `length - 1`. -/
def IsValidNameASCII (characters : Nat → Nat) (length : Nat) : Bool :=
  if !(IsASCIIAlpha (characters 0) || characters 0 == 58 || characters 0 == 95) then
    false
  else
    IsValidNameASCII.loop characters 1 (length - 1)

/-- The name as `Document::IsValidName` reads it (`AtomicString` and `StringView` are
declared in headers that are not among the sources): `name.length()`, the answer of
`Is8Bit()`, and the characters found at each index of the pointers that
`Characters8()` and `Characters16()` return. -/
structure StringView where
  length : Nat
  Is8Bit : Bool
  Characters8 : Nat → Nat
  Characters16 : Nat → Nat

/-- `Document::IsValidName`.  The 8-bit test is the nested `if` of the source: the
check on `Characters8()` is made only for an 8-bit view, and when it fails control
goes on to the check on `Characters16()`. -/
def Document.IsValidName (name : StringView) : Bool :=
  if name.length = 0 then
    false
  else if name.Is8Bit && IsValidNameASCII name.Characters8 name.length then
    true
  else if IsValidNameASCII name.Characters16 name.length then
    true
  else
    false

/-- The characters of the name: those of its own width, 8-bit characters for an 8-bit
name and 16-bit characters otherwise. -/
def StringView.characters (name : StringView) : List Nat :=
  (List.range name.length).map (if name.Is8Bit then name.Characters8 else name.Characters16)

/-- A character that may start a name: an ASCII letter, `:` or `_`. -/
def validNameStart (c : Nat) : Bool := IsASCIIAlpha c || c == 58 || c == 95

/-- A character that may follow in a name: an ASCII letter, an ASCII digit, `:`, `_`,
`-` or `.`. -/
def validNamePart (c : Nat) : Bool :=
  IsASCIIAlphanumeric c || c == 58 || c == 95 || c == 45 || c == 46

/-- A valid name, in words: not empty, the first character may start a name and every
later character may follow in a name. -/
def validName : List Nat → Bool
  | [] => false
  | c :: rest => validNameStart c && rest.all validNamePart

/-- The 8-bit name of the three characters `a`, NUL, `b`.  Its bytes 61 00 62 are
followed in memory by 00 63 00, so that the same memory read as 16-bit units, low
byte first, is 0x0061, 0x0062, 0x0063: the characters `a`, `b`, `c`. -/
def nulName : StringView where
  length := 3
  Is8Bit := true
  Characters8 := fun i => [0x61, 0x00, 0x62].getD i 0
  Characters16 := fun i => [0x61, 0x62, 0x63].getD i 0

/-- A 16-bit name with the characters `d`, `i`, `v`. -/
def divName : StringView where
  length := 3
  Is8Bit := false
  Characters8 := fun _ => 0
  Characters16 := fun i => [0x64, 0x69, 0x76].getD i 0

end webf

namespace jsa

/-! ## Theorems -/

/-- A bind whose first computation returns continues with the result. -/
theorem JSA.bind_of_ok {σ α β : Type} {m : JSA σ α} {f : α → JSA σ β} {w w1 : World σ}
    {a : α} (h : m w = (.ok a, w1)) : (m >>= f) w = f a w1 := by
  show JSA.bind m f w = _
  unfold JSA.bind
  rw [h]

/-- A bind whose first computation throws, throws. -/
theorem JSA.bind_of_error {σ α β : Type} {m : JSA σ α} {f : α → JSA σ β} {w w1 : World σ}
    {e : JSException} (h : m w = (.error e, w1)) : (m >>= f) w = (.error e, w1) := by
  show JSA.bind m f w = _
  unfold JSA.bind
  rw [h]

/-- An invoked engine operation that returns. -/
theorem JSA.invoke_of_eq {σ α : Type} {c : EngineCall} {op : EngineOp σ α} {s s1 : σ}
    {t : List EngineCall} {r : Except JSException α} (h : op s = (r, s1)) :
    JSA.invoke c op ⟨s, t⟩ = (r, ⟨s1, t ++ [c]⟩) := by
  unfold JSA.invoke
  show ((op s).1, (⟨(op s).2, t ++ [c]⟩ : World σ)) = _
  rw [h]

/-- For a value that is not an Object, `kindToString` returns without an engine
call, whether or not a contract is supplied. -/
theorem kindToString_of_not_object {σ : Type} (v : Value) (rt : Option (JSContext σ))
    (w : World σ) (hk : v.kind_ ≠ .ObjectKind) :
    ∃ desc : String, kindToString v rt w = (.ok desc, w) := by
  obtain ⟨k, d⟩ := v
  cases k <;> first
    | exact absurd rfl hk
    | exact ⟨_, rfl⟩

/-- On an Object value with a contract, `kindToString` clones the handle, asks
`isFunction` on the clone and destroys the clone. -/
theorem kindToString_object {σ : Type} (rt : JSContext σ) (d : Data) (s s1 s2 : σ)
    (t : List EngineCall) (h1 : Option PointerValue) (f : Bool)
    (e1 : rt.cloneObject d.readPointer.ptr_ s = (.ok h1, s1))
    (e2 : rt.isFunction ⟨h1⟩ s1 = (.ok f, s2)) :
    kindToString ⟨.ObjectKind, d⟩ (some rt) ⟨s, t⟩
      = (.ok (if f then "a function" else "an object"),
          (Pointer.dtor rt ⟨h1⟩
            ⟨s2, t ++ [.cloneObject d.readPointer.ptr_] ++ [.isFunction ⟨h1⟩]⟩).2) := by
  have g : Value.getObject rt ⟨.ObjectKind, d⟩ ⟨s, t⟩
      = (.ok ⟨h1⟩, ⟨s1, t ++ [.cloneObject d.readPointer.ptr_]⟩) := by
    unfold Value.getObject
    rw [JSA.bind_of_ok (JSA.invoke_of_eq e1)]
    rfl
  show (Value.getObject rt ⟨.ObjectKind, d⟩ >>= _) _ = _
  rw [JSA.bind_of_ok g]
  have g2 : Object.isFunction rt ⟨h1⟩ ⟨s1, t ++ [.cloneObject d.readPointer.ptr_]⟩
      = (.ok f, ⟨s2, t ++ [.cloneObject d.readPointer.ptr_] ++ [.isFunction ⟨h1⟩]⟩) :=
    JSA.invoke_of_eq e2
  unfold JSA.finally
  rw [JSA.bind_of_ok g2]

/-- The outcome of a scope with a destructor is the outcome of its body. -/
theorem JSA.finally_fst {σ α : Type} (m : JSA σ α) (c : JSA σ Unit) (w : World σ) :
    (JSA.finally m c w).1 = (m w).1 := rfl

/-- A bind whose continuation never returns, never returns. -/
theorem JSA.bind_isOk_false {σ α β : Type} (m : JSA σ α) (f : α → JSA σ β) (w : World σ)
    (h : ∀ a w1, (f a w1).1.isOk = false) : ((m >>= f) w).1.isOk = false := by
  show (JSA.bind m f w).1.isOk = false
  unfold JSA.bind
  cases hm : m w with
  | mk r w1 =>
    cases r with
    | error e => rfl
    | ok a => exact h a w1

/-- The throwing branch shared by `Object::asArray` and `Object::asFunction` never
returns. -/
theorem Object.mismatch_isOk_false {σ α : Type} (rt : JSContext σ) (o : Object)
    (suffix : String) (w : World σ) :
    ((Value.fromObject rt o >>= fun tmp =>
        JSA.finally
          (kindToString tmp (some rt) >>= fun d =>
            (JSA.throw (.JSError ("Object is " ++ d ++ suffix)) : JSA σ α))
          (Value.dtor rt tmp)) w).1.isOk = false := by
  apply JSA.bind_isOk_false
  intro tmp w1
  rw [JSA.finally_fst]
  apply JSA.bind_isOk_false
  intro d w2
  rfl

/-- The throwing branch shared by `Object::asArray` and `Object::asFunction`: the
object is cloned into a temporary value, `kindToString` clones that, asks
`isFunction` on the second clone, and the message is built from the answer. -/
theorem Object.mismatch_eq {σ α : Type} (rt : JSContext σ) (o : Object) (suffix : String)
    (s s1 s2 s3 : σ) (t : List EngineCall) (h1 h2 : Option PointerValue) (f : Bool)
    (e1 : rt.cloneObject o.ptr_ s = (.ok h1, s1))
    (e2 : rt.cloneObject h1 s1 = (.ok h2, s2))
    (e3 : rt.isFunction ⟨h2⟩ s2 = (.ok f, s3)) :
    ((Value.fromObject rt o >>= fun tmp =>
        JSA.finally
          (kindToString tmp (some rt) >>= fun d =>
            (JSA.throw (.JSError ("Object is " ++ d ++ suffix)) : JSA σ α))
          (Value.dtor rt tmp)) ⟨s, t⟩).1
      = .error (.JSError ("Object is " ++ (if f then "a function" else "an object")
          ++ suffix)) := by
  have g : Value.fromObject rt o ⟨s, t⟩
      = (.ok ⟨.ObjectKind, .pointer ⟨h1⟩⟩, ⟨s1, t ++ [.cloneObject o.ptr_]⟩) := by
    unfold Value.fromObject
    rw [JSA.bind_of_ok (JSA.invoke_of_eq e1)]
    rfl
  rw [JSA.bind_of_ok g, JSA.finally_fst,
    JSA.bind_of_ok (kindToString_object rt (.pointer ⟨h1⟩) s1 s2 s3 _ h2 f e2 e3)]
  rfl

/-- A narrowing that asks an engine predicate, throws when the answer is false and
returns when it is true, succeeds exactly when the predicate answers true. -/
theorem Object.narrow_isOk_iff {σ α : Type} (c : EngineCall) (op : EngineOp σ Bool)
    (block succ : JSA σ α) (w : World σ)
    (hblock : ∀ w1, (block w1).1.isOk = false) (hsucc : ∀ w1, (succ w1).1.isOk = true) :
    ((JSA.invoke c op >>= fun b => if !b then block else succ) w).1.isOk = true
      ↔ (op w.engine).1 = .ok true := by
  obtain ⟨s, t⟩ := w
  cases hr : op s with
  | mk r s1 =>
    cases r with
    | error e =>
      rw [JSA.bind_of_error (JSA.invoke_of_eq hr)]
      exact ⟨fun h => Bool.noConfusion h, fun h => Except.noConfusion h⟩
    | ok b =>
      rw [JSA.bind_of_ok (JSA.invoke_of_eq hr)]
      cases b with
      | false =>
        have hb := hblock ⟨s1, t ++ [c]⟩
        refine ⟨fun h => ?_, fun h => ?_⟩
        · exact absurd (hb.symm.trans h) (by decide)
        · exact absurd (Except.ok.inj h) (by decide)
      | true => exact ⟨fun _ => rfl, fun _ => hsucc _⟩

/-- The failing branch of `Value::asNumber`. -/
theorem Value.asNumber_mismatch {σ : Type} (v : Value) (w w1 : World σ) (desc : String)
    (hk : v.kind_ ≠ .NumberKind)
    (hd : kindToString v (none : Option (JSContext σ)) w = (.ok desc, w1)) :
    Value.asNumber v w
      = (.error (.JSANativeException ("Value is " ++ desc ++ ", expected a number")), w1) := by
  unfold Value.asNumber
  have hb : (!v.isNumber) = true := by simp [Value.isNumber, hk]
  rw [if_pos hb, JSA.bind_of_ok hd]
  rfl

/-- The failing branch of the borrowing `Value::asObject`. -/
theorem Value.asObject_mismatch {σ : Type} (rt : JSContext σ) (v : Value) (w w1 : World σ)
    (desc : String) (hk : v.kind_ ≠ .ObjectKind)
    (hd : kindToString v (some rt) w = (.ok desc, w1)) :
    Value.asObject rt v w
      = (.error (.JSError ("Value is " ++ desc ++ ", expected an Object")), w1) := by
  unfold Value.asObject
  have hb : (!v.isObject) = true := by simp [Value.isObject, hk]
  rw [if_pos hb, JSA.bind_of_ok hd]
  rfl

/-- The failing branch of the borrowing `Value::asSymbol`. -/
theorem Value.asSymbol_mismatch {σ : Type} (rt : JSContext σ) (v : Value) (w w1 : World σ)
    (desc : String) (hk : v.kind_ ≠ .SymbolKind)
    (hd : kindToString v (some rt) w = (.ok desc, w1)) :
    Value.asSymbol rt v w
      = (.error (.JSError ("Value is " ++ desc ++ ", expected a Symbol")), w1) := by
  unfold Value.asSymbol
  have hb : (!v.isSymbol) = true := by simp [Value.isSymbol, hk]
  rw [if_pos hb, JSA.bind_of_ok hd]
  rfl

/-- The failing branch of the consuming `Value::asSymbol`. -/
theorem Value.asSymbolMove_mismatch {σ : Type} (rt : JSContext σ) (v : Value)
    (w w1 : World σ) (desc : String) (hk : v.kind_ ≠ .SymbolKind)
    (hd : kindToString v (some rt) w = (.ok desc, w1)) :
    Value.asSymbolMove rt v w
      = (.error (.JSError ("Value is " ++ desc ++ ", expected a Symbol")), w1) := by
  unfold Value.asSymbolMove
  have hb : (!v.isSymbol) = true := by simp [Value.isSymbol, hk]
  rw [if_pos hb, JSA.bind_of_ok hd]
  rfl

/-- The failing branch of the borrowing `Value::asString`. -/
theorem Value.asString_mismatch {σ : Type} (rt : JSContext σ) (v : Value) (w w1 : World σ)
    (desc : String) (hk : v.kind_ ≠ .StringKind)
    (hd : kindToString v (some rt) w = (.ok desc, w1)) :
    Value.asString rt v w
      = (.error (.JSError ("Value is " ++ desc ++ ", expected a String")), w1) := by
  unfold Value.asString
  have hb : (!v.isString) = true := by simp [Value.isString, hk]
  rw [if_pos hb, JSA.bind_of_ok hd]
  rfl

/-- The failing branch of the consuming `Value::asString`. -/
theorem Value.asStringMove_mismatch {σ : Type} (rt : JSContext σ) (v : Value)
    (w w1 : World σ) (desc : String) (hk : v.kind_ ≠ .StringKind)
    (hd : kindToString v (some rt) w = (.ok desc, w1)) :
    Value.asStringMove rt v w
      = (.error (.JSError ("Value is " ++ desc ++ ", expected a String")), w1) := by
  unfold Value.asStringMove
  have hb : (!v.isString) = true := by simp [Value.isString, hk]
  rw [if_pos hb, JSA.bind_of_ok hd]
  rfl

/-- The destructor of a `Pointer`, as a change of the world. -/
theorem Pointer.dtor_eq {σ : Type} (rt : JSContext σ) (p : Pointer) (w : World σ) :
    Pointer.dtor rt p w
      = (.ok (), ⟨rt.release p.ptr_ w.engine, w.trace ++ releaseCalls p.ptr_⟩) := by
  obtain ⟨q⟩ := p
  obtain ⟨s, t⟩ := w
  cases q with
  | none =>
    show (Except.ok (), (⟨s, t⟩ : World σ)) = (.ok (), ⟨s, t ++ []⟩)
    rw [List.append_nil]
  | some h => rfl

/-- A computation that returns is not affected by a cleanup on throw. -/
theorem JSA.onThrow_of_ok {σ α : Type} {m : JSA σ α} {c : JSA σ Unit} {w w1 : World σ}
    {a : α} (h : m w = (.ok a, w1)) : JSA.onThrow m c w = (.ok a, w1) := by
  unfold JSA.onThrow
  rw [h]

/-- A computation that throws runs the cleanup on throw. -/
theorem JSA.onThrow_of_error {σ α : Type} {m : JSA σ α} {c : JSA σ Unit} {w w1 : World σ}
    {e : JSException} (h : m w = (.error e, w1)) :
    JSA.onThrow m c w = (.error e, (c w1).2) := by
  unfold JSA.onThrow
  rw [h]

/-- `Object::getPropertyAsObject` on a property whose value is an Object: the result
is on the clone of the value's handle and the local value has been destroyed. -/
theorem Object.getPropertyAsObject_ok {σ : Type} (rt : JSContext σ) (o : Object)
    (name : String) (s s1 s2 : σ) (t : List EngineCall) (v : Value)
    (h1 : Option PointerValue)
    (hget : rt.getProperty o name s = (.ok v, s1)) (hk : v.kind_ = .ObjectKind)
    (hc : rt.cloneObject v.data_.readPointer.ptr_ s1 = (.ok h1, s2)) :
    Object.getPropertyAsObject rt o name ⟨s, t⟩
      = (.ok ⟨h1⟩, ⟨rt.release v.data_.readPointer.ptr_ s2,
          t ++ [.getProperty o name] ++ [.cloneObject v.data_.readPointer.ptr_]
            ++ releaseCalls v.data_.readPointer.ptr_⟩) := by
  unfold Object.getPropertyAsObject Object.getProperty
  rw [JSA.bind_of_ok (JSA.invoke_of_eq hget)]
  have hb : ¬ ((!v.isObject) = true) := by simp [Value.isObject, hk]
  have hd : Value.dtor rt v = Pointer.dtor rt v.data_.readPointer := by
    unfold Value.dtor
    rw [hk]
    rfl
  rw [if_neg hb, hd]
  unfold JSA.finally Value.getObject
  rw [JSA.bind_of_ok (JSA.invoke_of_eq hc)]
  show (Except.ok (⟨h1⟩ : Object), (Pointer.dtor rt v.data_.readPointer ⟨s2, _⟩).2) = _
  rw [Pointer.dtor_eq]

/-- `Object::getPropertyAsFunction` passes on what `getPropertyAsObject` throws. -/
theorem Object.getPropertyAsFunction_of_error {σ : Type} (rt : JSContext σ) (o : Object)
    (name : String) (w w1 : World σ) (e : JSException)
    (hobj : Object.getPropertyAsObject rt o name w = (.error e, w1)) :
    Object.getPropertyAsFunction rt o name w = (.error e, w1) := by
  unfold Object.getPropertyAsFunction
  rw [JSA.bind_of_error hobj]

/-- `Object::getPropertyAsFunction` when the intermediate Object is callable: the
Function is on the handle of that Object, and the only engine call after the Object
was obtained is `isFunction`. -/
theorem Object.getPropertyAsFunction_of_callable {σ : Type} (rt : JSContext σ)
    (o : Object) (name : String) (w : World σ) (obj : Object) (s1 s2 : σ)
    (t1 : List EngineCall)
    (hobj : Object.getPropertyAsObject rt o name w = (.ok obj, ⟨s1, t1⟩))
    (hf : rt.isFunction obj s1 = (.ok true, s2)) :
    Object.getPropertyAsFunction rt o name w
      = (.ok ⟨obj.ptr_⟩, ⟨s2, t1 ++ [.isFunction obj]⟩) := by
  unfold Object.getPropertyAsFunction
  have g : Object.isFunction rt obj ⟨s1, t1⟩ = (.ok true, ⟨s2, t1 ++ [.isFunction obj]⟩) :=
    JSA.invoke_of_eq hf
  rw [JSA.bind_of_ok hobj, JSA.bind_of_ok (JSA.onThrow_of_ok g)]
  rfl

/-- An outcome whose result is a failure. -/
theorem JSA.eq_error_of_fst {σ α : Type} (r : Except JSException α × World σ)
    (e : JSException) (h : r.1 = .error e) : r = (.error e, r.2) := by
  obtain ⟨a, b⟩ := r
  simp only at h
  rw [h]

/-- `Object::getPropertyAsFunction` does not return when the intermediate Object is
not callable, whatever the engine does afterwards. -/
theorem Object.getPropertyAsFunction_not_ok {σ : Type} (rt : JSContext σ) (o : Object)
    (name : String) (w : World σ) (obj : Object) (s1 s2 : σ) (t1 : List EngineCall)
    (hobj : Object.getPropertyAsObject rt o name w = (.ok obj, ⟨s1, t1⟩))
    (hf : rt.isFunction obj s1 = (.ok false, s2)) :
    (Object.getPropertyAsFunction rt o name w).1.isOk = false := by
  unfold Object.getPropertyAsFunction
  have g : Object.isFunction rt obj ⟨s1, t1⟩ = (.ok false, ⟨s2, t1 ++ [.isFunction obj]⟩) :=
    JSA.invoke_of_eq hf
  rw [JSA.bind_of_ok hobj, JSA.bind_of_ok (JSA.onThrow_of_ok g)]
  show ((JSA.finally (JSA.finally
      (kindToString (Value.fromObjectMove obj).1 (some rt) >>= _) _) _) _).1.isOk = false
  rw [JSA.finally_fst, JSA.finally_fst]
  apply JSA.bind_isOk_false
  intro d w2
  rfl

/-- Replacing element `i` does not change the elements before it. -/
theorem List.take_set_same {α : Type} (l : List α) (i : Nat) (e : α) :
    (l.set i e).take i = l.take i := by
  induction l generalizing i with
  | nil => rfl
  | cons x xs ih =>
    cases i with
    | zero => rfl
    | succ n =>
      show x :: (xs.set n e).take n = x :: xs.take n
      rw [ih]

/-- After replacing element `i`, the first `i + 1` elements are the first `i` old
ones and the new one. -/
theorem List.take_succ_set_same {α : Type} (l : List α) (i : Nat) (e : α)
    (h : i < l.length) : (l.set i e).take (i + 1) = l.take i ++ [e] := by
  rw [List.take_succ, List.take_set_same, List.getElem?_set_self h]
  rfl

/-- The list of assignments has one entry for each element, the entry at position
`i` being the assignment of element `i` at index `index + i`. -/
theorem Array.assignments_getElem? (a : JSArray) (elements : List Value) (index i : Nat) :
    (Array.assignments a index elements)[i]?
      = (elements[i]?).map (fun v => EngineCall.setValueAtIndex a (index + i) v) := by
  induction elements generalizing index i with
  | nil => rfl
  | cons v rest ih =>
    cases i with
    | zero => simp [Array.assignments]
    | succ n => simp [Array.assignments, ih, Nat.add_assoc, Nat.add_comm 1 n]

/-- The list of assignments is as long as the list of elements. -/
theorem Array.assignments_length (a : JSArray) (elements : List Value) (index : Nat) :
    (Array.assignments a index elements).length = elements.length := by
  induction elements generalizing index with
  | nil => rfl
  | cons v rest ih =>
    show (Array.assignments a (index + 1) rest).length + 1 = rest.length + 1
    rw [ih]

/-- The loop of `Array::createWithElements` when every assignment returns: it makes
the assignments in order and nothing else. -/
theorem Array.loop_trace {σ : Type} (rt : JSContext σ) (a : JSArray)
    (hset : ∀ i v, (rt.setValueAtIndex a i v).Returns) (rest : List Value) :
    ∀ (index : Nat) (s : σ) (t : List EngineCall), ∃ s1 : σ,
      Array.createWithElements.loop rt a index rest ⟨s, t⟩
        = (.ok (), ⟨s1, t ++ Array.assignments a index rest⟩) := by
  induction rest with
  | nil =>
    intro index s t
    refine ⟨s, ?_⟩
    show (Except.ok (), (⟨s, t⟩ : World σ)) = (.ok (), ⟨s, t ++ []⟩)
    rw [List.append_nil]
  | cons v rest ih =>
    intro index s t
    obtain ⟨u, s1, e⟩ := hset index v s
    obtain ⟨s2, h2⟩ := ih (index + 1) s1 (t ++ [.setValueAtIndex a index v])
    refine ⟨s2, ?_⟩
    have g : Array.setValueAtIndex rt a index v ⟨s, t⟩
        = (.ok u, ⟨s1, t ++ [.setValueAtIndex a index v]⟩) := JSA.invoke_of_eq e
    show (Array.setValueAtIndex rt a index v >>= fun _ =>
      Array.createWithElements.loop rt a (index + 1) rest) ⟨s, t⟩ = _
    rw [JSA.bind_of_ok g, h2, List.append_assoc]
    rfl

/-- The loop of `Array::createWithElements` on an array store: started at position
`index` of an array whose remaining length is the number of remaining elements, it
returns, makes the assignments in order, and leaves the elements before `index`
followed by the assigned ones. -/
theorem Array.loop_store {σ : Type} (rt : JSContext σ)
    (content : σ → JSArray → Option (List Value)) (hs : rt.ArrayStore content)
    (a : JSArray) (rest : List Value) :
    ∀ (index : Nat) (s : σ) (t : List EngineCall) (l : List Value),
      content s a = some l → index + rest.length = l.length →
      ∃ s1 : σ,
        Array.createWithElements.loop rt a index rest ⟨s, t⟩
          = (.ok (), ⟨s1, t ++ Array.assignments a index rest⟩) ∧
        content s1 a = some (l.take index ++ rest) := by
  induction rest with
  | nil =>
    intro index s t l hl hlen
    refine ⟨s, ?_, ?_⟩
    · show (Except.ok (), (⟨s, t⟩ : World σ)) = (.ok (), ⟨s, t ++ []⟩)
      rw [List.append_nil]
    · have h0 : index = l.length := hlen
      rw [h0, List.take_length, List.append_nil]
      exact hl
  | cons v rest ih =>
    intro index s t l hl hlen
    have hlt : index < l.length := by
      have h0 : index + (rest.length + 1) = l.length := hlen
      omega
    obtain ⟨s1, e, hc⟩ := hs.set a index v s l hl hlt
    have hlen2 : index + 1 + rest.length = (l.set index v).length := by
      have h0 : index + (rest.length + 1) = l.length := hlen
      rw [List.length_set]
      omega
    obtain ⟨s2, h2, hc2⟩ := ih (index + 1) s1 (t ++ [.setValueAtIndex a index v])
      (l.set index v) hc hlen2
    refine ⟨s2, ?_, ?_⟩
    · have g : Array.setValueAtIndex rt a index v ⟨s, t⟩
          = (.ok (), ⟨s1, t ++ [.setValueAtIndex a index v]⟩) := JSA.invoke_of_eq e
      show (Array.setValueAtIndex rt a index v >>= fun _ =>
        Array.createWithElements.loop rt a (index + 1) rest) ⟨s, t⟩ = _
      rw [JSA.bind_of_ok g, h2, List.append_assoc]
      rfl
    · rw [hc2, List.take_succ_set_same l index v hlt, List.append_assoc]
      rfl

/-- `Array::createWithElements` once the array is created and the loop has returned. -/
theorem Array.createWithElements_of_loop {σ : Type} (rt : JSContext σ)
    (elements : List Value) (s s1 s2 : σ) (t t2 : List EngineCall) (a : JSArray)
    (hcreate : rt.createArray elements.length s = (.ok a, s1))
    (hloop : Array.createWithElements.loop rt a 0 elements
      ⟨s1, t ++ [.createArray elements.length]⟩ = (.ok (), ⟨s2, t2⟩)) :
    Array.createWithElements rt elements ⟨s, t⟩ = (.ok a, ⟨s2, t2⟩) := by
  unfold Array.createWithElements Array.create
  rw [JSA.bind_of_ok (JSA.invoke_of_eq hcreate), JSA.bind_of_ok (JSA.onThrow_of_ok hloop)]
  rfl

/-- The indexed operations of `storeEngine` behave as an array store. -/
theorem storeEngine_arrayStore : storeEngine.ArrayStore storeContent where
  create := by
    intro n s
    refine ⟨⟨some s.length⟩, _, List.replicate n ⟨.UndefinedKind, .uninit⟩, rfl, ?_, ?_⟩
    · show (s ++ [List.replicate n ⟨.UndefinedKind, .uninit⟩])[s.length]? = _
      rw [List.getElem?_concat_length]
    · exact List.length_replicate n _
  set := by
    intro a i v s l hl hlt
    obtain ⟨p⟩ := a
    cases p with
    | none => cases hl
    | some h =>
      have hl2 : s[h]? = some l := hl
      have hh : h < s.length := by
        rcases Nat.lt_or_ge h s.length with h1 | h1
        · exact h1
        · rw [List.getElem?_eq_none h1] at hl2
          cases hl2
      refine ⟨s.set h (l.set i v), ?_, ?_⟩
      · simp [storeEngine, hl, hlt]
      · show (s.set h (l.set i v))[h]? = _
        rw [List.getElem?_set_self hh]

/-- Returning a value adds no engine call. -/
theorem JSA.NoCall.pure {σ α : Type} (a : α) : JSA.NoCall (Pure.pure a : JSA σ α) :=
  fun w => ⟨[], (List.append_nil w.trace).symm, fun _ h => nomatch h⟩

/-- Throwing adds no engine call. -/
theorem JSA.NoCall.throw {σ α : Type} (e : JSException) :
    JSA.NoCall (JSA.throw e : JSA σ α) :=
  fun w => ⟨[], (List.append_nil w.trace).symm, fun _ h => nomatch h⟩

/-- An engine operation other than an invocation adds one call, not an invocation. -/
theorem JSA.NoCall.invoke {σ α : Type} (c : EngineCall) (op : EngineOp σ α)
    (hc : c.isCall = false) : JSA.NoCall (JSA.invoke c op) :=
  fun _ => ⟨[c], rfl, fun x hx => by rw [List.mem_singleton] at hx; rw [hx]; exact hc⟩

/-- An invalidation is not an invocation. -/
theorem JSA.NoCall.invalidate {σ : Type} (rt : JSContext σ) (p : PointerValue) :
    JSA.NoCall (JSA.invalidate rt p) :=
  fun _ => ⟨[.invalidate p], rfl, fun x hx => by rw [List.mem_singleton] at hx; rw [hx]; rfl⟩

/-- Sequencing keeps the absence of invocations. -/
theorem JSA.NoCall.bind {σ α β : Type} {m : JSA σ α} {f : α → JSA σ β}
    (hm : JSA.NoCall m) (hf : ∀ a, JSA.NoCall (f a)) : JSA.NoCall (m >>= f) := by
  intro w
  obtain ⟨a1, h1, h1c⟩ := hm w
  cases hr : m w with
  | mk r w1 =>
    rw [hr] at h1
    cases r with
    | error e =>
      rw [JSA.bind_of_error hr]
      exact ⟨a1, h1, h1c⟩
    | ok a =>
      rw [JSA.bind_of_ok hr]
      obtain ⟨a2, h2, h2c⟩ := hf a w1
      refine ⟨a1 ++ a2, ?_, ?_⟩
      · rw [h2, h1, List.append_assoc]
      · intro c hc
        rcases List.mem_append.mp hc with h | h
        · exact h1c c h
        · exact h2c c h

/-- A scope with a destructor keeps the absence of invocations. -/
theorem JSA.NoCall.finally {σ α : Type} {m : JSA σ α} {c : JSA σ Unit}
    (hm : JSA.NoCall m) (hc : JSA.NoCall c) : JSA.NoCall (JSA.finally m c) := by
  intro w
  obtain ⟨a1, h1, h1c⟩ := hm w
  obtain ⟨a2, h2, h2c⟩ := hc (m w).2
  refine ⟨a1 ++ a2, ?_, ?_⟩
  · show (c (m w).2).2.trace = _
    rw [h2, h1, List.append_assoc]
  · intro x hx
    rcases List.mem_append.mp hx with h | h
    · exact h1c x h
    · exact h2c x h

/-- A cleanup on throw keeps the absence of invocations. -/
theorem JSA.NoCall.onThrow {σ α : Type} {m : JSA σ α} {c : JSA σ Unit}
    (hm : JSA.NoCall m) (hc : JSA.NoCall c) : JSA.NoCall (JSA.onThrow m c) := by
  intro w
  obtain ⟨a1, h1, h1c⟩ := hm w
  cases hr : m w with
  | mk r w1 =>
    rw [hr] at h1
    cases r with
    | ok a =>
      rw [JSA.onThrow_of_ok hr]
      exact ⟨a1, h1, h1c⟩
    | error e =>
      rw [JSA.onThrow_of_error hr]
      obtain ⟨a2, h2, h2c⟩ := hc w1
      refine ⟨a1 ++ a2, ?_, ?_⟩
      · show (c w1).2.trace = _
        rw [h2, h1, List.append_assoc]
      · intro x hx
        rcases List.mem_append.mp hx with h | h
        · exact h1c x h
        · exact h2c x h

/-- The comparison of doubles does not depend on the order of its operands. -/
theorem Double.eq_comm (a b : Double) : Double.eq a b = Double.eq b a := by
  unfold Double.eq
  have e : (a.bits == b.bits) = (b.bits == a.bits) := Bool.beq_comm
  rw [e]
  cases a.isNaN <;> cases b.isNaN <;> cases a.isZero <;> cases b.isZero <;> simp

/-- The strict-equality primitives of the sample engine are symmetric. -/
theorem sampleEngine_symmetric : sampleEngine.StrictEqualsSymmetric := by
  refine ⟨?_, ?_, ?_⟩ <;> intro a b s <;> simp only [sampleEngine] <;>
    rw [Bool.beq_comm]

/-- C1. When the kinds of `a` and `b` differ, `Value::strictEquals` returns false and
the world is unchanged: the engine state is the same and no engine call was made. -/
theorem strictEquals_kinds_differ {σ : Type} (rt : JSContext σ) (a b : Value)
    (w : World σ) (h : a.kind_ ≠ b.kind_) :
    Value.strictEquals rt a b w = (.ok false, w) := by
  unfold Value.strictEquals
  rw [if_pos h]
  rfl

/-- Witness of C1: Number(0) against Boolean(false). -/
theorem strictEquals_kinds_differ_witness :
    (Value.mk .NumberKind (.number ⟨0⟩)).kind_ ≠ (Value.mk .BooleanKind (.boolean false)).kind_ ∧
    Value.strictEquals sampleEngine (Value.mk .NumberKind (.number ⟨0⟩))
      (Value.mk .BooleanKind (.boolean false)) sampleWorld = (.ok false, sampleWorld) :=
  ⟨by decide, strictEquals_kinds_differ sampleEngine _ _ sampleWorld (by decide)⟩

/-- C2. `Value::strictEquals` on two values of the same kind: true for Undefined and
for Null; the comparison of the stored booleans for Boolean; the C++ comparison `==`
of the stored doubles for Number; for Symbol, String and Object exactly the outcome
of the contract's strict-equality primitive of that kind on the two handles (its
answer or the failure it raises, and its engine state), that primitive being the
only engine call made. -/
theorem strictEquals_same_kind {σ : Type} (rt : JSContext σ) (w : World σ) :
    (∀ d e : Data, Value.strictEquals rt ⟨.UndefinedKind, d⟩ ⟨.UndefinedKind, e⟩ w
        = (.ok true, w)) ∧
    (∀ d e : Data, Value.strictEquals rt ⟨.NullKind, d⟩ ⟨.NullKind, e⟩ w = (.ok true, w)) ∧
    (∀ x y : Bool, Value.strictEquals rt ⟨.BooleanKind, .boolean x⟩ ⟨.BooleanKind, .boolean y⟩ w
        = (.ok (x == y), w)) ∧
    (∀ x y : Double, Value.strictEquals rt ⟨.NumberKind, .number x⟩ ⟨.NumberKind, .number y⟩ w
        = (.ok (Double.eq x y), w)) ∧
    (∀ p q : Symbol, Value.strictEquals rt ⟨.SymbolKind, .pointer p⟩ ⟨.SymbolKind, .pointer q⟩ w
        = ((rt.strictEqualsSymbol p q w.engine).1,
            ⟨(rt.strictEqualsSymbol p q w.engine).2, w.trace ++ [.strictEqualsSymbol p q]⟩)) ∧
    (∀ p q : JSString, Value.strictEquals rt ⟨.StringKind, .pointer p⟩ ⟨.StringKind, .pointer q⟩ w
        = ((rt.strictEqualsString p q w.engine).1,
            ⟨(rt.strictEqualsString p q w.engine).2, w.trace ++ [.strictEqualsString p q]⟩)) ∧
    (∀ p q : Object, Value.strictEquals rt ⟨.ObjectKind, .pointer p⟩ ⟨.ObjectKind, .pointer q⟩ w
        = ((rt.strictEqualsObject p q w.engine).1,
            ⟨(rt.strictEqualsObject p q w.engine).2, w.trace ++ [.strictEqualsObject p q]⟩)) := by
  refine ⟨?_, ?_, ?_, ?_, ?_, ?_, ?_⟩ <;> intros <;> rfl

/-- C3. `Value::strictEquals` answers the same for (a, b) and for (b, a) when the
contract's primitives for Symbol, String and Object are symmetric; when `a` is
Undefined, Null, Boolean or Number the two calls agree, world included, for every
contract. -/
theorem strictEquals_symmetric {σ : Type} (rt : JSContext σ) (a b : Value) (w : World σ) :
    (rt.StrictEqualsSymmetric →
      (Value.strictEquals rt a b w).1 = (Value.strictEquals rt b a w).1) ∧
    (a.kind_.ge PointerKind = false →
      Value.strictEquals rt a b w = Value.strictEquals rt b a w) := by
  by_cases h : a.kind_ = b.kind_
  · obtain ⟨ka, da⟩ := a
    obtain ⟨kb, db⟩ := b
    simp only at h
    subst h
    constructor
    · intro hs
      obtain ⟨h1, h2, h3⟩ := hs
      cases ka <;> simp [Value.strictEquals, JSA.invoke, pure, Double.eq_comm, Bool.beq_comm,
        h1 da.readPointer db.readPointer, h2 da.readPointer db.readPointer,
        h3 da.readPointer db.readPointer]
    · intro hk
      cases ka <;> first
        | (exfalso; revert hk; simp [ValueKind.ge, PointerKind, ValueKind.toNat]; done)
        | simp [Value.strictEquals, pure, Double.eq_comm, Bool.beq_comm]
  · have h2 : b.kind_ ≠ a.kind_ := fun e => h e.symm
    unfold Value.strictEquals
    rw [if_pos h, if_pos h2]
    exact ⟨fun _ => rfl, fun _ => rfl⟩

/-- Witness of C3: two Object values on distinct handles of the same script value,
and a Number against an Object. -/
theorem strictEquals_symmetric_witness :
    (sampleEngine.StrictEqualsSymmetric ∧
      (Value.strictEquals sampleEngine ⟨.ObjectKind, .pointer ⟨some 7⟩⟩
          ⟨.ObjectKind, .pointer ⟨some 1007⟩⟩ sampleWorld).1
        = (Value.strictEquals sampleEngine ⟨.ObjectKind, .pointer ⟨some 1007⟩⟩
          ⟨.ObjectKind, .pointer ⟨some 7⟩⟩ sampleWorld).1) ∧
    ((Value.mk .NumberKind (.number ⟨0⟩)).kind_.ge PointerKind = false ∧
      Value.strictEquals sampleEngine ⟨.NumberKind, .number ⟨0⟩⟩
          ⟨.ObjectKind, .pointer ⟨some 7⟩⟩ sampleWorld
        = Value.strictEquals sampleEngine ⟨.ObjectKind, .pointer ⟨some 7⟩⟩
          ⟨.NumberKind, .number ⟨0⟩⟩ sampleWorld) :=
  ⟨⟨sampleEngine_symmetric,
      (strictEquals_symmetric sampleEngine _ _ sampleWorld).1 sampleEngine_symmetric⟩,
    ⟨by decide, (strictEquals_symmetric sampleEngine _ _ sampleWorld).2 (by decide)⟩⟩

/-- C4. Move construction `Value(Value &&other)`: the new value has the kind of the
source and, for every kind with a payload, the very same payload (boolean, number
or handle); the source is left with kind Undefined, holds no handle, and for a
reference kind its stored raw handle is null. -/
theorem moveCtor_spec (v : Value) (hwf : v.wellFormed = true) :
    (Value.moveCtor v).1.kind_ = v.kind_ ∧
    (v.kind_ ≠ .UndefinedKind → v.kind_ ≠ .NullKind → (Value.moveCtor v).1 = v) ∧
    (v.kind_ = .BooleanKind → (Value.moveCtor v).1.getBool = v.getBool) ∧
    (v.kind_ = .NumberKind → (Value.moveCtor v).1.getNumber = v.getNumber) ∧
    (Value.moveCtor v).1.handle = v.handle ∧
    (Value.moveCtor v).2.kind_ = .UndefinedKind ∧
    (Value.moveCtor v).2.handle = none ∧
    (v.kind_.ge PointerKind = true → (Value.moveCtor v).2.data_ = .pointer ⟨none⟩) := by
  obtain ⟨k, d⟩ := v
  cases k <;> cases d <;> simp [Value.wellFormed] at hwf <;>
    simp [Value.moveCtor, Pointer.moveCtor, Value.handle, ValueKind.ge, PointerKind,
      ValueKind.toNat, Data.readPointer, Data.readBoolean, Data.readNumber, Value.getBool,
      Value.getNumber]

/-- Witness of C4: an Object value on handle 7. -/
theorem moveCtor_spec_witness :
    (Value.mk .ObjectKind (.pointer ⟨some 7⟩)).wellFormed = true ∧
    Value.moveCtor ⟨.ObjectKind, .pointer ⟨some 7⟩⟩
      = (⟨.ObjectKind, .pointer ⟨some 7⟩⟩, ⟨.UndefinedKind, .pointer ⟨none⟩⟩) ∧
    (Value.moveCtor ⟨.ObjectKind, .pointer ⟨some 7⟩⟩).1 = ⟨.ObjectKind, .pointer ⟨some 7⟩⟩ ∧
    (Value.moveCtor ⟨.ObjectKind, .pointer ⟨some 7⟩⟩).2.kind_ = .UndefinedKind ∧
    (Value.moveCtor ⟨.ObjectKind, .pointer ⟨some 7⟩⟩).2.handle = none :=
  have h := moveCtor_spec ⟨.ObjectKind, .pointer ⟨some 7⟩⟩ (by decide)
  ⟨by decide, by decide, h.2.1 (by decide) (by decide), h.2.2.2.2.2.1, h.2.2.2.2.2.2.1⟩

/-- The body of the copy constructor for a reference kind when the clone returns: the
returned handle is placed and nothing is unwound. -/
theorem Value.copyCtor_body_of_ok {σ : Type} (c : EngineCall)
    (op : EngineOp σ (Option PointerValue)) (k : ValueKind) (cleanup : JSA σ Unit)
    (s s1 : σ) (t : List EngineCall) (h : Option PointerValue) (e : op s = (.ok h, s1)) :
    JSA.onThrow (JSA.invoke c op >>= fun h => (pure ⟨k, .pointer ⟨h⟩⟩ : JSA σ Value)) cleanup
        ⟨s, t⟩
      = (.ok ⟨k, .pointer ⟨h⟩⟩, ⟨s1, t ++ [c]⟩) := by
  apply JSA.onThrow_of_ok
  rw [JSA.bind_of_ok (JSA.invoke_of_eq e)]
  rfl

/-- The body of the copy constructor for a reference kind when the clone raises: the
failure is passed on after the unwinding has run. -/
theorem Value.copyCtor_body_of_error {σ : Type} (c : EngineCall)
    (op : EngineOp σ (Option PointerValue)) (k : ValueKind) (cleanup : JSA σ Unit)
    (s s1 : σ) (t : List EngineCall) (x : JSException) (e : op s = (.error x, s1)) :
    JSA.onThrow (JSA.invoke c op >>= fun h => (pure ⟨k, .pointer ⟨h⟩⟩ : JSA σ Value)) cleanup
        ⟨s, t⟩
      = (.error x, (cleanup ⟨s1, t ++ [c]⟩).2) := by
  apply JSA.onThrow_of_error
  exact JSA.bind_of_error (JSA.invoke_of_eq e)

/-- Copy construction of a Symbol value whose clone returns. -/
theorem Value.copyCtor_symbol_of_ok {σ : Type} (rt : JSContext σ) (p : Pointer)
    (storage : Option PointerValue) (s s1 : σ) (t : List EngineCall)
    (h : Option PointerValue) (e : rt.cloneSymbol p.ptr_ s = (.ok h, s1)) :
    Value.copyCtor rt ⟨.SymbolKind, .pointer p⟩ storage ⟨s, t⟩
      = (.ok ⟨.SymbolKind, .pointer ⟨h⟩⟩, ⟨s1, t ++ [.cloneSymbol p.ptr_]⟩) :=
  Value.copyCtor_body_of_ok _ _ _ _ s s1 t h e

/-- Copy construction of a String value whose clone returns. -/
theorem Value.copyCtor_string_of_ok {σ : Type} (rt : JSContext σ) (p : Pointer)
    (storage : Option PointerValue) (s s1 : σ) (t : List EngineCall)
    (h : Option PointerValue) (e : rt.cloneString p.ptr_ s = (.ok h, s1)) :
    Value.copyCtor rt ⟨.StringKind, .pointer p⟩ storage ⟨s, t⟩
      = (.ok ⟨.StringKind, .pointer ⟨h⟩⟩, ⟨s1, t ++ [.cloneString p.ptr_]⟩) :=
  Value.copyCtor_body_of_ok _ _ _ _ s s1 t h e

/-- Copy construction of an Object value whose clone returns. -/
theorem Value.copyCtor_object_of_ok {σ : Type} (rt : JSContext σ) (p : Pointer)
    (storage : Option PointerValue) (s s1 : σ) (t : List EngineCall)
    (h : Option PointerValue) (e : rt.cloneObject p.ptr_ s = (.ok h, s1)) :
    Value.copyCtor rt ⟨.ObjectKind, .pointer p⟩ storage ⟨s, t⟩
      = (.ok ⟨.ObjectKind, .pointer ⟨h⟩⟩, ⟨s1, t ++ [.cloneObject p.ptr_]⟩) :=
  Value.copyCtor_body_of_ok _ _ _ _ s s1 t h e

/-- Copy construction of a Symbol value whose clone raises: the destructor runs on the
storage of the new value. -/
theorem Value.copyCtor_symbol_of_error {σ : Type} (rt : JSContext σ) (p : Pointer)
    (storage : Option PointerValue) (s s1 : σ) (t : List EngineCall)
    (x : JSException) (e : rt.cloneSymbol p.ptr_ s = (.error x, s1)) :
    Value.copyCtor rt ⟨.SymbolKind, .pointer p⟩ storage ⟨s, t⟩
      = (.error x, ⟨rt.release storage s1,
          t ++ [.cloneSymbol p.ptr_] ++ releaseCalls storage⟩) := by
  have h := Value.copyCtor_body_of_error (.cloneSymbol p.ptr_) (rt.cloneSymbol p.ptr_)
    .SymbolKind (Pointer.dtor rt ⟨storage⟩) s s1 t x e
  rw [Pointer.dtor_eq] at h
  exact h

/-- Copy construction of a String value whose clone raises. -/
theorem Value.copyCtor_string_of_error {σ : Type} (rt : JSContext σ) (p : Pointer)
    (storage : Option PointerValue) (s s1 : σ) (t : List EngineCall)
    (x : JSException) (e : rt.cloneString p.ptr_ s = (.error x, s1)) :
    Value.copyCtor rt ⟨.StringKind, .pointer p⟩ storage ⟨s, t⟩
      = (.error x, ⟨rt.release storage s1,
          t ++ [.cloneString p.ptr_] ++ releaseCalls storage⟩) := by
  have h := Value.copyCtor_body_of_error (.cloneString p.ptr_) (rt.cloneString p.ptr_)
    .StringKind (Pointer.dtor rt ⟨storage⟩) s s1 t x e
  rw [Pointer.dtor_eq] at h
  exact h

/-- Copy construction of an Object value whose clone raises. -/
theorem Value.copyCtor_object_of_error {σ : Type} (rt : JSContext σ) (p : Pointer)
    (storage : Option PointerValue) (s s1 : σ) (t : List EngineCall)
    (x : JSException) (e : rt.cloneObject p.ptr_ s = (.error x, s1)) :
    Value.copyCtor rt ⟨.ObjectKind, .pointer p⟩ storage ⟨s, t⟩
      = (.error x, ⟨rt.release storage s1,
          t ++ [.cloneObject p.ptr_] ++ releaseCalls storage⟩) := by
  have h := Value.copyCtor_body_of_error (.cloneObject p.ptr_) (rt.cloneObject p.ptr_)
    .ObjectKind (Pointer.dtor rt ⟨storage⟩) s s1 t x e
  rw [Pointer.dtor_eq] at h
  exact h

/-- A value returned by the body of the copy constructor has the kind it was given. -/
theorem Value.copyCtor_body_kind {σ : Type} (c : EngineCall)
    (op : EngineOp σ (Option PointerValue)) (k : ValueKind) (cleanup : JSA σ Unit)
    (w w1 : World σ) (r : Value)
    (hr : JSA.onThrow (JSA.invoke c op >>= fun h => (pure ⟨k, .pointer ⟨h⟩⟩ : JSA σ Value))
      cleanup w = (.ok r, w1)) : r.kind_ = k := by
  obtain ⟨s, t⟩ := w
  cases ho : op s with
  | mk o s1 =>
    cases o with
    | error x =>
      rw [Value.copyCtor_body_of_error c op k cleanup s s1 t x ho] at hr
      exact Except.noConfusion (congrArg Prod.fst hr)
    | ok h =>
      rw [Value.copyCtor_body_of_ok c op k cleanup s s1 t h ho] at hr
      rw [← Except.ok.inj (congrArg Prod.fst hr)]

/-- A copy has the kind of its source, whatever the payload of the source. -/
theorem Value.copyCtor_kind {σ : Type} (rt : JSContext σ) (v c : Value)
    (storage : Option PointerValue) (w w1 : World σ)
    (hr : Value.copyCtor rt v storage w = (.ok c, w1)) : c.kind_ = v.kind_ := by
  obtain ⟨k, d⟩ := v
  cases k with
  | UndefinedKind => rw [← Except.ok.inj (congrArg Prod.fst hr)]
  | NullKind => rw [← Except.ok.inj (congrArg Prod.fst hr)]
  | BooleanKind => rw [← Except.ok.inj (congrArg Prod.fst hr)]
  | NumberKind => rw [← Except.ok.inj (congrArg Prod.fst hr)]
  | SymbolKind => exact Value.copyCtor_body_kind _ _ _ _ w w1 c hr
  | StringKind => exact Value.copyCtor_body_kind _ _ _ _ w w1 c hr
  | ObjectKind => exact Value.copyCtor_body_kind _ _ _ _ w w1 c hr

/-- The destructor of a `Pointer` makes no clone. -/
theorem releaseCalls_not_clone (p : Option PointerValue) :
    ∀ c ∈ releaseCalls p, c.isClone = false := by
  intro c hc
  cases p with
  | none => exact absurd hc (List.not_mem_nil c)
  | some h =>
    have e : c = .invalidate h := List.mem_singleton.mp hc
    rw [e]
    rfl

/-- A borrowing getter: it returns exactly when the clone returns, with the returned
handle, and passes on what the clone raises; the clone is its only engine call. -/
theorem JSA.getter_spec {σ : Type} (c : EngineCall) (op : EngineOp σ (Option PointerValue))
    (w : World σ) :
    (((JSA.invoke c op >>= fun h => (pure ⟨h⟩ : JSA σ Pointer)) w).1.isOk = true
      ↔ ∃ (h : Option PointerValue) (s1 : σ), op w.engine = (.ok h, s1)) ∧
    (∀ (h : Option PointerValue) (s1 : σ), op w.engine = (.ok h, s1) →
      (JSA.invoke c op >>= fun h => (pure ⟨h⟩ : JSA σ Pointer)) w
        = (.ok ⟨h⟩, ⟨s1, w.trace ++ [c]⟩)) ∧
    (∀ (e : JSException) (s1 : σ), op w.engine = (.error e, s1) →
      (JSA.invoke c op >>= fun h => (pure ⟨h⟩ : JSA σ Pointer)) w
        = (.error e, ⟨s1, w.trace ++ [c]⟩)) := by
  obtain ⟨s, t⟩ := w
  have hok : ∀ (h : Option PointerValue) (s1 : σ), op s = (.ok h, s1) →
      (JSA.invoke c op >>= fun h => (pure ⟨h⟩ : JSA σ Pointer)) ⟨s, t⟩
        = (.ok ⟨h⟩, ⟨s1, t ++ [c]⟩) := by
    intro h s1 e
    rw [JSA.bind_of_ok (JSA.invoke_of_eq e)]
    rfl
  have herr : ∀ (e : JSException) (s1 : σ), op s = (.error e, s1) →
      (JSA.invoke c op >>= fun h => (pure ⟨h⟩ : JSA σ Pointer)) ⟨s, t⟩
        = (.error e, ⟨s1, t ++ [c]⟩) :=
    fun e s1 h => JSA.bind_of_error (JSA.invoke_of_eq h)
  refine ⟨?_, hok, herr⟩
  constructor
  · intro hs
    cases ho : op s with
    | mk o s1 =>
      cases o with
      | error x =>
        rw [herr x s1 ho] at hs
        exact Bool.noConfusion hs
      | ok h => exact ⟨h, s1, rfl⟩
  · rintro ⟨h, s1, e⟩
    rw [hok h s1 e]
    rfl

/-- For a value that is not an Object the text of `kindToString` is the diagnostic
text, with or without a contract, and no engine call is made. -/
theorem kindToString_eq_diagnosticText {σ : Type} (v : Value) (r : Option (JSContext σ))
    (w : World σ) (hk : v.kind_ ≠ .ObjectKind) :
    kindToString v r w = (.ok (diagnosticText v), w) := by
  obtain ⟨k, d⟩ := v
  cases k <;> first
    | exact absurd rfl hk
    | rfl

/-- Without a contract the text of `kindToString` is the diagnostic text. -/
theorem kindToString_none_eq_diagnosticText {σ : Type} (v : Value) (w : World σ) :
    kindToString v (none : Option (JSContext σ)) w = (.ok (diagnosticText v), w) := by
  obtain ⟨k, d⟩ := v
  cases k <;> rfl

/-- The diagnostic text of each kind. -/
theorem diagnosticText_table (d : Data) :
    diagnosticText ⟨.UndefinedKind, d⟩ = "undefined" ∧
    diagnosticText ⟨.NullKind, d⟩ = "null" ∧
    (∀ x : Bool, diagnosticText ⟨.BooleanKind, .boolean x⟩ = if x then "true" else "false") ∧
    diagnosticText ⟨.NumberKind, d⟩ = "a number" ∧
    diagnosticText ⟨.StringKind, d⟩ = "a string" ∧
    diagnosticText ⟨.SymbolKind, d⟩ = "a symbol" ∧
    diagnosticText ⟨.ObjectKind, d⟩ = "an object" :=
  ⟨rfl, rfl, fun _ => rfl, rfl, rfl, rfl, rfl⟩

/-- On an Object value with a contract whose `cloneObject` raises, `kindToString`
passes the failure on. -/
theorem kindToString_object_clone_error {σ : Type} (rt : JSContext σ) (d : Data)
    (s s1 : σ) (t : List EngineCall) (e : JSException)
    (e1 : rt.cloneObject d.readPointer.ptr_ s = (.error e, s1)) :
    kindToString ⟨.ObjectKind, d⟩ (some rt) ⟨s, t⟩
      = (.error e, ⟨s1, t ++ [.cloneObject d.readPointer.ptr_]⟩) := by
  have g : Value.getObject rt ⟨.ObjectKind, d⟩ ⟨s, t⟩
      = (.error e, ⟨s1, t ++ [.cloneObject d.readPointer.ptr_]⟩) := by
    unfold Value.getObject
    exact JSA.bind_of_error (JSA.invoke_of_eq e1)
  show (Value.getObject rt ⟨.ObjectKind, d⟩ >>= _) _ = _
  exact JSA.bind_of_error g

/-- On an Object value with a contract whose `isFunction` raises on the clone,
`kindToString` passes the failure on. -/
theorem kindToString_object_isFunction_error {σ : Type} (rt : JSContext σ) (d : Data)
    (s s1 s2 : σ) (t : List EngineCall) (h1 : Option PointerValue) (e : JSException)
    (e1 : rt.cloneObject d.readPointer.ptr_ s = (.ok h1, s1))
    (e2 : rt.isFunction ⟨h1⟩ s1 = (.error e, s2)) :
    (kindToString ⟨.ObjectKind, d⟩ (some rt) ⟨s, t⟩).1 = .error e := by
  have g : Value.getObject rt ⟨.ObjectKind, d⟩ ⟨s, t⟩
      = (.ok ⟨h1⟩, ⟨s1, t ++ [.cloneObject d.readPointer.ptr_]⟩) := by
    unfold Value.getObject
    rw [JSA.bind_of_ok (JSA.invoke_of_eq e1)]
    rfl
  show ((Value.getObject rt ⟨.ObjectKind, d⟩ >>= _) _).1 = _
  rw [JSA.bind_of_ok g, JSA.finally_fst]
  have g2 : Object.isFunction rt ⟨h1⟩ ⟨s1, t ++ [.cloneObject d.readPointer.ptr_]⟩
      = (.error e, ⟨s2, t ++ [.cloneObject d.readPointer.ptr_] ++ [.isFunction ⟨h1⟩]⟩) :=
    JSA.invoke_of_eq e2
  rw [JSA.bind_of_error g2]

/-- The throw of a message built from the text of `kindToString` for an Object value,
with a contract: the text is "a function" or "an object" as `isFunction` answers on
the clone of the handle; a failure raised by `cloneObject` or by `isFunction` is
passed on in place of the message. -/
theorem kindToString_object_throw {σ α : Type} (rt : JSContext σ) (d : Data)
    (mk : String → JSException) (w : World σ) :
    (∀ (h1 : Option PointerValue) (s1 : σ) (f : Bool) (s2 : σ),
      rt.cloneObject d.readPointer.ptr_ w.engine = (.ok h1, s1) →
      rt.isFunction ⟨h1⟩ s1 = (.ok f, s2) →
      ((kindToString ⟨.ObjectKind, d⟩ (some rt) >>= fun s =>
          (JSA.throw (mk s) : JSA σ α)) w).1
        = .error (mk (if f then "a function" else "an object"))) ∧
    (∀ (e : JSException) (s1 : σ),
      rt.cloneObject d.readPointer.ptr_ w.engine = (.error e, s1) →
      ((kindToString ⟨.ObjectKind, d⟩ (some rt) >>= fun s =>
          (JSA.throw (mk s) : JSA σ α)) w).1 = .error e) ∧
    (∀ (h1 : Option PointerValue) (s1 : σ) (e : JSException) (s2 : σ),
      rt.cloneObject d.readPointer.ptr_ w.engine = (.ok h1, s1) →
      rt.isFunction ⟨h1⟩ s1 = (.error e, s2) →
      ((kindToString ⟨.ObjectKind, d⟩ (some rt) >>= fun s =>
          (JSA.throw (mk s) : JSA σ α)) w).1 = .error e) := by
  obtain ⟨s, t⟩ := w
  refine ⟨?_, ?_, ?_⟩
  · intro h1 s1 f s2 e1 e2
    rw [JSA.bind_of_ok (kindToString_object rt d s s1 s2 t h1 f e1 e2)]
    rfl
  · intro e s1 e1
    rw [JSA.bind_of_error (kindToString_object_clone_error rt d s s1 t e e1)]
  · intro h1 s1 e s2 e1 e2
    rw [JSA.bind_of_error (JSA.eq_error_of_fst _ e
      (kindToString_object_isFunction_error rt d s s1 s2 t h1 e e1 e2))]

/-- The failing branch of `Value::asNumber`, with the text of the message. -/
theorem Value.asNumber_mismatch_text {σ : Type} (v : Value) (w : World σ)
    (hk : v.kind_ ≠ .NumberKind) :
    Value.asNumber v w
      = (.error (.JSANativeException
          ("Value is " ++ diagnosticText v ++ ", expected a number")), w) :=
  Value.asNumber_mismatch v w w _ hk (kindToString_none_eq_diagnosticText v w)

/-- The failing branch of `Value::asObject`, borrowing and consuming, with the text of
the message. -/
theorem Value.asObject_mismatch_text {σ : Type} (rt : JSContext σ) (v : Value)
    (w : World σ) (hk : v.kind_ ≠ .ObjectKind) :
    Value.asObject rt v w
      = (.error (.JSError ("Value is " ++ diagnosticText v ++ ", expected an Object")), w) ∧
    Value.asObjectMove rt v w
      = (.error (.JSError ("Value is " ++ diagnosticText v ++ ", expected an Object")), w) := by
  refine ⟨Value.asObject_mismatch rt v w w _ hk
    (kindToString_eq_diagnosticText v (some rt) w hk), ?_⟩
  unfold Value.asObjectMove
  have hb : (!v.isObject) = true := by simp [Value.isObject, hk]
  rw [if_pos hb, JSA.bind_of_ok (kindToString_eq_diagnosticText v (some rt) w hk)]
  rfl

/-- The failing branch of `Value::asSymbol`, borrowing and consuming, on a value that
is not an Object, with the text of the message. -/
theorem Value.asSymbol_mismatch_text {σ : Type} (rt : JSContext σ) (v : Value)
    (w : World σ) (hk : v.kind_ ≠ .SymbolKind) (ho : v.kind_ ≠ .ObjectKind) :
    Value.asSymbol rt v w
      = (.error (.JSError ("Value is " ++ diagnosticText v ++ ", expected a Symbol")), w) ∧
    Value.asSymbolMove rt v w
      = (.error (.JSError ("Value is " ++ diagnosticText v ++ ", expected a Symbol")), w) :=
  ⟨Value.asSymbol_mismatch rt v w w _ hk (kindToString_eq_diagnosticText v (some rt) w ho),
    Value.asSymbolMove_mismatch rt v w w _ hk
      (kindToString_eq_diagnosticText v (some rt) w ho)⟩

/-- The failing branch of `Value::asString`, borrowing and consuming, on a value that
is not an Object, with the text of the message. -/
theorem Value.asString_mismatch_text {σ : Type} (rt : JSContext σ) (v : Value)
    (w : World σ) (hk : v.kind_ ≠ .StringKind) (ho : v.kind_ ≠ .ObjectKind) :
    Value.asString rt v w
      = (.error (.JSError ("Value is " ++ diagnosticText v ++ ", expected a String")), w) ∧
    Value.asStringMove rt v w
      = (.error (.JSError ("Value is " ++ diagnosticText v ++ ", expected a String")), w) :=
  ⟨Value.asString_mismatch rt v w w _ hk (kindToString_eq_diagnosticText v (some rt) w ho),
    Value.asStringMove_mismatch rt v w w _ hk
      (kindToString_eq_diagnosticText v (some rt) w ho)⟩

/-- The accessors `asSymbol` and `asString`, borrowing and consuming, on an Object
value: the message says "a function" or "an object" as `isFunction` answers on the
clone `kindToString` makes of the handle. -/
theorem Value.narrow_object_message {σ : Type} (rt : JSContext σ) (d : Data) (w : World σ)
    (h1 : Option PointerValue) (s1 : σ) (f : Bool) (s2 : σ)
    (e1 : rt.cloneObject d.readPointer.ptr_ w.engine = (.ok h1, s1))
    (e2 : rt.isFunction ⟨h1⟩ s1 = (.ok f, s2)) :
    (Value.asSymbol rt ⟨.ObjectKind, d⟩ w).1 = .error (.JSError
      ("Value is " ++ (if f then "a function" else "an object") ++ ", expected a Symbol")) ∧
    (Value.asSymbolMove rt ⟨.ObjectKind, d⟩ w).1 = .error (.JSError
      ("Value is " ++ (if f then "a function" else "an object") ++ ", expected a Symbol")) ∧
    (Value.asString rt ⟨.ObjectKind, d⟩ w).1 = .error (.JSError
      ("Value is " ++ (if f then "a function" else "an object") ++ ", expected a String")) ∧
    (Value.asStringMove rt ⟨.ObjectKind, d⟩ w).1 = .error (.JSError
      ("Value is " ++ (if f then "a function" else "an object") ++ ", expected a String")) :=
  ⟨(kindToString_object_throw rt d
      (fun s => .JSError ("Value is " ++ s ++ ", expected a Symbol")) w).1 h1 s1 f s2 e1 e2,
    (kindToString_object_throw rt d
      (fun s => .JSError ("Value is " ++ s ++ ", expected a Symbol")) w).1 h1 s1 f s2 e1 e2,
    (kindToString_object_throw rt d
      (fun s => .JSError ("Value is " ++ s ++ ", expected a String")) w).1 h1 s1 f s2 e1 e2,
    (kindToString_object_throw rt d
      (fun s => .JSError ("Value is " ++ s ++ ", expected a String")) w).1 h1 s1 f s2 e1 e2⟩

/-- The accessors `asSymbol` and `asString`, borrowing and consuming, on an Object
value whose clone for the message raises: the failure is passed on. -/
theorem Value.narrow_object_clone_error {σ : Type} (rt : JSContext σ) (d : Data)
    (w : World σ) (e : JSException) (s1 : σ)
    (e1 : rt.cloneObject d.readPointer.ptr_ w.engine = (.error e, s1)) :
    (Value.asSymbol rt ⟨.ObjectKind, d⟩ w).1 = .error e ∧
    (Value.asSymbolMove rt ⟨.ObjectKind, d⟩ w).1 = .error e ∧
    (Value.asString rt ⟨.ObjectKind, d⟩ w).1 = .error e ∧
    (Value.asStringMove rt ⟨.ObjectKind, d⟩ w).1 = .error e :=
  ⟨(kindToString_object_throw rt d
      (fun s => .JSError ("Value is " ++ s ++ ", expected a Symbol")) w).2.1 e s1 e1,
    (kindToString_object_throw rt d
      (fun s => .JSError ("Value is " ++ s ++ ", expected a Symbol")) w).2.1 e s1 e1,
    (kindToString_object_throw rt d
      (fun s => .JSError ("Value is " ++ s ++ ", expected a String")) w).2.1 e s1 e1,
    (kindToString_object_throw rt d
      (fun s => .JSError ("Value is " ++ s ++ ", expected a String")) w).2.1 e s1 e1⟩

/-- The accessors `asSymbol` and `asString`, borrowing and consuming, on an Object
value for which `isFunction` raises while the message is built: the failure is passed
on. -/
theorem Value.narrow_object_isFunction_error {σ : Type} (rt : JSContext σ) (d : Data)
    (w : World σ) (h1 : Option PointerValue) (s1 : σ) (e : JSException) (s2 : σ)
    (e1 : rt.cloneObject d.readPointer.ptr_ w.engine = (.ok h1, s1))
    (e2 : rt.isFunction ⟨h1⟩ s1 = (.error e, s2)) :
    (Value.asSymbol rt ⟨.ObjectKind, d⟩ w).1 = .error e ∧
    (Value.asSymbolMove rt ⟨.ObjectKind, d⟩ w).1 = .error e ∧
    (Value.asString rt ⟨.ObjectKind, d⟩ w).1 = .error e ∧
    (Value.asStringMove rt ⟨.ObjectKind, d⟩ w).1 = .error e :=
  ⟨(kindToString_object_throw rt d
      (fun s => .JSError ("Value is " ++ s ++ ", expected a Symbol")) w).2.2 h1 s1 e s2 e1 e2,
    (kindToString_object_throw rt d
      (fun s => .JSError ("Value is " ++ s ++ ", expected a Symbol")) w).2.2 h1 s1 e s2 e1 e2,
    (kindToString_object_throw rt d
      (fun s => .JSError ("Value is " ++ s ++ ", expected a String")) w).2.2 h1 s1 e s2 e1 e2,
    (kindToString_object_throw rt d
      (fun s => .JSError ("Value is " ++ s ++ ", expected a String")) w).2.2 h1 s1 e s2 e1 e2⟩

/-- On a value of another kind no accessor returns. -/
theorem Value.narrow_not_ok {σ : Type} (rt : JSContext σ) (v : Value) (w : World σ) :
    (v.kind_ ≠ .NumberKind → (Value.asNumber v w).1.isOk = false) ∧
    (v.kind_ ≠ .ObjectKind → (Value.asObject rt v w).1.isOk = false ∧
      (Value.asObjectMove rt v w).1.isOk = false) ∧
    (v.kind_ ≠ .SymbolKind → (Value.asSymbol rt v w).1.isOk = false ∧
      (Value.asSymbolMove rt v w).1.isOk = false) ∧
    (v.kind_ ≠ .StringKind → (Value.asString rt v w).1.isOk = false ∧
      (Value.asStringMove rt v w).1.isOk = false) := by
  refine ⟨fun hk => ?_, fun hk => ⟨?_, ?_⟩, fun hk => ⟨?_, ?_⟩, fun hk => ⟨?_, ?_⟩⟩
  · rw [Value.asNumber_mismatch_text v w hk]
    rfl
  · rw [(Value.asObject_mismatch_text rt v w hk).1]
    rfl
  · rw [(Value.asObject_mismatch_text rt v w hk).2]
    rfl
  · have hb : (!v.isSymbol) = true := by simp [Value.isSymbol, hk]
    unfold Value.asSymbol
    rw [if_pos hb]
    exact JSA.bind_isOk_false _ _ _ (fun _ _ => rfl)
  · have hb : (!v.isSymbol) = true := by simp [Value.isSymbol, hk]
    unfold Value.asSymbolMove
    rw [if_pos hb]
    exact JSA.bind_isOk_false _ _ _ (fun _ _ => rfl)
  · have hb : (!v.isString) = true := by simp [Value.isString, hk]
    unfold Value.asString
    rw [if_pos hb]
    exact JSA.bind_isOk_false _ _ _ (fun _ _ => rfl)
  · have hb : (!v.isString) = true := by simp [Value.isString, hk]
    unfold Value.asStringMove
    rw [if_pos hb]
    exact JSA.bind_isOk_false _ _ _ (fun _ _ => rfl)

/-- On a value of the requested kind the borrowing accessors are the getters, and
the consuming accessors and `asNumber` return without an engine call. -/
theorem Value.narrow_of_kind {σ : Type} (rt : JSContext σ) (v : Value) :
    (v.kind_ = .NumberKind → ∀ w : World σ, Value.asNumber v w = (.ok v.getNumber, w)) ∧
    (v.kind_ = .ObjectKind → Value.asObject rt v = Value.getObject rt v) ∧
    (v.kind_ = .SymbolKind → Value.asSymbol rt v = Value.getSymbol rt v) ∧
    (v.kind_ = .StringKind → Value.asString rt v = Value.getString rt v) ∧
    (v.kind_ = .SymbolKind → ∀ w : World σ,
      Value.asSymbolMove rt v w = (.ok v.takePointer, w)) ∧
    (v.kind_ = .StringKind → ∀ w : World σ,
      Value.asStringMove rt v w = (.ok v.takePointer, w)) := by
  refine ⟨fun hk w => ?_, fun hk => ?_, fun hk => ?_, fun hk => ?_, fun hk w => ?_,
    fun hk w => ?_⟩
  · have hb : ¬ ((!v.isNumber) = true) := by simp [Value.isNumber, hk]
    unfold Value.asNumber
    rw [if_neg hb]
    rfl
  · have hb : ¬ ((!v.isObject) = true) := by simp [Value.isObject, hk]
    unfold Value.asObject
    rw [if_neg hb]
  · have hb : ¬ ((!v.isSymbol) = true) := by simp [Value.isSymbol, hk]
    unfold Value.asSymbol
    rw [if_neg hb]
  · have hb : ¬ ((!v.isString) = true) := by simp [Value.isString, hk]
    unfold Value.asString
    rw [if_neg hb]
  · have hb : ¬ ((!v.isSymbol) = true) := by simp [Value.isSymbol, hk]
    unfold Value.asSymbolMove
    rw [if_neg hb]
    rfl
  · have hb : ¬ ((!v.isString) = true) := by simp [Value.isString, hk]
    unfold Value.asStringMove
    rw [if_neg hb]
    rfl

/-- An accessor that is a borrowing getter on the requested kind and never returns on
another kind, returns exactly on the requested kind when the clone returns. -/
theorem Value.borrow_isOk_iff {σ : Type} (c : EngineCall)
    (op : EngineOp σ (Option PointerValue)) (acc : JSA σ Pointer) (P : Prop) (w : World σ)
    (hpos : P → acc = (JSA.invoke c op >>= fun h => (pure ⟨h⟩ : JSA σ Pointer)))
    (hneg : ¬ P → (acc w).1.isOk = false) :
    (acc w).1.isOk = true
      ↔ P ∧ ∃ (h : Option PointerValue) (s1 : σ), op w.engine = (.ok h, s1) := by
  by_cases hp : P
  · rw [hpos hp]
    exact (JSA.getter_spec c op w).1.trans ⟨fun h => ⟨hp, h⟩, fun h => h.2⟩
  · rw [hneg hp]
    exact ⟨fun h => Bool.noConfusion h, fun h => absurd h.1 hp⟩

/-- An accessor that returns without an engine call on the requested kind and never
returns on another kind, returns exactly on the requested kind. -/
theorem Value.take_isOk_iff {σ α : Type} (acc : JSA σ α) (P : Prop) (w : World σ) (a : α)
    (hpos : P → acc w = (.ok a, w)) (hneg : ¬ P → (acc w).1.isOk = false) :
    (acc w).1.isOk = true ↔ P := by
  by_cases hp : P
  · rw [hpos hp]
    exact ⟨fun _ => hp, fun _ => rfl⟩
  · rw [hneg hp]
    exact ⟨fun h => Bool.noConfusion h, fun h => absurd h hp⟩

/-- A narrowing that asks an engine predicate and throws when the answer is false
succeeds exactly when the predicate answers true and what follows returns. -/
theorem Object.narrow_isOk_iff_exists {σ α : Type} (c : EngineCall) (op : EngineOp σ Bool)
    (block succ : JSA σ α) (w : World σ)
    (hblock : ∀ w1, (block w1).1.isOk = false) :
    ((JSA.invoke c op >>= fun b => if !b then block else succ) w).1.isOk = true
      ↔ ∃ s1 : σ, op w.engine = (.ok true, s1)
          ∧ (succ ⟨s1, w.trace ++ [c]⟩).1.isOk = true := by
  obtain ⟨s, t⟩ := w
  cases hr : op s with
  | mk r s1 =>
    cases r with
    | error e =>
      rw [JSA.bind_of_error (JSA.invoke_of_eq hr)]
      refine ⟨fun h => Bool.noConfusion h, ?_⟩
      rintro ⟨s2, h, _⟩
      exact Except.noConfusion (congrArg Prod.fst h)
    | ok b =>
      rw [JSA.bind_of_ok (JSA.invoke_of_eq hr)]
      cases b with
      | false =>
        have hb := hblock ⟨s1, t ++ [c]⟩
        refine ⟨fun h => ?_, ?_⟩
        · exact absurd (hb.symm.trans h) (by decide)
        · rintro ⟨s2, h, _⟩
          exact absurd (Except.ok.inj (congrArg Prod.fst h)) (by decide)
      | true =>
        refine ⟨fun h => ⟨s1, rfl, h⟩, ?_⟩
        rintro ⟨s2, h, hs⟩
        have e2 : s1 = s2 := congrArg Prod.snd h
        subst e2
        exact hs

/-- The narrowing accessors of `Object` after the predicate has answered true: the
borrowing overloads are the borrowing getter, the consuming overloads return the
view on the handle without another engine call. -/
theorem Object.narrow_of_true {σ : Type} (rt : JSContext σ) (o : Object) (s s1 : σ)
    (t : List EngineCall) :
    (rt.isArray o s = (.ok true, s1) →
      Object.asArray rt o ⟨s, t⟩ = Object.cloneView rt o ⟨s1, t ++ [.isArray o]⟩ ∧
      Object.asArrayMove rt o ⟨s, t⟩ = (.ok o.takeView, ⟨s1, t ++ [.isArray o]⟩)) ∧
    (rt.isFunction o s = (.ok true, s1) →
      Object.asFunction rt o ⟨s, t⟩ = Object.cloneView rt o ⟨s1, t ++ [.isFunction o]⟩ ∧
      Object.asFunctionMove rt o ⟨s, t⟩ = (.ok o.takeView, ⟨s1, t ++ [.isFunction o]⟩)) := by
  refine ⟨fun e => ⟨?_, ?_⟩, fun e => ⟨?_, ?_⟩⟩
  · unfold Object.asArray Object.isArray
    rw [JSA.bind_of_ok (JSA.invoke_of_eq e)]
    rfl
  · unfold Object.asArrayMove Object.isArray
    rw [JSA.bind_of_ok (JSA.invoke_of_eq e)]
    rfl
  · unfold Object.asFunction Object.isFunction
    rw [JSA.bind_of_ok (JSA.invoke_of_eq e)]
    rfl
  · unfold Object.asFunctionMove Object.isFunction
    rw [JSA.bind_of_ok (JSA.invoke_of_eq e)]
    rfl

/-- The outcome of `Object::getPropertyAsObject` once the engine has returned the
property value: the outcome of the test on the value. -/
theorem Object.getPropertyAsObject_fst {σ : Type} (rt : JSContext σ) (o : Object)
    (name : String) (s s1 : σ) (t : List EngineCall) (v : Value)
    (hget : rt.getProperty o name s = (.ok v, s1)) :
    (Object.getPropertyAsObject rt o name ⟨s, t⟩).1
      = ((if !v.isObject then
            kindToString v (some rt) >>= fun d =>
              (JSA.throw (.JSError ("getPropertyAsObject: property '" ++ name ++ "' is " ++ d
                ++ ", expected an Object")) : JSA σ Object)
          else Value.getObject rt v) ⟨s1, t ++ [.getProperty o name]⟩).1 := by
  unfold Object.getPropertyAsObject Object.getProperty
  rw [JSA.bind_of_ok (JSA.invoke_of_eq hget), JSA.finally_fst]

/-- `Object::getPropertyAsObject` on a property whose value is not an Object: the
message in full. -/
theorem Object.getPropertyAsObject_mismatch_text {σ : Type} (rt : JSContext σ)
    (o : Object) (name : String) (s s1 : σ) (t : List EngineCall) (v : Value)
    (hget : rt.getProperty o name s = (.ok v, s1)) (hk : v.kind_ ≠ .ObjectKind) :
    (Object.getPropertyAsObject rt o name ⟨s, t⟩).1 = .error (.JSError
      ("getPropertyAsObject: property '" ++ name ++ "' is " ++ diagnosticText v
        ++ ", expected an Object")) := by
  have hb : (!v.isObject) = true := by simp [Value.isObject, hk]
  rw [Object.getPropertyAsObject_fst rt o name s s1 t v hget, if_pos hb,
    JSA.bind_of_ok (kindToString_eq_diagnosticText v (some rt) _ hk)]
  rfl

/-- `Object::getPropertyAsObject` on a property whose value is an Object: the outcome
is the outcome of `Value::getObject` on the value. -/
theorem Object.getPropertyAsObject_of_object {σ : Type} (rt : JSContext σ)
    (o : Object) (name : String) (s s1 : σ) (t : List EngineCall) (v : Value)
    (hget : rt.getProperty o name s = (.ok v, s1)) (hk : v.kind_ = .ObjectKind) :
    (Object.getPropertyAsObject rt o name ⟨s, t⟩).1
      = (Value.getObject rt v ⟨s1, t ++ [.getProperty o name]⟩).1 := by
  have hb : ¬ ((!v.isObject) = true) := by simp [Value.isObject, hk]
  rw [Object.getPropertyAsObject_fst rt o name s s1 t v hget, if_neg hb]

/-- `Object::getPropertyAsObject` passes on what the property read raises. -/
theorem Object.getPropertyAsObject_of_get_error {σ : Type} (rt : JSContext σ)
    (o : Object) (name : String) (s s1 : σ) (t : List EngineCall) (e : JSException)
    (hget : rt.getProperty o name s = (.error e, s1)) :
    Object.getPropertyAsObject rt o name ⟨s, t⟩
      = (.error e, ⟨s1, t ++ [.getProperty o name]⟩) := by
  unfold Object.getPropertyAsObject Object.getProperty
  exact JSA.bind_of_error (JSA.invoke_of_eq hget)

/-- C5. Copy construction `Value(JSContext &, const Value &other)`, whatever the
storage of the new value held before; the source is taken by const reference and is
not written.  Undefined and Null give a value of the same kind, Boolean and Number a
value of the same kind with the same payload, and the world is unchanged (no engine
call).  For Symbol, String and Object, when `cloneSymbol`, `cloneString`,
`cloneObject` returns handle `h` on the source's handle, the copy is the value of the
same kind holding exactly `h`, and that clone is the only engine call.  When the
clone raises there is no copy: the failure is passed on after `~Value` has run on the
storage, which makes no clone.  Every copy has the kind of its source. -/
theorem copyCtor_spec {σ : Type} (rt : JSContext σ) (w : World σ)
    (storage : Option PointerValue) :
    (∀ d : Data, Value.copyCtor rt ⟨.UndefinedKind, d⟩ storage w
        = (.ok ⟨.UndefinedKind, .uninit⟩, w)) ∧
    (∀ d : Data, Value.copyCtor rt ⟨.NullKind, d⟩ storage w = (.ok ⟨.NullKind, .uninit⟩, w)) ∧
    (∀ b : Bool, Value.copyCtor rt ⟨.BooleanKind, .boolean b⟩ storage w
        = (.ok ⟨.BooleanKind, .boolean b⟩, w)) ∧
    (∀ x : Double, Value.copyCtor rt ⟨.NumberKind, .number x⟩ storage w
        = (.ok ⟨.NumberKind, .number x⟩, w)) ∧
    (∀ (p : Pointer) (h : Option PointerValue) (s1 : σ),
      (rt.cloneSymbol p.ptr_ w.engine = (.ok h, s1) →
        Value.copyCtor rt ⟨.SymbolKind, .pointer p⟩ storage w
          = (.ok ⟨.SymbolKind, .pointer ⟨h⟩⟩, ⟨s1, w.trace ++ [.cloneSymbol p.ptr_]⟩)) ∧
      (rt.cloneString p.ptr_ w.engine = (.ok h, s1) →
        Value.copyCtor rt ⟨.StringKind, .pointer p⟩ storage w
          = (.ok ⟨.StringKind, .pointer ⟨h⟩⟩, ⟨s1, w.trace ++ [.cloneString p.ptr_]⟩)) ∧
      (rt.cloneObject p.ptr_ w.engine = (.ok h, s1) →
        Value.copyCtor rt ⟨.ObjectKind, .pointer p⟩ storage w
          = (.ok ⟨.ObjectKind, .pointer ⟨h⟩⟩, ⟨s1, w.trace ++ [.cloneObject p.ptr_]⟩))) ∧
    (∀ (p : Pointer) (e : JSException) (s1 : σ),
      (rt.cloneSymbol p.ptr_ w.engine = (.error e, s1) →
        Value.copyCtor rt ⟨.SymbolKind, .pointer p⟩ storage w
          = (.error e, ⟨rt.release storage s1,
              w.trace ++ [.cloneSymbol p.ptr_] ++ releaseCalls storage⟩)) ∧
      (rt.cloneString p.ptr_ w.engine = (.error e, s1) →
        Value.copyCtor rt ⟨.StringKind, .pointer p⟩ storage w
          = (.error e, ⟨rt.release storage s1,
              w.trace ++ [.cloneString p.ptr_] ++ releaseCalls storage⟩)) ∧
      (rt.cloneObject p.ptr_ w.engine = (.error e, s1) →
        Value.copyCtor rt ⟨.ObjectKind, .pointer p⟩ storage w
          = (.error e, ⟨rt.release storage s1,
              w.trace ++ [.cloneObject p.ptr_] ++ releaseCalls storage⟩))) ∧
    (∀ c ∈ releaseCalls storage, c.isClone = false) ∧
    (∀ (v c : Value) (w1 : World σ),
      Value.copyCtor rt v storage w = (.ok c, w1) → c.kind_ = v.kind_) := by
  obtain ⟨s, t⟩ := w
  exact ⟨fun _ => rfl, fun _ => rfl, fun _ => rfl, fun _ => rfl,
    fun p h s1 => ⟨Value.copyCtor_symbol_of_ok rt p storage s s1 t h,
      Value.copyCtor_string_of_ok rt p storage s s1 t h,
      Value.copyCtor_object_of_ok rt p storage s s1 t h⟩,
    fun p e s1 => ⟨Value.copyCtor_symbol_of_error rt p storage s s1 t e,
      Value.copyCtor_string_of_error rt p storage s s1 t e,
      Value.copyCtor_object_of_error rt p storage s s1 t e⟩,
    releaseCalls_not_clone storage,
    fun v c w1 hr => Value.copyCtor_kind rt v c storage ⟨s, t⟩ w1 hr⟩

/-- Witness of C5: with the sample engine the copy of the Object value on handle 7
holds handle 1007, the clone being the only engine call; with the engine whose clones
raise, and storage that reads as handle 555, the failure is passed on after the
invalidation of 555. -/
theorem copyCtor_spec_witness :
    sampleEngine.cloneObject (some 7) sampleWorld.engine = (.ok (some 1007), ()) ∧
    Value.copyCtor sampleEngine ⟨.ObjectKind, .pointer ⟨some 7⟩⟩ (some 555) sampleWorld
      = (.ok ⟨.ObjectKind, .pointer ⟨some 1007⟩⟩, ⟨(), [.cloneObject (some 7)]⟩) ∧
    raisingEngine.cloneObject (some 7) sampleWorld.engine
      = (.error (.JSError "clone failed"), ()) ∧
    Value.copyCtor raisingEngine ⟨.ObjectKind, .pointer ⟨some 7⟩⟩ (some 555) sampleWorld
      = (.error (.JSError "clone failed"),
          ⟨(), [.cloneObject (some 7), .invalidate 555]⟩) :=
  ⟨rfl,
    ((copyCtor_spec sampleEngine sampleWorld (some 555)).2.2.2.2.1
      ⟨some 7⟩ (some 1007) ()).2.2 rfl,
    rfl,
    ((copyCtor_spec raisingEngine sampleWorld (some 555)).2.2.2.2.2.1
      ⟨some 7⟩ (.JSError "clone failed") ()).2.2 rfl⟩

/-- C6. Under the contract's guarantee that the clone of handle `h` is a fresh handle
`h2` (different from `h`) which the contract's strict equality of that kind relates
to `h`, the copy of a Symbol, String or Object value on `h` is an independent equal
(`Value.IndependentCopy`): it holds `h2`, `Value::strictEquals` answers true on the
copy and the original, and destroying the copy invalidates `h2` and nothing else, so
never `h`. -/
theorem copyCtor_independent {σ : Type} (rt : JSContext σ) (w : World σ)
    (h h2 : PointerValue) (hfresh : h2 ≠ h) :
    (∀ s1 s2 : σ, rt.cloneSymbol (some h) w.engine = (.ok (some h2), s1) →
      rt.strictEqualsSymbol ⟨some h2⟩ ⟨some h⟩ s1 = (.ok true, s2) →
      Value.IndependentCopy rt ⟨.SymbolKind, .pointer ⟨some h⟩⟩ w) ∧
    (∀ s1 s2 : σ, rt.cloneString (some h) w.engine = (.ok (some h2), s1) →
      rt.strictEqualsString ⟨some h2⟩ ⟨some h⟩ s1 = (.ok true, s2) →
      Value.IndependentCopy rt ⟨.StringKind, .pointer ⟨some h⟩⟩ w) ∧
    (∀ s1 s2 : σ, rt.cloneObject (some h) w.engine = (.ok (some h2), s1) →
      rt.strictEqualsObject ⟨some h2⟩ ⟨some h⟩ s1 = (.ok true, s2) →
      Value.IndependentCopy rt ⟨.ObjectKind, .pointer ⟨some h⟩⟩ w) := by
  have hne : (some h2 : Option PointerValue) ≠ some h := fun e => hfresh (Option.some.inj e)
  obtain ⟨s, t⟩ := w
  refine ⟨?_, ?_, ?_⟩ <;> intro s1 s2 hclone heq
  · refine ⟨⟨.SymbolKind, .pointer ⟨some h2⟩⟩,
      ⟨s1, t ++ [.cloneSymbol (some h)]⟩, h2, ?_, rfl, rfl, hne, ?_, fun _ => rfl⟩
    · intro storage
      exact Value.copyCtor_symbol_of_ok rt ⟨some h⟩ storage s s1 t (some h2) hclone
    · show (rt.strictEqualsSymbol ⟨some h2⟩ ⟨some h⟩ s1).1 = _
      rw [heq]
  · refine ⟨⟨.StringKind, .pointer ⟨some h2⟩⟩,
      ⟨s1, t ++ [.cloneString (some h)]⟩, h2, ?_, rfl, rfl, hne, ?_, fun _ => rfl⟩
    · intro storage
      exact Value.copyCtor_string_of_ok rt ⟨some h⟩ storage s s1 t (some h2) hclone
    · show (rt.strictEqualsString ⟨some h2⟩ ⟨some h⟩ s1).1 = _
      rw [heq]
  · refine ⟨⟨.ObjectKind, .pointer ⟨some h2⟩⟩,
      ⟨s1, t ++ [.cloneObject (some h)]⟩, h2, ?_, rfl, rfl, hne, ?_, fun _ => rfl⟩
    · intro storage
      exact Value.copyCtor_object_of_ok rt ⟨some h⟩ storage s s1 t (some h2) hclone
    · show (rt.strictEqualsObject ⟨some h2⟩ ⟨some h⟩ s1).1 = _
      rw [heq]

/-- Witness of C6: copying the Object value on handle 7 with the sample engine, whose
clone is handle 1007. -/
theorem copyCtor_independent_witness :
    (1007 : PointerValue) ≠ 7 ∧
    sampleEngine.cloneObject (some 7) sampleWorld.engine = (.ok (some 1007), ()) ∧
    sampleEngine.strictEqualsObject ⟨some 1007⟩ ⟨some 7⟩ () = (.ok true, ()) ∧
    Value.IndependentCopy sampleEngine ⟨.ObjectKind, .pointer ⟨some 7⟩⟩ sampleWorld :=
  ⟨by decide, rfl, rfl,
    (copyCtor_independent sampleEngine sampleWorld 7 1007 (by decide)).2.2 () () rfl rfl⟩

/-- C7, as stated, fails: with an engine whose `cloneObject` raises, the value on
handle 7 is an Object and the borrowing `asObject` does not succeed on it, it passes on
the failure of the clone; and `asSymbol` on that Object raises the failure of the clone
made for the message, not a type-mismatch error. -/
theorem asObject_raising_clone :
    (Value.mk .ObjectKind (.pointer ⟨some 7⟩)).kind_ = .ObjectKind ∧
    (Value.asObject raisingEngine ⟨.ObjectKind, .pointer ⟨some 7⟩⟩ sampleWorld).1
      = .error (.JSError "clone failed") ∧
    ¬ ((Value.asObject raisingEngine ⟨.ObjectKind, .pointer ⟨some 7⟩⟩ sampleWorld).1.isOk = true
        ↔ (Value.mk .ObjectKind (.pointer ⟨some 7⟩)).kind_ = .ObjectKind) ∧
    (Value.mk .ObjectKind (.pointer ⟨some 7⟩)).kind_ ≠ .SymbolKind ∧
    (Value.asSymbol raisingEngine ⟨.ObjectKind, .pointer ⟨some 7⟩⟩ sampleWorld).1
      = .error (.JSError "clone failed") :=
  ⟨rfl, rfl, fun h => absurd (h.2 rfl) (by decide), by decide, rfl⟩

/-- C7, amended. `asNumber` succeeds exactly when the value is a Number and then
returns the stored number; the consuming `asObject`, `asSymbol`, `asString` succeed
exactly when the value is an Object, a Symbol, a String.  The borrowing `asObject`,
`asSymbol`, `asString` succeed exactly when the value has the requested kind and the
contract's `cloneObject`, `cloneSymbol`, `cloneString` returns on the value's handle:
the result is on the returned handle, and a failure raised by the clone is passed on.
On a value of another kind the accessor throws the type-mismatch error "Value is ...,
expected ..." and returns nothing; only for an Object given to `asSymbol` or
`asString` is a failure that `cloneObject` or `isFunction` raises while the message is
built passed on in its place. -/
theorem accessors_succeed_iff_kind {σ : Type} (rt : JSContext σ) (v : Value) (w : World σ) :
    ((Value.asNumber v w).1.isOk = true ↔ v.kind_ = .NumberKind) ∧
    (∀ d : Double, Value.asNumber ⟨.NumberKind, .number d⟩ w = (.ok d, w)) ∧
    ((Value.asObjectMove rt v w).1.isOk = true ↔ v.kind_ = .ObjectKind) ∧
    ((Value.asSymbolMove rt v w).1.isOk = true ↔ v.kind_ = .SymbolKind) ∧
    ((Value.asStringMove rt v w).1.isOk = true ↔ v.kind_ = .StringKind) ∧
    ((Value.asObject rt v w).1.isOk = true ↔ v.kind_ = .ObjectKind ∧
      ∃ (h : Option PointerValue) (s1 : σ),
        rt.cloneObject v.data_.readPointer.ptr_ w.engine = (.ok h, s1)) ∧
    ((Value.asSymbol rt v w).1.isOk = true ↔ v.kind_ = .SymbolKind ∧
      ∃ (h : Option PointerValue) (s1 : σ),
        rt.cloneSymbol v.data_.readPointer.ptr_ w.engine = (.ok h, s1)) ∧
    ((Value.asString rt v w).1.isOk = true ↔ v.kind_ = .StringKind ∧
      ∃ (h : Option PointerValue) (s1 : σ),
        rt.cloneString v.data_.readPointer.ptr_ w.engine = (.ok h, s1)) ∧
    (v.kind_ = .ObjectKind →
      (∀ (h : Option PointerValue) (s1 : σ),
        rt.cloneObject v.data_.readPointer.ptr_ w.engine = (.ok h, s1) →
        Value.asObject rt v w
          = (.ok ⟨h⟩, ⟨s1, w.trace ++ [.cloneObject v.data_.readPointer.ptr_]⟩)) ∧
      (∀ (e : JSException) (s1 : σ),
        rt.cloneObject v.data_.readPointer.ptr_ w.engine = (.error e, s1) →
        Value.asObject rt v w
          = (.error e, ⟨s1, w.trace ++ [.cloneObject v.data_.readPointer.ptr_]⟩))) ∧
    (v.kind_ = .SymbolKind →
      (∀ (h : Option PointerValue) (s1 : σ),
        rt.cloneSymbol v.data_.readPointer.ptr_ w.engine = (.ok h, s1) →
        Value.asSymbol rt v w
          = (.ok ⟨h⟩, ⟨s1, w.trace ++ [.cloneSymbol v.data_.readPointer.ptr_]⟩)) ∧
      (∀ (e : JSException) (s1 : σ),
        rt.cloneSymbol v.data_.readPointer.ptr_ w.engine = (.error e, s1) →
        Value.asSymbol rt v w
          = (.error e, ⟨s1, w.trace ++ [.cloneSymbol v.data_.readPointer.ptr_]⟩))) ∧
    (v.kind_ = .StringKind →
      (∀ (h : Option PointerValue) (s1 : σ),
        rt.cloneString v.data_.readPointer.ptr_ w.engine = (.ok h, s1) →
        Value.asString rt v w
          = (.ok ⟨h⟩, ⟨s1, w.trace ++ [.cloneString v.data_.readPointer.ptr_]⟩)) ∧
      (∀ (e : JSException) (s1 : σ),
        rt.cloneString v.data_.readPointer.ptr_ w.engine = (.error e, s1) →
        Value.asString rt v w
          = (.error e, ⟨s1, w.trace ++ [.cloneString v.data_.readPointer.ptr_]⟩))) ∧
    (v.kind_ ≠ .NumberKind → Value.asNumber v w
      = (.error (.JSANativeException
          ("Value is " ++ diagnosticText v ++ ", expected a number")), w)) ∧
    (v.kind_ ≠ .ObjectKind →
      Value.asObject rt v w
        = (.error (.JSError ("Value is " ++ diagnosticText v ++ ", expected an Object")), w) ∧
      Value.asObjectMove rt v w
        = (.error (.JSError ("Value is " ++ diagnosticText v ++ ", expected an Object")), w)) ∧
    (v.kind_ ≠ .SymbolKind → v.kind_ ≠ .ObjectKind →
      Value.asSymbol rt v w
        = (.error (.JSError ("Value is " ++ diagnosticText v ++ ", expected a Symbol")), w) ∧
      Value.asSymbolMove rt v w
        = (.error (.JSError ("Value is " ++ diagnosticText v ++ ", expected a Symbol")), w)) ∧
    (v.kind_ ≠ .StringKind → v.kind_ ≠ .ObjectKind →
      Value.asString rt v w
        = (.error (.JSError ("Value is " ++ diagnosticText v ++ ", expected a String")), w) ∧
      Value.asStringMove rt v w
        = (.error (.JSError ("Value is " ++ diagnosticText v ++ ", expected a String")), w)) ∧
    (∀ (d : Data) (h1 : Option PointerValue) (s1 : σ) (f : Bool) (s2 : σ),
      rt.cloneObject d.readPointer.ptr_ w.engine = (.ok h1, s1) →
      rt.isFunction ⟨h1⟩ s1 = (.ok f, s2) →
      (Value.asSymbol rt ⟨.ObjectKind, d⟩ w).1 = .error (.JSError
        ("Value is " ++ (if f then "a function" else "an object") ++ ", expected a Symbol")) ∧
      (Value.asSymbolMove rt ⟨.ObjectKind, d⟩ w).1 = .error (.JSError
        ("Value is " ++ (if f then "a function" else "an object") ++ ", expected a Symbol")) ∧
      (Value.asString rt ⟨.ObjectKind, d⟩ w).1 = .error (.JSError
        ("Value is " ++ (if f then "a function" else "an object") ++ ", expected a String")) ∧
      (Value.asStringMove rt ⟨.ObjectKind, d⟩ w).1 = .error (.JSError
        ("Value is " ++ (if f then "a function" else "an object") ++ ", expected a String"))) ∧
    (∀ (d : Data) (e : JSException) (s1 : σ),
      rt.cloneObject d.readPointer.ptr_ w.engine = (.error e, s1) →
      (Value.asSymbol rt ⟨.ObjectKind, d⟩ w).1 = .error e ∧
      (Value.asSymbolMove rt ⟨.ObjectKind, d⟩ w).1 = .error e ∧
      (Value.asString rt ⟨.ObjectKind, d⟩ w).1 = .error e ∧
      (Value.asStringMove rt ⟨.ObjectKind, d⟩ w).1 = .error e) ∧
    (∀ (d : Data) (h1 : Option PointerValue) (s1 : σ) (e : JSException) (s2 : σ),
      rt.cloneObject d.readPointer.ptr_ w.engine = (.ok h1, s1) →
      rt.isFunction ⟨h1⟩ s1 = (.error e, s2) →
      (Value.asSymbol rt ⟨.ObjectKind, d⟩ w).1 = .error e ∧
      (Value.asSymbolMove rt ⟨.ObjectKind, d⟩ w).1 = .error e ∧
      (Value.asString rt ⟨.ObjectKind, d⟩ w).1 = .error e ∧
      (Value.asStringMove rt ⟨.ObjectKind, d⟩ w).1 = .error e) := by
  have hk := Value.narrow_of_kind rt v
  have hn := Value.narrow_not_ok rt v w
  have hmove : v.kind_ = .ObjectKind → Value.asObjectMove rt v w
      = (.ok (⟨v.data_.readPointer.ptr_⟩, ⟨v.kind_, .pointer ⟨none⟩⟩), w) := by
    intro ho
    have hb : ¬ ((!v.isObject) = true) := by simp [Value.isObject, ho]
    unfold Value.asObjectMove
    rw [if_neg hb]
    rfl
  refine ⟨?_, fun _ => rfl, ?_, ?_, ?_, ?_, ?_, ?_, ?_, ?_, ?_,
    Value.asNumber_mismatch_text v w, Value.asObject_mismatch_text rt v w,
    Value.asSymbol_mismatch_text rt v w, Value.asString_mismatch_text rt v w,
    fun d => Value.narrow_object_message rt d w,
    fun d => Value.narrow_object_clone_error rt d w,
    fun d => Value.narrow_object_isFunction_error rt d w⟩
  · exact Value.take_isOk_iff _ _ w v.getNumber (fun h => hk.1 h w) hn.1
  · exact Value.take_isOk_iff _ _ w _ hmove (fun h => (hn.2.1 h).2)
  · exact Value.take_isOk_iff _ _ w v.takePointer (fun h => hk.2.2.2.2.1 h w)
      (fun h => (hn.2.2.1 h).2)
  · exact Value.take_isOk_iff _ _ w v.takePointer (fun h => hk.2.2.2.2.2 h w)
      (fun h => (hn.2.2.2 h).2)
  · exact Value.borrow_isOk_iff (.cloneObject v.data_.readPointer.ptr_)
      (rt.cloneObject v.data_.readPointer.ptr_) _ _ w hk.2.1 (fun h => (hn.2.1 h).1)
  · exact Value.borrow_isOk_iff (.cloneSymbol v.data_.readPointer.ptr_)
      (rt.cloneSymbol v.data_.readPointer.ptr_) _ _ w hk.2.2.1 (fun h => (hn.2.2.1 h).1)
  · exact Value.borrow_isOk_iff (.cloneString v.data_.readPointer.ptr_)
      (rt.cloneString v.data_.readPointer.ptr_) _ _ w hk.2.2.2.1 (fun h => (hn.2.2.2 h).1)
  · intro ho
    rw [hk.2.1 ho]
    exact (JSA.getter_spec (.cloneObject v.data_.readPointer.ptr_)
      (rt.cloneObject v.data_.readPointer.ptr_) w).2
  · intro ho
    rw [hk.2.2.1 ho]
    exact (JSA.getter_spec (.cloneSymbol v.data_.readPointer.ptr_)
      (rt.cloneSymbol v.data_.readPointer.ptr_) w).2
  · intro ho
    rw [hk.2.2.2.1 ho]
    exact (JSA.getter_spec (.cloneString v.data_.readPointer.ptr_)
      (rt.cloneString v.data_.readPointer.ptr_) w).2

/-- Witness of C7, amended: the Number 42.0 is not an Object and `asObject` throws the
type-mismatch error on it; the Object on handle 7 is cloned to handle 1007 by the
sample engine, and with the engine whose clones raise `asObject` passes the failure
on. -/
theorem accessors_succeed_iff_kind_witness :
    (Value.mk .NumberKind (.number fortyTwo)).kind_ ≠ .ObjectKind ∧
    Value.asObject sampleEngine ⟨.NumberKind, .number fortyTwo⟩ sampleWorld
      = (.error (.JSError "Value is a number, expected an Object"), sampleWorld) ∧
    (Value.mk .ObjectKind (.pointer ⟨some 7⟩)).kind_ = .ObjectKind ∧
    sampleEngine.cloneObject (some 7) sampleWorld.engine = (.ok (some 1007), ()) ∧
    Value.asObject sampleEngine ⟨.ObjectKind, .pointer ⟨some 7⟩⟩ sampleWorld
      = (.ok ⟨some 1007⟩, ⟨(), [.cloneObject (some 7)]⟩) ∧
    raisingEngine.cloneObject (some 7) sampleWorld.engine
      = (.error (.JSError "clone failed"), ()) ∧
    Value.asObject raisingEngine ⟨.ObjectKind, .pointer ⟨some 7⟩⟩ sampleWorld
      = (.error (.JSError "clone failed"), ⟨(), [.cloneObject (some 7)]⟩) :=
  ⟨by decide,
    ((accessors_succeed_iff_kind sampleEngine ⟨.NumberKind, .number fortyTwo⟩
      sampleWorld).2.2.2.2.2.2.2.2.2.2.2.2.1 (by decide)).1,
    rfl, rfl,
    ((accessors_succeed_iff_kind sampleEngine ⟨.ObjectKind, .pointer ⟨some 7⟩⟩
      sampleWorld).2.2.2.2.2.2.2.2.1 rfl).1 (some 1007) () rfl,
    rfl,
    ((accessors_succeed_iff_kind raisingEngine ⟨.ObjectKind, .pointer ⟨some 7⟩⟩
      sampleWorld).2.2.2.2.2.2.2.2.1 rfl).2 (.JSError "clone failed") () rfl⟩

/-- C8, as stated, fails: Boolean true and Boolean false have the same kind, and the
messages of `asObject` on them differ, "Value is true, ..." and "Value is false, ...":
the text after "Value is " is the stored boolean, not a description of the kind.  And
on an Object for which the clone made for the message raises, `asSymbol` raises that
failure, whose message is the engine's. -/
theorem mismatch_message_boolean_payload :
    (Value.mk .BooleanKind (.boolean true)).kind_
      = (Value.mk .BooleanKind (.boolean false)).kind_ ∧
    (Value.asObject sampleEngine ⟨.BooleanKind, .boolean true⟩ sampleWorld).1
      = .error (.JSError "Value is true, expected an Object") ∧
    (Value.asObject sampleEngine ⟨.BooleanKind, .boolean false⟩ sampleWorld).1
      = .error (.JSError "Value is false, expected an Object") ∧
    (Value.asObject sampleEngine ⟨.BooleanKind, .boolean true⟩ sampleWorld).1
      ≠ (Value.asObject sampleEngine ⟨.BooleanKind, .boolean false⟩ sampleWorld).1 ∧
    (Value.asNumber (⟨.BooleanKind, .boolean true⟩ : Value) sampleWorld).1
      = .error (.JSANativeException "Value is true, expected a number") ∧
    (Value.asSymbol raisingEngine ⟨.ObjectKind, .pointer ⟨some 7⟩⟩ sampleWorld).1
      = .error (.JSError "clone failed") :=
  ⟨rfl, rfl, rfl,
    fun h => absurd (JSException.JSError.inj (Except.error.inj h)) (by decide),
    rfl, rfl⟩

/-- C8, amended. When the kind does not match, the exception thrown by `asNumber`,
`asObject`, `asSymbol` and `asString` (borrowing and consuming) carries the message
"Value is " followed by the diagnostic text of the value, followed by ", expected a
number", ", expected an Object", ", expected a Symbol", ", expected a String".  The
diagnostic text is "undefined", "null", "a number", "a string", "a symbol" for these
kinds and, for a Boolean, the stored boolean, "true" or "false"; for an Object it is
"an object" in `asNumber`, and in `asSymbol` and `asString` it is "a function" or "an
object" as the contract's `isFunction` answers on the clone of the handle, when that
clone and `isFunction` return, a failure they raise being passed on in place of the
message.  On a Number `asObject` throws "Value is a number, expected an Object" and
`asNumber` returns the stored number. -/
theorem accessors_mismatch_message {σ : Type} (rt : JSContext σ) (v : Value) (w : World σ) :
    (v.kind_ ≠ .NumberKind → Value.asNumber v w
      = (.error (.JSANativeException
          ("Value is " ++ diagnosticText v ++ ", expected a number")), w)) ∧
    (v.kind_ ≠ .ObjectKind →
      Value.asObject rt v w
        = (.error (.JSError ("Value is " ++ diagnosticText v ++ ", expected an Object")), w) ∧
      Value.asObjectMove rt v w
        = (.error (.JSError ("Value is " ++ diagnosticText v ++ ", expected an Object")), w)) ∧
    (v.kind_ ≠ .SymbolKind → v.kind_ ≠ .ObjectKind →
      Value.asSymbol rt v w
        = (.error (.JSError ("Value is " ++ diagnosticText v ++ ", expected a Symbol")), w) ∧
      Value.asSymbolMove rt v w
        = (.error (.JSError ("Value is " ++ diagnosticText v ++ ", expected a Symbol")), w)) ∧
    (v.kind_ ≠ .StringKind → v.kind_ ≠ .ObjectKind →
      Value.asString rt v w
        = (.error (.JSError ("Value is " ++ diagnosticText v ++ ", expected a String")), w) ∧
      Value.asStringMove rt v w
        = (.error (.JSError ("Value is " ++ diagnosticText v ++ ", expected a String")), w)) ∧
    (∀ (d : Data) (h1 : Option PointerValue) (s1 : σ) (f : Bool) (s2 : σ),
      rt.cloneObject d.readPointer.ptr_ w.engine = (.ok h1, s1) →
      rt.isFunction ⟨h1⟩ s1 = (.ok f, s2) →
      (Value.asSymbol rt ⟨.ObjectKind, d⟩ w).1 = .error (.JSError
        ("Value is " ++ (if f then "a function" else "an object") ++ ", expected a Symbol")) ∧
      (Value.asSymbolMove rt ⟨.ObjectKind, d⟩ w).1 = .error (.JSError
        ("Value is " ++ (if f then "a function" else "an object") ++ ", expected a Symbol")) ∧
      (Value.asString rt ⟨.ObjectKind, d⟩ w).1 = .error (.JSError
        ("Value is " ++ (if f then "a function" else "an object") ++ ", expected a String")) ∧
      (Value.asStringMove rt ⟨.ObjectKind, d⟩ w).1 = .error (.JSError
        ("Value is " ++ (if f then "a function" else "an object") ++ ", expected a String"))) ∧
    (∀ (d : Data) (e : JSException) (s1 : σ),
      rt.cloneObject d.readPointer.ptr_ w.engine = (.error e, s1) →
      (Value.asSymbol rt ⟨.ObjectKind, d⟩ w).1 = .error e ∧
      (Value.asSymbolMove rt ⟨.ObjectKind, d⟩ w).1 = .error e ∧
      (Value.asString rt ⟨.ObjectKind, d⟩ w).1 = .error e ∧
      (Value.asStringMove rt ⟨.ObjectKind, d⟩ w).1 = .error e) ∧
    (∀ (d : Data) (h1 : Option PointerValue) (s1 : σ) (e : JSException) (s2 : σ),
      rt.cloneObject d.readPointer.ptr_ w.engine = (.ok h1, s1) →
      rt.isFunction ⟨h1⟩ s1 = (.error e, s2) →
      (Value.asSymbol rt ⟨.ObjectKind, d⟩ w).1 = .error e ∧
      (Value.asSymbolMove rt ⟨.ObjectKind, d⟩ w).1 = .error e ∧
      (Value.asString rt ⟨.ObjectKind, d⟩ w).1 = .error e ∧
      (Value.asStringMove rt ⟨.ObjectKind, d⟩ w).1 = .error e) ∧
    (∀ d : Data,
      diagnosticText ⟨.UndefinedKind, d⟩ = "undefined" ∧
      diagnosticText ⟨.NullKind, d⟩ = "null" ∧
      (∀ x : Bool, diagnosticText ⟨.BooleanKind, .boolean x⟩
        = if x then "true" else "false") ∧
      diagnosticText ⟨.NumberKind, d⟩ = "a number" ∧
      diagnosticText ⟨.StringKind, d⟩ = "a string" ∧
      diagnosticText ⟨.SymbolKind, d⟩ = "a symbol" ∧
      diagnosticText ⟨.ObjectKind, d⟩ = "an object") ∧
    (∀ x : Bool, Value.asObject rt ⟨.BooleanKind, .boolean x⟩ w
      = (.error (.JSError
          ("Value is " ++ (if x then "true" else "false") ++ ", expected an Object")), w)) ∧
    (∀ d : Double, Value.asObject rt ⟨.NumberKind, .number d⟩ w
        = (.error (.JSError "Value is a number, expected an Object"), w)) ∧
    (∀ d : Double, Value.asNumber ⟨.NumberKind, .number d⟩ w = (.ok d, w)) :=
  ⟨Value.asNumber_mismatch_text v w, Value.asObject_mismatch_text rt v w,
    Value.asSymbol_mismatch_text rt v w, Value.asString_mismatch_text rt v w,
    fun d => Value.narrow_object_message rt d w,
    fun d => Value.narrow_object_clone_error rt d w,
    fun d => Value.narrow_object_isFunction_error rt d w, diagnosticText_table,
    fun _ => rfl, fun _ => rfl, fun _ => rfl⟩

/-- Witness of C8, amended: the Number 42.0 is not an Object and `asObject` throws
"Value is a number, expected an Object" on it; Boolean true is not a Number and
`asNumber` throws "Value is true, expected a number" on it; the Object on handle 8 is
a function for the sample engine and `asString` says so; `asNumber` returns 42.0. -/
theorem accessors_mismatch_message_witness :
    (Value.mk .NumberKind (.number fortyTwo)).kind_ ≠ .ObjectKind ∧
    Value.asObject sampleEngine ⟨.NumberKind, .number fortyTwo⟩ sampleWorld
      = (.error (.JSError "Value is a number, expected an Object"), sampleWorld) ∧
    (Value.mk .BooleanKind (.boolean true)).kind_ ≠ .NumberKind ∧
    Value.asNumber ⟨.BooleanKind, .boolean true⟩ sampleWorld
      = (.error (.JSANativeException "Value is true, expected a number"), sampleWorld) ∧
    sampleEngine.cloneObject (some 8) sampleWorld.engine = (.ok (some 1008), ()) ∧
    sampleEngine.isFunction ⟨some 1008⟩ () = (.ok true, ()) ∧
    (Value.asString sampleEngine ⟨.ObjectKind, .pointer ⟨some 8⟩⟩ sampleWorld).1
      = .error (.JSError "Value is a function, expected a String") ∧
    Value.asNumber ⟨.NumberKind, .number fortyTwo⟩ sampleWorld = (.ok fortyTwo, sampleWorld) :=
  ⟨by decide,
    ((accessors_mismatch_message sampleEngine ⟨.NumberKind, .number fortyTwo⟩
      sampleWorld).2.1 (by decide)).1,
    by decide,
    (accessors_mismatch_message sampleEngine ⟨.BooleanKind, .boolean true⟩
      sampleWorld).1 (by decide),
    rfl, rfl,
    ((accessors_mismatch_message sampleEngine ⟨.NumberKind, .number fortyTwo⟩
      sampleWorld).2.2.2.2.1 (.pointer ⟨some 8⟩) (some 1008) () true () rfl rfl).2.2.1,
    (accessors_mismatch_message sampleEngine ⟨.NumberKind, .number fortyTwo⟩
      sampleWorld).2.2.2.2.2.2.2.2.2.2 fortyTwo⟩

/-- C9, as stated, fails: with an engine whose `cloneObject` raises, `isArray` answers
true on the object behind handle 7 and the borrowing `asArray` does not succeed on it,
and likewise `asFunction` on the function behind handle 8; and where `isArray` answers
false, on handle 8, the failure of the clone made for the message is raised in place
of the "Object is ..." error. -/
theorem asArray_raising_clone :
    raisingEngine.isArray ⟨some 7⟩ sampleWorld.engine = (.ok true, ()) ∧
    (Object.asArray raisingEngine ⟨some 7⟩ sampleWorld).1
      = .error (.JSError "clone failed") ∧
    ¬ ((Object.asArray raisingEngine ⟨some 7⟩ sampleWorld).1.isOk = true
        ↔ (raisingEngine.isArray ⟨some 7⟩ sampleWorld.engine).1 = .ok true) ∧
    raisingEngine.isFunction ⟨some 8⟩ sampleWorld.engine = (.ok true, ()) ∧
    (Object.asFunction raisingEngine ⟨some 8⟩ sampleWorld).1
      = .error (.JSError "clone failed") ∧
    ¬ ((Object.asFunction raisingEngine ⟨some 8⟩ sampleWorld).1.isOk = true
        ↔ (raisingEngine.isFunction ⟨some 8⟩ sampleWorld.engine).1 = .ok true) ∧
    raisingEngine.isArray ⟨some 8⟩ sampleWorld.engine = (.ok false, ()) ∧
    (Object.asArrayMove raisingEngine ⟨some 8⟩ sampleWorld).1
      = .error (.JSError "clone failed") :=
  ⟨rfl, rfl, fun h => absurd (h.2 rfl) (by decide), rfl, rfl,
    fun h => absurd (h.2 rfl) (by decide), rfl, rfl⟩

/-- C9, amended. The consuming `Object::asArray` and `Object::asFunction` succeed
exactly when the contract's `isArray`, respectively `isFunction`, answers true on the
object, and return the view on its handle.  The borrowing overloads succeed exactly
when the predicate answers true and the contract's `cloneObject` then returns on the
handle of the object: the result is on the returned handle, and a failure raised by
the clone is passed on.  When the predicate answers false, and `cloneObject` and
`isFunction` return while the message is built, the call throws "Object is " followed
by "a function" or "an object", as `isFunction` answers on the copy of the object made
for the message, followed by ", expected an array", respectively ", expected a
function". -/
theorem asArray_asFunction_spec {σ : Type} (rt : JSContext σ) (o : Object) (w : World σ) :
    ((Object.asArrayMove rt o w).1.isOk = true ↔ (rt.isArray o w.engine).1 = .ok true) ∧
    ((Object.asFunctionMove rt o w).1.isOk = true
      ↔ (rt.isFunction o w.engine).1 = .ok true) ∧
    ((Object.asArray rt o w).1.isOk = true ↔
      ∃ s1 : σ, rt.isArray o w.engine = (.ok true, s1) ∧
        ∃ (h : Option PointerValue) (s2 : σ), rt.cloneObject o.ptr_ s1 = (.ok h, s2)) ∧
    ((Object.asFunction rt o w).1.isOk = true ↔
      ∃ s1 : σ, rt.isFunction o w.engine = (.ok true, s1) ∧
        ∃ (h : Option PointerValue) (s2 : σ), rt.cloneObject o.ptr_ s1 = (.ok h, s2)) ∧
    (∀ s1 : σ, rt.isArray o w.engine = (.ok true, s1) →
      Object.asArrayMove rt o w = (.ok (⟨o.ptr_⟩, ⟨none⟩), ⟨s1, w.trace ++ [.isArray o]⟩) ∧
      (∀ (h : Option PointerValue) (s2 : σ), rt.cloneObject o.ptr_ s1 = (.ok h, s2) →
        Object.asArray rt o w
          = (.ok ⟨h⟩, ⟨s2, w.trace ++ [.isArray o] ++ [.cloneObject o.ptr_]⟩)) ∧
      (∀ (e : JSException) (s2 : σ), rt.cloneObject o.ptr_ s1 = (.error e, s2) →
        Object.asArray rt o w
          = (.error e, ⟨s2, w.trace ++ [.isArray o] ++ [.cloneObject o.ptr_]⟩))) ∧
    (∀ s1 : σ, rt.isFunction o w.engine = (.ok true, s1) →
      Object.asFunctionMove rt o w
        = (.ok (⟨o.ptr_⟩, ⟨none⟩), ⟨s1, w.trace ++ [.isFunction o]⟩) ∧
      (∀ (h : Option PointerValue) (s2 : σ), rt.cloneObject o.ptr_ s1 = (.ok h, s2) →
        Object.asFunction rt o w
          = (.ok ⟨h⟩, ⟨s2, w.trace ++ [.isFunction o] ++ [.cloneObject o.ptr_]⟩)) ∧
      (∀ (e : JSException) (s2 : σ), rt.cloneObject o.ptr_ s1 = (.error e, s2) →
        Object.asFunction rt o w
          = (.error e, ⟨s2, w.trace ++ [.isFunction o] ++ [.cloneObject o.ptr_]⟩))) ∧
    (∀ (s1 s2 s3 s4 : σ) (h1 h2 : Option PointerValue) (f : Bool),
      rt.isArray o w.engine = (.ok false, s1) →
      rt.cloneObject o.ptr_ s1 = (.ok h1, s2) →
      rt.cloneObject h1 s2 = (.ok h2, s3) →
      rt.isFunction ⟨h2⟩ s3 = (.ok f, s4) →
      (Object.asArray rt o w).1 = .error (.JSError
        ("Object is " ++ (if f then "a function" else "an object") ++ ", expected an array")) ∧
      (Object.asArrayMove rt o w).1 = .error (.JSError
        ("Object is " ++ (if f then "a function" else "an object") ++ ", expected an array"))) ∧
    (∀ (s1 s2 s3 s4 : σ) (h1 h2 : Option PointerValue) (f : Bool),
      rt.isFunction o w.engine = (.ok false, s1) →
      rt.cloneObject o.ptr_ s1 = (.ok h1, s2) →
      rt.cloneObject h1 s2 = (.ok h2, s3) →
      rt.isFunction ⟨h2⟩ s3 = (.ok f, s4) →
      (Object.asFunction rt o w).1 = .error (.JSError
        ("Object is " ++ (if f then "a function" else "an object") ++ ", expected a function")) ∧
      (Object.asFunctionMove rt o w).1 = .error (.JSError
        ("Object is " ++ (if f then "a function" else "an object")
          ++ ", expected a function"))) := by
  obtain ⟨s, t⟩ := w
  refine ⟨?_, ?_, ?_, ?_, ?_, ?_, ?_, ?_⟩
  · exact Object.narrow_isOk_iff (.isArray o) (rt.isArray o) _ _ ⟨s, t⟩
      (Object.mismatch_isOk_false rt o ", expected an array") (fun _ => rfl)
  · exact Object.narrow_isOk_iff (.isFunction o) (rt.isFunction o) _ _ ⟨s, t⟩
      (Object.mismatch_isOk_false rt o ", expected a function") (fun _ => rfl)
  · refine (Object.narrow_isOk_iff_exists (.isArray o) (rt.isArray o) _ _ ⟨s, t⟩
      (Object.mismatch_isOk_false rt o ", expected an array")).trans ?_
    exact exists_congr fun s1 => and_congr_right fun _ =>
      (JSA.getter_spec (.cloneObject o.ptr_) (rt.cloneObject o.ptr_)
        (⟨s1, t ++ [EngineCall.isArray o]⟩ : World σ)).1
  · refine (Object.narrow_isOk_iff_exists (.isFunction o) (rt.isFunction o) _ _ ⟨s, t⟩
      (Object.mismatch_isOk_false rt o ", expected a function")).trans ?_
    exact exists_congr fun s1 => and_congr_right fun _ =>
      (JSA.getter_spec (.cloneObject o.ptr_) (rt.cloneObject o.ptr_)
        (⟨s1, t ++ [EngineCall.isFunction o]⟩ : World σ)).1
  · intro s1 e0
    have h := (Object.narrow_of_true rt o s s1 t).1 e0
    refine ⟨h.2, ?_, ?_⟩
    · intro h1 s2 e1
      rw [h.1]
      exact (JSA.getter_spec (.cloneObject o.ptr_) (rt.cloneObject o.ptr_)
        (⟨s1, t ++ [EngineCall.isArray o]⟩ : World σ)).2.1 h1 s2 e1
    · intro e s2 e1
      rw [h.1]
      exact (JSA.getter_spec (.cloneObject o.ptr_) (rt.cloneObject o.ptr_)
        (⟨s1, t ++ [EngineCall.isArray o]⟩ : World σ)).2.2 e s2 e1
  · intro s1 e0
    have h := (Object.narrow_of_true rt o s s1 t).2 e0
    refine ⟨h.2, ?_, ?_⟩
    · intro h1 s2 e1
      rw [h.1]
      exact (JSA.getter_spec (.cloneObject o.ptr_) (rt.cloneObject o.ptr_)
        (⟨s1, t ++ [EngineCall.isFunction o]⟩ : World σ)).2.1 h1 s2 e1
    · intro e s2 e1
      rw [h.1]
      exact (JSA.getter_spec (.cloneObject o.ptr_) (rt.cloneObject o.ptr_)
        (⟨s1, t ++ [EngineCall.isFunction o]⟩ : World σ)).2.2 e s2 e1
  · intro s1 s2 s3 s4 h1 h2 f e0 e1 e2 e3
    constructor
    · unfold Object.asArray Object.isArray
      rw [JSA.bind_of_ok (JSA.invoke_of_eq e0)]
      exact Object.mismatch_eq rt o ", expected an array" s1 s2 s3 s4 _ h1 h2 f e1 e2 e3
    · unfold Object.asArrayMove Object.isArray
      rw [JSA.bind_of_ok (JSA.invoke_of_eq e0)]
      exact Object.mismatch_eq rt o ", expected an array" s1 s2 s3 s4 _ h1 h2 f e1 e2 e3
  · intro s1 s2 s3 s4 h1 h2 f e0 e1 e2 e3
    constructor
    · unfold Object.asFunction Object.isFunction
      rw [JSA.bind_of_ok (JSA.invoke_of_eq e0)]
      exact Object.mismatch_eq rt o ", expected a function" s1 s2 s3 s4 _ h1 h2 f e1 e2 e3
    · unfold Object.asFunctionMove Object.isFunction
      rw [JSA.bind_of_ok (JSA.invoke_of_eq e0)]
      exact Object.mismatch_eq rt o ", expected a function" s1 s2 s3 s4 _ h1 h2 f e1 e2 e3

/-- Witness of C9, amended: with the sample engine the object behind handle 8 is a
function and not an array, `asArray` throws "Object is a function, expected an array"
and `asFunction` returns the Function on the clone 1008; with the engine whose clones
raise, `asFunction` passes the failure on. -/
theorem asArray_asFunction_spec_witness :
    sampleEngine.isArray ⟨some 8⟩ sampleWorld.engine = (.ok false, ()) ∧
    sampleEngine.cloneObject (some 8) () = (.ok (some 1008), ()) ∧
    sampleEngine.cloneObject (some 1008) () = (.ok (some 2008), ()) ∧
    sampleEngine.isFunction ⟨some 2008⟩ () = (.ok true, ()) ∧
    (Object.asArray sampleEngine ⟨some 8⟩ sampleWorld).1
      = .error (.JSError "Object is a function, expected an array") ∧
    (Object.asArrayMove sampleEngine ⟨some 8⟩ sampleWorld).1
      = .error (.JSError "Object is a function, expected an array") ∧
    sampleEngine.isFunction ⟨some 8⟩ sampleWorld.engine = (.ok true, ()) ∧
    Object.asFunction sampleEngine ⟨some 8⟩ sampleWorld
      = (.ok ⟨some 1008⟩, ⟨(), [.isFunction ⟨some 8⟩, .cloneObject (some 8)]⟩) ∧
    raisingEngine.isFunction ⟨some 8⟩ sampleWorld.engine = (.ok true, ()) ∧
    raisingEngine.cloneObject (some 8) () = (.error (.JSError "clone failed"), ()) ∧
    Object.asFunction raisingEngine ⟨some 8⟩ sampleWorld
      = (.error (.JSError "clone failed"),
          ⟨(), [.isFunction ⟨some 8⟩, .cloneObject (some 8)]⟩) :=
  have h := asArray_asFunction_spec sampleEngine ⟨some 8⟩ sampleWorld
  have hm := h.2.2.2.2.2.2.1 () () () () (some 1008) (some 2008) true rfl rfl rfl rfl
  ⟨rfl, rfl, rfl, rfl, hm.1, hm.2, rfl,
    (h.2.2.2.2.2.1 () rfl).2.1 (some 1008) () rfl,
    rfl, rfl,
    ((asArray_asFunction_spec raisingEngine ⟨some 8⟩ sampleWorld).2.2.2.2.2.1 () rfl).2.2
      (.JSError "clone failed") () rfl⟩

/-- C10, as stated, fails: with an engine whose `cloneObject` raises, the value of
property `foo` is an Object and `getPropertyAsObject` does not succeed, it passes on
the failure of the clone; and for a property whose value is a Boolean the text in the
message is the stored boolean, "true" for one property and "false" for another, not a
description of the kind. -/
theorem getPropertyAsObject_raising_clone :
    raisingEngine.getProperty ⟨some 0⟩ "foo" sampleWorld.engine
      = (.ok ⟨.ObjectKind, .pointer ⟨some 7⟩⟩, ()) ∧
    (Object.getPropertyAsObject raisingEngine ⟨some 0⟩ "foo" sampleWorld).1
      = .error (.JSError "clone failed") ∧
    ¬ ((Object.getPropertyAsObject raisingEngine ⟨some 0⟩ "foo" sampleWorld).1.isOk = true
        ↔ (Value.mk .ObjectKind (.pointer ⟨some 7⟩)).kind_ = .ObjectKind) ∧
    flagEngine.getProperty ⟨some 0⟩ "on" sampleWorld.engine
      = (.ok ⟨.BooleanKind, .boolean true⟩, ()) ∧
    flagEngine.getProperty ⟨some 0⟩ "off" sampleWorld.engine
      = (.ok ⟨.BooleanKind, .boolean false⟩, ()) ∧
    (Object.getPropertyAsObject flagEngine ⟨some 0⟩ "on" sampleWorld).1
      = .error (.JSError "getPropertyAsObject: property 'on' is true, expected an Object") ∧
    (Object.getPropertyAsObject flagEngine ⟨some 0⟩ "off" sampleWorld).1
      = .error (.JSError
          "getPropertyAsObject: property 'off' is false, expected an Object") :=
  ⟨rfl, rfl, fun h => absurd (h.2 rfl) (by decide), rfl, rfl, rfl, rfl⟩

/-- C10, amended. `Object::getPropertyAsObject`, when the contract returns the value
`v` for property `name` of the object: the call succeeds exactly when `v` is an Object
and the contract's `cloneObject` returns on the handle of `v`; it then returns the
Object on the returned handle, the local value having been destroyed, and a failure
raised by the clone is passed on.  When `v` is not an Object the call throws the
message "getPropertyAsObject: property '" ++ name ++ "' is " ++ text ++ ", expected an
Object", the text being "undefined", "null", "a number", "a string", "a symbol" for
these kinds and, for a Boolean, the stored boolean, "true" or "false".  A failure
raised by the property read is passed on. -/
theorem getPropertyAsObject_spec {σ : Type} (rt : JSContext σ) (o : Object) (name : String)
    (w : World σ) :
    (∀ (v : Value) (s1 : σ), rt.getProperty o name w.engine = (.ok v, s1) →
      ((Object.getPropertyAsObject rt o name w).1.isOk = true ↔ v.kind_ = .ObjectKind ∧
        ∃ (h : Option PointerValue) (s2 : σ),
          rt.cloneObject v.data_.readPointer.ptr_ s1 = (.ok h, s2)) ∧
      (v.kind_ = .ObjectKind →
        (∀ (h : Option PointerValue) (s2 : σ),
          rt.cloneObject v.data_.readPointer.ptr_ s1 = (.ok h, s2) →
          Object.getPropertyAsObject rt o name w
            = (.ok ⟨h⟩, ⟨rt.release v.data_.readPointer.ptr_ s2,
                w.trace ++ [.getProperty o name] ++ [.cloneObject v.data_.readPointer.ptr_]
                  ++ releaseCalls v.data_.readPointer.ptr_⟩)) ∧
        (∀ (e : JSException) (s2 : σ),
          rt.cloneObject v.data_.readPointer.ptr_ s1 = (.error e, s2) →
          (Object.getPropertyAsObject rt o name w).1 = .error e)) ∧
      (v.kind_ ≠ .ObjectKind →
        (Object.getPropertyAsObject rt o name w).1 = .error (.JSError
          ("getPropertyAsObject: property '" ++ name ++ "' is " ++ diagnosticText v
            ++ ", expected an Object")))) ∧
    (∀ (e : JSException) (s1 : σ), rt.getProperty o name w.engine = (.error e, s1) →
      Object.getPropertyAsObject rt o name w
        = (.error e, ⟨s1, w.trace ++ [.getProperty o name]⟩)) ∧
    (∀ d : Data,
      diagnosticText ⟨.UndefinedKind, d⟩ = "undefined" ∧
      diagnosticText ⟨.NullKind, d⟩ = "null" ∧
      (∀ x : Bool, diagnosticText ⟨.BooleanKind, .boolean x⟩
        = if x then "true" else "false") ∧
      diagnosticText ⟨.NumberKind, d⟩ = "a number" ∧
      diagnosticText ⟨.StringKind, d⟩ = "a string" ∧
      diagnosticText ⟨.SymbolKind, d⟩ = "a symbol") := by
  obtain ⟨s, t⟩ := w
  refine ⟨fun v s1 hget => ⟨?_, fun hk => ⟨?_, ?_⟩, ?_⟩,
    fun e s1 hget => Object.getPropertyAsObject_of_get_error rt o name s s1 t e hget,
    fun d => ⟨rfl, rfl, fun _ => rfl, rfl, rfl, rfl⟩⟩
  · by_cases hk : v.kind_ = .ObjectKind
    · rw [Object.getPropertyAsObject_of_object rt o name s s1 t v hget hk]
      exact (JSA.getter_spec (.cloneObject v.data_.readPointer.ptr_)
        (rt.cloneObject v.data_.readPointer.ptr_) (⟨s1, t ++ [EngineCall.getProperty o name]⟩ : World σ)).1.trans
        ⟨fun h => ⟨hk, h⟩, fun h => h.2⟩
    · rw [Object.getPropertyAsObject_mismatch_text rt o name s s1 t v hget hk]
      exact ⟨fun h => Bool.noConfusion h, fun h => absurd h.1 hk⟩
  · intro h s2 hc
    exact Object.getPropertyAsObject_ok rt o name s s1 s2 t v h hget hk hc
  · intro e s2 hc
    rw [Object.getPropertyAsObject_of_object rt o name s s1 t v hget hk]
    exact congrArg Prod.fst ((JSA.getter_spec (.cloneObject v.data_.readPointer.ptr_)
      (rt.cloneObject v.data_.readPointer.ptr_) (⟨s1, t ++ [EngineCall.getProperty o name]⟩ : World σ)).2.2 e s2 hc)
  · exact Object.getPropertyAsObject_mismatch_text rt o name s s1 t v hget

/-- Witness of C10, amended: with the sample engine property `n` of the global object
is the Number 42.0 and the message says "a number"; property `foo` is the Object on
handle 7, returned on its clone 1007. -/
theorem getPropertyAsObject_spec_witness :
    sampleEngine.getProperty ⟨some 0⟩ "n" sampleWorld.engine
      = (.ok ⟨.NumberKind, .number fortyTwo⟩, ()) ∧
    (Value.mk .NumberKind (.number fortyTwo)).kind_ ≠ .ObjectKind ∧
    (Object.getPropertyAsObject sampleEngine ⟨some 0⟩ "n" sampleWorld).1
      = .error (.JSError "getPropertyAsObject: property 'n' is a number, expected an Object") ∧
    sampleEngine.getProperty ⟨some 0⟩ "foo" sampleWorld.engine
      = (.ok ⟨.ObjectKind, .pointer ⟨some 7⟩⟩, ()) ∧
    sampleEngine.cloneObject (some 7) () = (.ok (some 1007), ()) ∧
    Object.getPropertyAsObject sampleEngine ⟨some 0⟩ "foo" sampleWorld
      = (.ok ⟨some 1007⟩, ⟨(), [.getProperty ⟨some 0⟩ "foo", .cloneObject (some 7),
          .invalidate 7]⟩) :=
  ⟨rfl, by decide,
    ((getPropertyAsObject_spec sampleEngine ⟨some 0⟩ "n" sampleWorld).1
      ⟨.NumberKind, .number fortyTwo⟩ () rfl).2.2 (by decide),
    rfl, rfl,
    (((getPropertyAsObject_spec sampleEngine ⟨some 0⟩ "foo" sampleWorld).1
      ⟨.ObjectKind, .pointer ⟨some 7⟩⟩ () rfl).2.1 rfl).1 (some 1007) () rfl⟩

/-- The sample engine on property `n`: the thrown message in full. -/
theorem getPropertyAsObject_sample_number :
    (Object.getPropertyAsObject sampleEngine ⟨some 0⟩ "n" sampleWorld).1
      = .error (.JSError "getPropertyAsObject: property 'n' is a number, expected an Object") :=
  rfl

/-- The sample engine on property `foo`: the returned Object is on the clone of
handle 7, and the local value on handle 7 has been destroyed. -/
theorem getPropertyAsObject_sample_object :
    Object.getPropertyAsObject sampleEngine ⟨some 0⟩ "foo" sampleWorld
      = (.ok ⟨some 1007⟩, ⟨(), [.getProperty ⟨some 0⟩ "foo", .cloneObject (some 7),
          .invalidate 7]⟩) :=
  rfl

/-- The sample engine on property `bar`, a function: the Function is on the clone of
handle 8, the local value on handle 8 has been destroyed and nothing else. -/
theorem getPropertyAsFunction_sample_function :
    Object.getPropertyAsFunction sampleEngine ⟨some 0⟩ "bar" sampleWorld
      = (.ok ⟨some 1008⟩, ⟨(), [.getProperty ⟨some 0⟩ "bar", .cloneObject (some 8),
          .invalidate 8, .isFunction ⟨some 1008⟩]⟩) :=
  rfl

/-- C12. `Array::createWithElements` on the list `elements` of length n.  When
`createArray` returns the array `a` and the assignments on `a` return, the call
returns `a` and the engine calls it made are `createArray n` followed by the
assignments `Array.assignments a 0 elements`; that list has n entries, entry `i`
being the assignment of element `i` at index `i`.  Under a contract whose indexed
operations behave as an array store, the array returned holds exactly `elements`:
its length is n and position `i` reads element `i`. -/
theorem createWithElements_spec {σ : Type} (rt : JSContext σ) (elements : List Value)
    (w : World σ) :
    (∀ (a : JSArray) (s1 : σ), rt.createArray elements.length w.engine = (.ok a, s1) →
      (∀ i v, (rt.setValueAtIndex a i v).Returns) →
      ∃ s2 : σ, Array.createWithElements rt elements w
        = (.ok a, ⟨s2, w.trace
            ++ .createArray elements.length :: Array.assignments a 0 elements⟩)) ∧
    (∀ a : JSArray, (Array.assignments a 0 elements).length = elements.length ∧
      ∀ i : Nat, (Array.assignments a 0 elements)[i]?
        = (elements[i]?).map (fun v => EngineCall.setValueAtIndex a i v)) ∧
    (∀ content : σ → JSArray → Option (List Value), rt.ArrayStore content →
      ∃ (a : JSArray) (s2 : σ),
        Array.createWithElements rt elements w
          = (.ok a, ⟨s2, w.trace
              ++ .createArray elements.length :: Array.assignments a 0 elements⟩) ∧
        content s2 a = some elements) := by
  obtain ⟨s, t⟩ := w
  refine ⟨?_, ?_, ?_⟩
  · intro a s1 hcreate hset
    obtain ⟨s2, h2⟩ := Array.loop_trace rt a hset elements 0 s1
      (t ++ [.createArray elements.length])
    refine ⟨s2, ?_⟩
    rw [Array.createWithElements_of_loop rt elements s s1 s2 t _ a hcreate h2,
      List.append_assoc]
    rfl
  · intro a
    refine ⟨Array.assignments_length a elements 0, fun i => ?_⟩
    rw [Array.assignments_getElem? a elements 0 i, Nat.zero_add]
  · intro content hs
    obtain ⟨a, s1, l, hcreate, hl, hlen⟩ := hs.create elements.length s
    obtain ⟨s2, h2, hc⟩ := Array.loop_store rt content hs a elements 0 s1
      (t ++ [.createArray elements.length]) l hl (by rw [Nat.zero_add, hlen])
    refine ⟨a, s2, ?_, ?_⟩
    · rw [Array.createWithElements_of_loop rt elements s s1 s2 t _ a hcreate h2,
        List.append_assoc]
      rfl
    · rw [hc]
      rfl

/-- Witness of C12: three elements on the array store engine. -/
theorem createWithElements_spec_witness :
    storeEngine.ArrayStore storeContent ∧
    ∃ (a : JSArray) (s2 : List (List Value)),
      Array.createWithElements storeEngine
          [⟨.NumberKind, .number fortyTwo⟩, ⟨.BooleanKind, .boolean true⟩,
            ⟨.NullKind, .uninit⟩] ⟨[], []⟩
        = (.ok a, ⟨s2, [] ++ .createArray 3 :: Array.assignments a 0
            [⟨.NumberKind, .number fortyTwo⟩, ⟨.BooleanKind, .boolean true⟩,
              ⟨.NullKind, .uninit⟩]⟩) ∧
      storeContent s2 a = some [⟨.NumberKind, .number fortyTwo⟩,
        ⟨.BooleanKind, .boolean true⟩, ⟨.NullKind, .uninit⟩] :=
  ⟨storeEngine_arrayStore,
    (createWithElements_spec storeEngine
      [⟨.NumberKind, .number fortyTwo⟩, ⟨.BooleanKind, .boolean true⟩, ⟨.NullKind, .uninit⟩]
      ⟨[], []⟩).2.2 storeContent storeEngine_arrayStore⟩

/-- The array store engine on three elements: one array of length 3 is created, the
three assignments are made at indices 0, 1, 2 in input order, and the array holds
the elements in input order. -/
theorem createWithElements_sample :
    Array.createWithElements storeEngine
        [⟨.NumberKind, .number fortyTwo⟩, ⟨.BooleanKind, .boolean true⟩,
          ⟨.NullKind, .uninit⟩] ⟨[], []⟩
      = (.ok ⟨some 0⟩,
          ⟨[[⟨.NumberKind, .number fortyTwo⟩, ⟨.BooleanKind, .boolean true⟩,
              ⟨.NullKind, .uninit⟩]],
            [.createArray 3,
              .setValueAtIndex ⟨some 0⟩ 0 ⟨.NumberKind, .number fortyTwo⟩,
              .setValueAtIndex ⟨some 0⟩ 1 ⟨.BooleanKind, .boolean true⟩,
              .setValueAtIndex ⟨some 0⟩ 2 ⟨.NullKind, .uninit⟩]⟩) :=
  rfl

/-- C13. `Pointer::operator=(Pointer &&)` on two different handles `p` and `q`.  When
`p` holds `hp`, the assignment makes exactly one engine call, the invalidation of
`hp`; when `p` is null it makes none.  Afterwards `p` holds what `q` held and `q` is
null.  A handle `hq` held by `q`, different from `hp`, is not invalidated. -/
theorem moveAssign_spec {σ : Type} (rt : JSContext σ) (p q : Pointer) (w : World σ) :
    (∀ hp : PointerValue, p.ptr_ = some hp →
      Pointer.moveAssign rt p q w
        = (.ok (⟨q.ptr_⟩, ⟨none⟩), ⟨rt.invalidate hp w.engine, w.trace ++ [.invalidate hp]⟩) ∧
      ∀ hq : PointerValue, q.ptr_ = some hq → hq ≠ hp →
        EngineCall.invalidate hq ∉ [EngineCall.invalidate hp]) ∧
    (p.ptr_ = none → Pointer.moveAssign rt p q w = (.ok (⟨q.ptr_⟩, ⟨none⟩), w)) := by
  obtain ⟨pp⟩ := p
  constructor
  · intro hp h
    simp only at h
    subst h
    refine ⟨rfl, fun hq _ hne hmem => ?_⟩
    rw [List.mem_singleton] at hmem
    exact hne (EngineCall.invalidate.inj hmem)
  · intro h
    simp only at h
    subst h
    rfl

/-- Witness of C13: `p` on handle 5, `q` on handle 6. -/
theorem moveAssign_spec_witness :
    (Pointer.mk (some 5)).ptr_ = some 5 ∧
    Pointer.moveAssign sampleEngine ⟨some 5⟩ ⟨some 6⟩ sampleWorld
      = (.ok (⟨some 6⟩, ⟨none⟩), ⟨(), [.invalidate 5]⟩) ∧
    (Pointer.mk (some 6)).ptr_ = some 6 ∧ (6 : PointerValue) ≠ 5 ∧
    EngineCall.invalidate 6 ∉ [EngineCall.invalidate 5] :=
  have h := (moveAssign_spec sampleEngine ⟨some 5⟩ ⟨some 6⟩ sampleWorld).1 5 rfl
  ⟨rfl, h.1, rfl, by decide, h.2 6 rfl (by decide)⟩

/-- C14. A value of a reference kind holding handle `h` is moved into a new value and
both are destroyed: destroying the moved-from source makes no engine call, destroying
the new value makes one, the invalidation of `h`; in either order of destruction `h`
is invalidated exactly once.  Destroying a value of kind Undefined, Null, Boolean or
Number makes no engine call. -/
theorem move_then_destroy {σ : Type} (rt : JSContext σ) (k : ValueKind) (h : PointerValue)
    (w : World σ) (hk : k.ge PointerKind = true) :
    Value.dtor rt (Value.moveCtor ⟨k, .pointer ⟨some h⟩⟩).2 w = (.ok (), w) ∧
    Value.dtor rt (Value.moveCtor ⟨k, .pointer ⟨some h⟩⟩).1 w
      = (.ok (), ⟨rt.invalidate h w.engine, w.trace ++ [.invalidate h]⟩) ∧
    (Value.dtor rt (Value.moveCtor ⟨k, .pointer ⟨some h⟩⟩).2 >>= fun _ =>
        Value.dtor rt (Value.moveCtor ⟨k, .pointer ⟨some h⟩⟩).1) w
      = (.ok (), ⟨rt.invalidate h w.engine, w.trace ++ [.invalidate h]⟩) ∧
    (Value.dtor rt (Value.moveCtor ⟨k, .pointer ⟨some h⟩⟩).1 >>= fun _ =>
        Value.dtor rt (Value.moveCtor ⟨k, .pointer ⟨some h⟩⟩).2) w
      = (.ok (), ⟨rt.invalidate h w.engine, w.trace ++ [.invalidate h]⟩) ∧
    (∀ u : Value, u.kind_.ge PointerKind = false → Value.dtor rt u w = (.ok (), w)) := by
  refine ⟨?_, ?_, ?_, ?_, ?_⟩
  · cases k <;> first
      | (exfalso; revert hk; decide)
      | rfl
  · cases k <;> first
      | (exfalso; revert hk; decide)
      | rfl
  · cases k <;> first
      | (exfalso; revert hk; decide)
      | rfl
  · cases k <;> first
      | (exfalso; revert hk; decide)
      | rfl
  · intro u hu
    unfold Value.dtor
    rw [hu]
    rfl

/-- Witness of C14: an Object value on handle 7. -/
theorem move_then_destroy_witness :
    ValueKind.ObjectKind.ge PointerKind = true ∧
    Value.dtor sampleEngine (Value.moveCtor ⟨.ObjectKind, .pointer ⟨some 7⟩⟩).2 sampleWorld
      = (.ok (), sampleWorld) ∧
    Value.dtor sampleEngine (Value.moveCtor ⟨.ObjectKind, .pointer ⟨some 7⟩⟩).1 sampleWorld
      = (.ok (), ⟨(), [.invalidate 7]⟩) :=
  have h := move_then_destroy sampleEngine .ObjectKind 7 sampleWorld (by decide)
  ⟨by decide, h.1, h.2.1⟩

/-- C16, as stated, fails: two Boolean values, one true and one false, have the same
kind and `kindToString` gives "true" for one and "false" for the other. -/
theorem kindToString_boolean_differs :
    (Value.mk .BooleanKind (.boolean true)).kind_
      = (Value.mk .BooleanKind (.boolean false)).kind_ ∧
    (kindToString ⟨.BooleanKind, .boolean true⟩ (none : Option (JSContext Unit)) sampleWorld).1
      = .ok "true" ∧
    (kindToString ⟨.BooleanKind, .boolean false⟩ (none : Option (JSContext Unit)) sampleWorld).1
      = .ok "false" ∧
    (kindToString ⟨.BooleanKind, .boolean true⟩ (none : Option (JSContext Unit)) sampleWorld).1
      ≠ (kindToString ⟨.BooleanKind, .boolean false⟩ (none : Option (JSContext Unit))
          sampleWorld).1 :=
  ⟨rfl, rfl, rfl, fun h => absurd (Except.ok.inj h) (by decide)⟩

/-- C16, amended. For two values of the same kind among Undefined, Null, Number,
Symbol and String, `kindToString` gives the same text whatever their payloads (and
makes no engine call); for a Boolean the text is the stored boolean, "true" or
"false". -/
theorem kindToString_same_kind {σ : Type} (r : Option (JSContext σ)) (w : World σ)
    (a b : Value) (hab : a.kind_ = b.kind_) (hbool : a.kind_ ≠ .BooleanKind)
    (hobj : a.kind_ ≠ .ObjectKind) :
    kindToString a r w = kindToString b r w ∧
    (∃ text : String, kindToString a r w = (.ok text, w)) ∧
    (∀ x : Bool, kindToString ⟨.BooleanKind, .boolean x⟩ r w
      = (.ok (if x then "true" else "false"), w)) := by
  obtain ⟨ka, da⟩ := a
  obtain ⟨kb, db⟩ := b
  simp only at hab hbool hobj
  subst hab
  refine ⟨?_, ?_, fun x => rfl⟩
  · cases ka <;> first
      | rfl
      | exact absurd rfl hbool
      | exact absurd rfl hobj
  · cases ka <;> first
      | exact ⟨_, rfl⟩
      | exact absurd rfl hbool
      | exact absurd rfl hobj

/-- Witness of C16, amended: the numbers 42.0 and 0. -/
theorem kindToString_same_kind_witness :
    (Value.mk .NumberKind (.number fortyTwo)).kind_ = (Value.mk .NumberKind (.number ⟨0⟩)).kind_ ∧
    (Value.mk .NumberKind (.number fortyTwo)).kind_ ≠ .BooleanKind ∧
    (Value.mk .NumberKind (.number fortyTwo)).kind_ ≠ .ObjectKind ∧
    kindToString ⟨.NumberKind, .number fortyTwo⟩ (some sampleEngine) sampleWorld
      = kindToString ⟨.NumberKind, .number ⟨0⟩⟩ (some sampleEngine) sampleWorld :=
  ⟨rfl, by decide, by decide,
    (kindToString_same_kind (some sampleEngine) sampleWorld ⟨.NumberKind, .number fortyTwo⟩
      ⟨.NumberKind, .number ⟨0⟩⟩ rfl (by decide) (by decide)).1⟩

/-- C17. The consuming `Value::asObject` on an Object value holding handle `h`: it
returns an Object on `h` and leaves the world unchanged, so no clone (no engine call
at all) is made; the value afterwards holds no handle and destroying it makes no
engine call. -/
theorem asObjectMove_spec {σ : Type} (rt : JSContext σ) (h : PointerValue) (w : World σ) :
    ∃ (o : Object) (v1 : Value),
      Value.asObjectMove rt ⟨.ObjectKind, .pointer ⟨some h⟩⟩ w = (.ok (o, v1), w) ∧
      o.ptr_ = some h ∧
      v1.handle = none ∧
      v1.data_ = .pointer ⟨none⟩ ∧
      ∀ w2 : World σ, Value.dtor rt v1 w2 = (.ok (), w2) :=
  ⟨⟨some h⟩, ⟨.ObjectKind, .pointer ⟨none⟩⟩, rfl, rfl, rfl, rfl, fun _ => rfl⟩

/-- C18, as stated, fails: after the consuming `asObject` succeeded on the Object value
on handle 7, the kind of the value is not Undefined, and the value is not the one
move construction leaves behind. -/
theorem asObjectMove_kind_not_undefined :
    ∃ (o : Object) (v1 : Value),
      Value.asObjectMove sampleEngine ⟨.ObjectKind, .pointer ⟨some 7⟩⟩ sampleWorld
        = (.ok (o, v1), sampleWorld) ∧
      v1.kind_ = .ObjectKind ∧
      v1.kind_ ≠ .UndefinedKind ∧
      v1 ≠ (Value.moveCtor ⟨.ObjectKind, .pointer ⟨some 7⟩⟩).2 :=
  ⟨⟨some 7⟩, ⟨.ObjectKind, .pointer ⟨none⟩⟩, rfl, rfl, by decide, by decide⟩

/-- C18, amended. After the consuming `asObject` succeeded on a value, the value has
kept its kind Object and its raw handle is null: it holds no handle, destroying it
makes no engine call, and its storage is the one move construction leaves in a
moved-from Object value, whose kind however is Undefined. -/
theorem asObjectMove_source {σ : Type} (rt : JSContext σ) (v : Value) (w w1 : World σ)
    (o : Object) (v1 : Value) (hok : Value.asObjectMove rt v w = (.ok (o, v1), w1)) :
    v.kind_ = .ObjectKind ∧
    v1.kind_ = .ObjectKind ∧
    v1.data_ = .pointer ⟨none⟩ ∧
    v1.handle = none ∧
    (∀ w2 : World σ, Value.dtor rt v1 w2 = (.ok (), w2)) ∧
    v1.data_ = (Value.moveCtor v).2.data_ ∧
    (Value.moveCtor v).2.kind_ = .UndefinedKind := by
  by_cases hk : v.kind_ = .ObjectKind
  · have hb : ¬ ((!v.isObject) = true) := by simp [Value.isObject, hk]
    unfold Value.asObjectMove at hok
    rw [if_neg hb] at hok
    have h1 : v1 = ⟨v.kind_, .pointer ⟨none⟩⟩ :=
      (congrArg Prod.snd (Except.ok.inj (congrArg Prod.fst hok))).symm
    subst h1
    obtain ⟨k, d⟩ := v
    simp only at hk
    subst hk
    exact ⟨rfl, rfl, rfl, rfl, fun _ => rfl, rfl, rfl⟩
  · exfalso
    obtain ⟨desc, w2, hd⟩ : ∃ (desc : String) (w2 : World σ) ,
        Value.asObjectMove rt v w
          = (.error (.JSError ("Value is " ++ desc ++ ", expected an Object")), w2) := by
      obtain ⟨desc, hd⟩ := kindToString_of_not_object v (some rt) w hk
      refine ⟨desc, w, ?_⟩
      unfold Value.asObjectMove
      have hb : (!v.isObject) = true := by simp [Value.isObject, hk]
      rw [if_pos hb, JSA.bind_of_ok hd]
      rfl
    rw [hd] at hok
    exact Except.noConfusion (congrArg Prod.fst hok)

/-- Witness of C18, amended: the Object value on handle 7. -/
theorem asObjectMove_source_witness :
    Value.asObjectMove sampleEngine ⟨.ObjectKind, .pointer ⟨some 7⟩⟩ sampleWorld
      = (.ok (⟨some 7⟩, ⟨.ObjectKind, .pointer ⟨none⟩⟩), sampleWorld) ∧
    (Value.mk .ObjectKind (.pointer ⟨none⟩)).kind_ = .ObjectKind ∧
    (Value.mk .ObjectKind (.pointer ⟨none⟩)).handle = none :=
  have h := asObjectMove_source sampleEngine ⟨.ObjectKind, .pointer ⟨some 7⟩⟩ sampleWorld
    sampleWorld ⟨some 7⟩ ⟨.ObjectKind, .pointer ⟨none⟩⟩ rfl
  ⟨rfl, h.2.1, h.2.2.2.1⟩

/-- C19. When `Object::getPropertyAsFunction` succeeds with Function `fn`, there is
the intermediate Object `obj` that `getPropertyAsObject` returned: `fn` holds exactly
the handle of `obj`; the only engine call made after `obj` was obtained is
`isFunction obj`, which is not a clone; `obj` is left with a null handle, and
destroying it makes no engine call. -/
theorem getPropertyAsFunction_transfers {σ : Type} (rt : JSContext σ) (o : Object)
    (name : String) (w w2 : World σ) (fn : JSFunction)
    (hsucc : Object.getPropertyAsFunction rt o name w = (.ok fn, w2)) :
    ∃ (obj : Object) (w1 : World σ),
      Object.getPropertyAsObject rt o name w = (.ok obj, w1) ∧
      fn.ptr_ = obj.ptr_ ∧
      fn = (Object.intoFunction obj).1 ∧
      (Object.intoFunction obj).2.ptr_ = none ∧
      w2.trace = w1.trace ++ [.isFunction obj] ∧
      (EngineCall.isFunction obj).isClone = false ∧
      ∀ w3 : World σ, Pointer.dtor rt (Object.intoFunction obj).2 w3 = (.ok (), w3) := by
  cases hg : Object.getPropertyAsObject rt o name w with
  | mk r w1 =>
    cases r with
    | error e =>
      rw [Object.getPropertyAsFunction_of_error rt o name w w1 e hg] at hsucc
      exact Except.noConfusion (congrArg Prod.fst hsucc)
    | ok obj =>
      obtain ⟨s1, t1⟩ := w1
      cases hf : rt.isFunction obj s1 with
      | mk r2 s2 =>
        cases r2 with
        | error e =>
          exfalso
          have g : Object.isFunction rt obj ⟨s1, t1⟩
              = (.error e, ⟨s2, t1 ++ [.isFunction obj]⟩) := JSA.invoke_of_eq hf
          unfold Object.getPropertyAsFunction at hsucc
          rw [JSA.bind_of_ok hg, JSA.bind_of_error (JSA.onThrow_of_error g)] at hsucc
          exact Except.noConfusion (congrArg Prod.fst hsucc)
        | ok b =>
          cases b with
          | false =>
            exfalso
            have h1 := Object.getPropertyAsFunction_not_ok rt o name w obj s1 s2 t1 hg hf
            rw [hsucc] at h1
            exact Bool.noConfusion h1
          | true =>
            rw [Object.getPropertyAsFunction_of_callable rt o name w obj s1 s2 t1 hg hf]
              at hsucc
            have h1 : (⟨obj.ptr_⟩ : JSFunction) = fn :=
              Except.ok.inj (congrArg Prod.fst hsucc)
            have h2 : (⟨s2, t1 ++ [.isFunction obj]⟩ : World σ) = w2 :=
              congrArg Prod.snd hsucc
            subst h1
            subst h2
            exact ⟨obj, ⟨s1, t1⟩, rfl, rfl, rfl, rfl, rfl, rfl, fun _ => rfl⟩

/-- Witness of C19: with the sample engine property `bar` is a function. -/
theorem getPropertyAsFunction_transfers_witness :
    Object.getPropertyAsFunction sampleEngine ⟨some 0⟩ "bar" sampleWorld
      = (.ok ⟨some 1008⟩, ⟨(), [.getProperty ⟨some 0⟩ "bar", .cloneObject (some 8),
          .invalidate 8, .isFunction ⟨some 1008⟩]⟩) ∧
    ∃ (obj : Object) (w1 : World Unit),
      Object.getPropertyAsObject sampleEngine ⟨some 0⟩ "bar" sampleWorld = (.ok obj, w1) ∧
      (Pointer.mk (some 1008)).ptr_ = obj.ptr_ ∧
      (⟨some 1008⟩ : JSFunction) = (Object.intoFunction obj).1 ∧
      (Object.intoFunction obj).2.ptr_ = none ∧
      [EngineCall.getProperty ⟨some 0⟩ "bar", .cloneObject (some 8), .invalidate 8,
          .isFunction ⟨some 1008⟩]
        = w1.trace ++ [.isFunction obj] ∧
      (EngineCall.isFunction obj).isClone = false ∧
      ∀ w3 : World Unit, Pointer.dtor sampleEngine (Object.intoFunction obj).2 w3 = (.ok (), w3) :=
  ⟨rfl, getPropertyAsFunction_transfers sampleEngine ⟨some 0⟩ "bar" sampleWorld
    ⟨(), [.getProperty ⟨some 0⟩ "bar", .cloneObject (some 8), .invalidate 8,
      .isFunction ⟨some 1008⟩]⟩ ⟨some 1008⟩ rfl⟩

/-- The sample engine, whose global has no property `String`: the thrown message in
full and the engine calls made, none of them an invocation. -/
theorem toString_sample_missing :
    Value.toString sampleEngine ⟨.NumberKind, .number fortyTwo⟩ sampleWorld
      = (.error (.JSError
          "getPropertyAsObject: property 'String' is undefined, expected an Object"),
        ⟨(), [.global, .getProperty ⟨some 0⟩ "String", .invalidate 0]⟩) :=
  rfl

/-- The sample engine, whose global has no property `JSON`: the thrown message in
full and the engine calls made, none of them an invocation. -/
theorem createFromJsonUtf8_sample_missing :
    Value.createFromJsonUtf8 sampleEngine [0x7b, 0x7d] sampleWorld
      = (.error (.JSError
          "getPropertyAsObject: property 'JSON' is undefined, expected an Object"),
        ⟨(), [.global, .getProperty ⟨some 0⟩ "JSON", .invalidate 0]⟩) :=
  rfl

end jsa

namespace webf

/-- The loop of `ChildTypeAllowed` answers true exactly when no child has the type. -/
theorem Document.loop_eq_true_iff (type : NodeType) (l : List Node) :
    Document.ChildTypeAllowed.loop type l = true ↔ ∀ c ∈ l, c.nodeType ≠ type := by
  induction l with
  | nil => exact ⟨fun _ _ h => (nomatch h), fun _ => rfl⟩
  | cons c rest ih =>
    by_cases hc : c.nodeType = type
    · have h1 : Document.ChildTypeAllowed.loop type (c :: rest) = false := by
        show (if c.nodeType = type then false
          else Document.ChildTypeAllowed.loop type rest) = false
        rw [if_pos hc]
      rw [h1]
      exact ⟨fun h => Bool.noConfusion h, fun h => absurd hc (h c (List.mem_cons_self c rest))⟩
    · have h1 : Document.ChildTypeAllowed.loop type (c :: rest)
          = Document.ChildTypeAllowed.loop type rest := by
        show (if c.nodeType = type then false
          else Document.ChildTypeAllowed.loop type rest) = _
        rw [if_neg hc]
      rw [h1, ih]
      constructor
      · intro h x hx
        rcases List.mem_cons.mp hx with h2 | h2
        · rw [h2]
          exact hc
        · exact h x h2
      · intro h x hx
        exact h x (List.mem_cons_of_mem c hx)

/-- When no child has the type, the count of the type is zero. -/
theorem countOfType_eq_zero (type : NodeType) (l : List Node)
    (h : ∀ c ∈ l, c.nodeType ≠ type) : countOfType type l = 0 := by
  unfold countOfType
  rw [List.length_eq_zero, List.filter_eq_nil_iff]
  intro c hc hd
  exact h c hc (of_decide_eq_true hd)

/-- Inserting a node adds one to the count of its own type and nothing to the others. -/
theorem countOfType_insert (type : NodeType) (pre post : List Node) (n : Node) :
    countOfType type (pre ++ n :: post)
      = countOfType type (pre ++ post) + (if n.nodeType = type then 1 else 0) := by
  unfold countOfType
  rw [List.filter_append, List.filter_append, List.length_append, List.length_append,
    List.filter_cons]
  by_cases hn : n.nodeType = type
  · simp only [hn, decide_True, if_true, List.length_cons]
    omega
  · simp only [hn, decide_False, if_false]
    rfl

/-- A guarded insertion keeps the count of a type at most one. -/
theorem countOfType_guarded_insert (type : NodeType) (pre post : List Node) (n : Node)
    (htype : type = .kElementNode ∨ type = .kDocumentTypeNode)
    (hle : countOfType type (pre ++ post) ≤ 1)
    (hok : Document.ChildTypeAllowed ⟨pre ++ post⟩ n.nodeType = true) :
    countOfType type (pre ++ n :: post) ≤ 1 := by
  rw [countOfType_insert]
  by_cases hn : n.nodeType = type
  · rw [if_pos hn]
    have hloop : Document.ChildTypeAllowed.loop type (pre ++ post) = true := by
      rw [hn] at hok
      rcases htype with h | h <;> rw [h] at hok ⊢ <;> exact hok
    rw [countOfType_eq_zero type _ ((Document.loop_eq_true_iff type _).mp hloop)]
  · rw [if_neg hn]
    exact hle

/-- Every document reached by guarded insertions and removals has at most one Element
child and at most one DocumentType child. -/
theorem Document.atMostOneEach_of_guarded (doc : Document) (h : Document.Guarded doc) :
    doc.AtMostOneEach := by
  induction h with
  | empty => exact ⟨Nat.zero_le 1, Nat.zero_le 1⟩
  | insert pre post n _ hok ih =>
    exact ⟨countOfType_guarded_insert _ pre post n (Or.inl rfl) ih.1 hok,
      countOfType_guarded_insert _ pre post n (Or.inr rfl) ih.2 hok⟩
  | remove pre post n _ ih =>
    have h1 := countOfType_insert .kElementNode pre post n
    have h2 := countOfType_insert .kDocumentTypeNode pre post n
    have i1 : countOfType .kElementNode (pre ++ n :: post) ≤ 1 := ih.1
    have i2 : countOfType .kDocumentTypeNode (pre ++ n :: post) ≤ 1 := ih.2
    constructor
    · show countOfType .kElementNode (pre ++ post) ≤ 1
      omega
    · show countOfType .kDocumentTypeNode (pre ++ post) ≤ 1
      omega

/-- C22. `Document::ChildTypeAllowed` answers false for the Attribute,
DocumentFragment, Document and Text node types and true for Comment; for Element and
for DocumentType it answers true exactly when no child of the document has that
type.  A guarded insertion into a document with at most one Element child and at
most one DocumentType child gives such a document again, and so every document
reached by guarded insertions (and removals) has at most one of each. -/
theorem ChildTypeAllowed_spec (doc : Document) :
    doc.ChildTypeAllowed .kAttributeNode = false ∧
    doc.ChildTypeAllowed .kDocumentFragmentNode = false ∧
    doc.ChildTypeAllowed .kDocumentNode = false ∧
    doc.ChildTypeAllowed .kTextNode = false ∧
    doc.ChildTypeAllowed .kCommentNode = true ∧
    (doc.ChildTypeAllowed .kElementNode = true
      ↔ ∀ c ∈ doc.children, c.nodeType ≠ .kElementNode) ∧
    (doc.ChildTypeAllowed .kDocumentTypeNode = true
      ↔ ∀ c ∈ doc.children, c.nodeType ≠ .kDocumentTypeNode) ∧
    (∀ (pre post : List Node) (n : Node), doc.children = pre ++ post →
      doc.AtMostOneEach → doc.ChildTypeAllowed n.nodeType = true →
      Document.AtMostOneEach ⟨pre ++ n :: post⟩) ∧
    (Document.Guarded doc → doc.AtMostOneEach) := by
  refine ⟨rfl, rfl, rfl, rfl, rfl, Document.loop_eq_true_iff _ _,
    Document.loop_eq_true_iff _ _, ?_, Document.atMostOneEach_of_guarded doc⟩
  intro pre post n hch hinv hok
  obtain ⟨ch⟩ := doc
  simp only at hch
  subst hch
  exact ⟨countOfType_guarded_insert _ pre post n (Or.inl rfl) hinv.1 hok,
    countOfType_guarded_insert _ pre post n (Or.inr rfl) hinv.2 hok⟩

/-- Witness of C22: the document with a DocumentType child and an Element child,
reached by two guarded insertions; a second Element is refused and a Comment is
accepted. -/
theorem ChildTypeAllowed_spec_witness :
    Document.Guarded ⟨[⟨.kDocumentTypeNode⟩, ⟨.kElementNode⟩]⟩ ∧
    Document.AtMostOneEach ⟨[⟨.kDocumentTypeNode⟩, ⟨.kElementNode⟩]⟩ ∧
    Document.ChildTypeAllowed ⟨[⟨.kDocumentTypeNode⟩, ⟨.kElementNode⟩]⟩ .kElementNode = false ∧
    Document.ChildTypeAllowed ⟨[⟨.kDocumentTypeNode⟩, ⟨.kElementNode⟩]⟩ .kCommentNode = true :=
  have hg : Document.Guarded ⟨[⟨.kDocumentTypeNode⟩, ⟨.kElementNode⟩]⟩ :=
    Document.Guarded.insert [⟨.kDocumentTypeNode⟩] [] ⟨.kElementNode⟩
      (Document.Guarded.insert [] [] ⟨.kDocumentTypeNode⟩ Document.Guarded.empty rfl) rfl
  ⟨hg, (ChildTypeAllowed_spec ⟨[⟨.kDocumentTypeNode⟩, ⟨.kElementNode⟩]⟩).2.2.2.2.2.2.2.2 hg,
    rfl, (ChildTypeAllowed_spec ⟨[⟨.kDocumentTypeNode⟩, ⟨.kElementNode⟩]⟩).2.2.2.2.1⟩

/-- The loop of `IsValidNameASCII` started at index `i` for `remaining` iterations
checks that each of the characters at `i`, ..., `i + remaining - 1` may follow in a
name. -/
theorem IsValidNameASCII.loop_eq (characters : Nat → Nat) (remaining : Nat) :
    ∀ i : Nat, IsValidNameASCII.loop characters i remaining
      = ((List.range remaining).map (fun k => characters (i + k))).all validNamePart := by
  induction remaining with
  | zero => exact fun _ => rfl
  | succ n ih =>
    intro i
    have h1 : IsValidNameASCII.loop characters i (n + 1)
        = (validNamePart (characters i) && IsValidNameASCII.loop characters (i + 1) n) := by
      show (if !(validNamePart (characters i)) then false
        else IsValidNameASCII.loop characters (i + 1) n) = _
      cases validNamePart (characters i) <;> rfl
    rw [h1, ih (i + 1), List.range_succ_eq_map, List.map_cons, List.all_cons, List.map_map]
    have h2 : (fun k => characters (i + 1 + k))
        = ((fun k => characters (i + k)) ∘ Nat.succ) := by
      funext k
      show characters (i + 1 + k) = characters (i + (k + 1))
      rw [Nat.add_assoc, Nat.add_comm 1 k]
    rw [h2]
    rfl

/-- `IsValidNameASCII` on at least one character decides whether the characters at
the indices below `length` form a valid name. -/
theorem IsValidNameASCII_eq (characters : Nat → Nat) (length : Nat) (h : length ≠ 0) :
    IsValidNameASCII characters length = validName ((List.range length).map characters) := by
  obtain ⟨n, hn⟩ := Nat.exists_eq_succ_of_ne_zero h
  subst hn
  have h1 : IsValidNameASCII characters (n + 1)
      = (validNameStart (characters 0) && IsValidNameASCII.loop characters 1 n) := by
    show (if !(validNameStart (characters 0)) then false
      else IsValidNameASCII.loop characters 1 (n + 1 - 1)) = _
    rw [Nat.add_sub_cancel]
    cases validNameStart (characters 0) <;> rfl
  rw [h1, IsValidNameASCII.loop_eq, List.range_succ_eq_map, List.map_cons, List.map_map]
  have h2 : (fun k => characters (1 + k)) = (characters ∘ Nat.succ) := by
    funext k
    show characters (1 + k) = characters (k + 1)
    rw [Nat.add_comm]
  rw [h2]
  rfl

/-- What `Document::IsValidName` computes: the name is not empty and either the view
is 8-bit and its 8-bit characters form a valid name, or the characters read through
`Characters16()` form a valid name. -/
theorem Document.IsValidName_eq (name : StringView) :
    Document.IsValidName name
      = (decide (name.length ≠ 0) &&
          ((name.Is8Bit && validName ((List.range name.length).map name.Characters8))
            || validName ((List.range name.length).map name.Characters16))) := by
  unfold Document.IsValidName
  by_cases h0 : name.length = 0
  · rw [if_pos h0]
    simp [h0]
  · rw [if_neg h0, IsValidNameASCII_eq _ _ h0, IsValidNameASCII_eq _ _ h0]
    simp only [ne_eq, h0, not_false_eq_true, decide_True, Bool.true_and]
    cases name.Is8Bit <;>
      cases validName ((List.range name.length).map name.Characters8) <;>
      cases validName ((List.range name.length).map name.Characters16) <;> rfl

/-- On a name that is not 8-bit, `Document::IsValidName` returns true exactly for the
valid names. -/
theorem Document.IsValidName_of_16bit (name : StringView) (h : name.Is8Bit = false) :
    Document.IsValidName name = validName name.characters := by
  rw [Document.IsValidName_eq]
  unfold StringView.characters
  rw [h]
  by_cases h0 : name.length = 0
  · simp [h0, validName]
  · simp [h0]

/-- On an 8-bit name, `Document::IsValidName` returns true for every valid name, and
for the names whose buffer reads as a valid name through `Characters16()`. -/
theorem Document.IsValidName_of_8bit (name : StringView) (h : name.Is8Bit = true) :
    Document.IsValidName name
      = (validName name.characters ||
          (decide (name.length ≠ 0) &&
            validName ((List.range name.length).map name.Characters16))) := by
  rw [Document.IsValidName_eq]
  unfold StringView.characters
  rw [h]
  by_cases h0 : name.length = 0
  · simp [h0, validName]
  · simp [h0]

/-- C23, evaluated where the code departs from it: the 8-bit name `a`, NUL, `b` is not
a valid name (NUL may not follow in a name), its check on the 8-bit characters fails,
and `Document::IsValidName` returns true, because the check on `Characters16()`
that follows succeeds. -/
theorem IsValidName_accepts_nulName :
    nulName.characters = [0x61, 0x00, 0x62] ∧
    validName nulName.characters = false ∧
    IsValidNameASCII nulName.Characters8 nulName.length = false ∧
    IsValidNameASCII nulName.Characters16 nulName.length = true ∧
    Document.IsValidName nulName = true := by
  refine ⟨by decide, by decide, by decide, by decide, by decide⟩

/-- A 16-bit name: `div` is accepted. -/
theorem IsValidName_divName :
    divName.characters = [0x64, 0x69, 0x76] ∧ Document.IsValidName divName = true := by
  refine ⟨by decide, by decide⟩

end webf
